import Mathlib

/-!
# `functions/validate.js`: the aroma validator

A shallow embedding of the Netlify function `validate.js` (the catalog loader, the text
normalizer, the signature verifier, the code generator and the request handler) and the
properties of it that the specification states.

Conventions of the embedding.

* A JavaScript string is a Lean `String` (a sequence of Unicode scalar values; lone surrogates
  are outside the model). The text functions work on the list of its code points.
* A JSON number is given by the integer of its literal; its value is the double nearest to that
  integer, and every arithmetic operation rounds its exact result to the nearest double (ties
  to even, `Infinity` beyond the largest double). Numbers with a fraction are outside the
  model.
* An exception is `Except.error` carrying the message (`e.message`); the messages of the
  runtime are abridged.
* What the code takes from its runtime and the embedding does not compute (the keyed hash, the
  parsed request body, the parsed catalog asset, the clock, the random number, coercions of
  arrays and objects) is an explicit input.
-/

namespace Validate

/-! ## Unicode data

`String.prototype.normalize("NFD")` and `String.prototype.toLowerCase()` are defined by the
Unicode Character Database. The tables below are those of Unicode 14.0, stored as search trees
over code-point ranges. -/

/-- A search tree over disjoint ranges `lo..hi` of code points, each carrying a value. -/
inductive Tbl (α : Type) where
  | leaf : Tbl α
  | node (l : Tbl α) (lo hi : Nat) (v : α) (r : Tbl α) : Tbl α

/-- The value of the range that holds `c`, if any. -/
def Tbl.find {α : Type} : Tbl α → Nat → Option α
  | .leaf, _ => none
  | .node l lo hi v r, c =>
    bif Nat.ble lo c then (bif Nat.ble c hi then some v else r.find c) else l.find c

/-- The ranges of a table with their values, in order. -/
def Tbl.entries {α : Type} : Tbl α → List (Nat × Nat × α)
  | .leaf => []
  | .node l lo hi v r => l.entries ++ (lo, hi, v) :: r.entries

open Tbl

def decompTable0 : Tbl (List Nat) :=
  node (node (node (node (node (node leaf 192 192 [65,768] leaf) 193 193 [65,769] leaf) 194 194
  [65,770] (node leaf 195 195 [65,771] leaf)) 196 196 [65,776] (node (node leaf 197 197 [65,778]
  leaf) 199 199 [67,807] (node leaf 200 200 [69,768] leaf))) 201 201 [69,769] (node (node (node leaf
  202 202 [69,770] leaf) 203 203 [69,776] (node leaf 204 204 [73,768] leaf)) 205 205 [73,769] (node
  (node leaf 206 206 [73,770] leaf) 207 207 [73,776] (node leaf 209 209 [78,771] leaf)))) 210 210
  [79,768] (node (node (node (node leaf 211 211 [79,769] leaf) 212 212 [79,770] (node leaf 213 213
  [79,771] leaf)) 214 214 [79,776] (node (node leaf 217 217 [85,768] leaf) 218 218 [85,769] (node
  leaf 219 219 [85,770] leaf))) 220 220 [85,776] (node (node (node leaf 221 221 [89,769] leaf) 224
  224 [97,768] (node leaf 225 225 [97,769] leaf)) 226 226 [97,770] (node (node leaf 227 227 [97,771]
  leaf) 228 228 [97,776] (node leaf 229 229 [97,778] leaf))))
def decompTable1 : Tbl (List Nat) :=
  node (node (node (node (node leaf 232 232 [101,768] leaf) 233 233 [101,769] (node leaf 234 234
  [101,770] leaf)) 235 235 [101,776] (node (node leaf 236 236 [105,768] leaf) 237 237 [105,769]
  (node leaf 238 238 [105,770] leaf))) 239 239 [105,776] (node (node (node leaf 241 241 [110,771]
  leaf) 242 242 [111,768] (node leaf 243 243 [111,769] leaf)) 244 244 [111,770] (node (node leaf 245
  245 [111,771] leaf) 246 246 [111,776] (node leaf 249 249 [117,768] leaf)))) 250 250 [117,769]
  (node (node (node (node leaf 251 251 [117,770] leaf) 252 252 [117,776] (node leaf 253 253
  [121,769] leaf)) 255 255 [121,776] (node (node leaf 256 256 [65,772] leaf) 257 257 [97,772] (node
  leaf 258 258 [65,774] leaf))) 259 259 [97,774] (node (node (node leaf 260 260 [65,808] leaf) 261
  261 [97,808] (node leaf 262 262 [67,769] leaf)) 263 263 [99,769] (node (node leaf 264 264 [67,770]
  leaf) 265 265 [99,770] (node leaf 266 266 [67,775] leaf))))
def decompTable2 : Tbl (List Nat) :=
  node (node (node (node (node (node leaf 268 268 [67,780] leaf) 269 269 [99,780] (node leaf 270 270
  [68,780] leaf)) 271 271 [100,780] (node (node leaf 274 274 [69,772] leaf) 275 275 [101,772] (node
  leaf 276 276 [69,774] leaf))) 277 277 [101,774] (node (node (node leaf 278 278 [69,775] leaf) 279
  279 [101,775] (node leaf 280 280 [69,808] leaf)) 281 281 [101,808] (node (node leaf 282 282
  [69,780] leaf) 283 283 [101,780] (node leaf 284 284 [71,770] leaf)))) 285 285 [103,770] (node
  (node (node (node leaf 286 286 [71,774] leaf) 287 287 [103,774] (node leaf 288 288 [71,775] leaf))
  289 289 [103,775] (node (node leaf 290 290 [71,807] leaf) 291 291 [103,807] (node leaf 292 292
  [72,770] leaf))) 293 293 [104,770] (node (node (node leaf 296 296 [73,771] leaf) 297 297 [105,771]
  (node leaf 298 298 [73,772] leaf)) 299 299 [105,772] (node (node leaf 300 300 [73,774] leaf) 301
  301 [105,774] (node leaf 302 302 [73,808] leaf))))) 303 303 [105,808] (node (node (node (node
  (node leaf 304 304 [73,775] leaf) 308 308 [74,770] (node leaf 309 309 [106,770] leaf)) 310 310
  [75,807] (node (node leaf 311 311 [107,807] leaf) 313 313 [76,769] (node leaf 314 314 [108,769]
  leaf))) 315 315 [76,807] (node (node (node leaf 316 316 [108,807] leaf) 317 317 [76,780] (node
  leaf 318 318 [108,780] leaf)) 323 323 [78,769] (node (node leaf 324 324 [110,769] leaf) 325 325
  [78,807] (node leaf 326 326 [110,807] leaf)))) 327 327 [78,780] (node (node (node (node leaf 328
  328 [110,780] leaf) 332 332 [79,772] (node leaf 333 333 [111,772] leaf)) 334 334 [79,774] (node
  (node leaf 335 335 [111,774] leaf) 336 336 [79,779] (node leaf 337 337 [111,779] leaf))) 340 340
  [82,769] (node (node (node leaf 341 341 [114,769] leaf) 342 342 [82,807] (node leaf 343 343
  [114,807] leaf)) 344 344 [82,780] (node (node leaf 345 345 [114,780] leaf) 346 346 [83,769] (node
  leaf 347 347 [115,769] leaf)))))
def decompTable3 : Tbl (List Nat) :=
  node (node (node (node (node (node leaf 349 349 [115,770] leaf) 350 350 [83,807] leaf) 351 351
  [115,807] (node leaf 352 352 [83,780] leaf)) 353 353 [115,780] (node (node leaf 354 354 [84,807]
  leaf) 355 355 [116,807] (node leaf 356 356 [84,780] leaf))) 357 357 [116,780] (node (node (node
  leaf 360 360 [85,771] leaf) 361 361 [117,771] (node leaf 362 362 [85,772] leaf)) 363 363 [117,772]
  (node (node leaf 364 364 [85,774] leaf) 365 365 [117,774] (node leaf 366 366 [85,778] leaf)))) 367
  367 [117,778] (node (node (node (node leaf 368 368 [85,779] leaf) 369 369 [117,779] (node leaf 370
  370 [85,808] leaf)) 371 371 [117,808] (node (node leaf 372 372 [87,770] leaf) 373 373 [119,770]
  (node leaf 374 374 [89,770] leaf))) 375 375 [121,770] (node (node (node leaf 376 376 [89,776]
  leaf) 377 377 [90,769] (node leaf 378 378 [122,769] leaf)) 379 379 [90,775] (node (node leaf 380
  380 [122,775] leaf) 381 381 [90,780] (node leaf 382 382 [122,780] leaf))))
def decompTable4 : Tbl (List Nat) :=
  node (node (node (node (node leaf 417 417 [111,795] leaf) 431 431 [85,795] (node leaf 432 432
  [117,795] leaf)) 461 461 [65,780] (node (node leaf 462 462 [97,780] leaf) 463 463 [73,780] (node
  leaf 464 464 [105,780] leaf))) 465 465 [79,780] (node (node (node leaf 466 466 [111,780] leaf) 467
  467 [85,780] (node leaf 468 468 [117,780] leaf)) 469 469 [85,776,772] (node (node leaf 470 470
  [117,776,772] leaf) 471 471 [85,776,769] (node leaf 472 472 [117,776,769] leaf)))) 473 473
  [85,776,780] (node (node (node (node leaf 474 474 [117,776,780] leaf) 475 475 [85,776,768] (node
  leaf 476 476 [117,776,768] leaf)) 478 478 [65,776,772] (node (node leaf 479 479 [97,776,772] leaf)
  480 480 [65,775,772] (node leaf 481 481 [97,775,772] leaf))) 482 482 [198,772] (node (node (node
  leaf 483 483 [230,772] leaf) 486 486 [71,780] (node leaf 487 487 [103,780] leaf)) 488 488 [75,780]
  (node (node leaf 489 489 [107,780] leaf) 490 490 [79,808] (node leaf 491 491 [111,808] leaf))))
def decompTable5 : Tbl (List Nat) :=
  node (node (node (node (node (node leaf 493 493 [111,808,772] leaf) 494 494 [439,780] (node leaf 495
  495 [658,780] leaf)) 496 496 [106,780] (node (node leaf 500 500 [71,769] leaf) 501 501 [103,769]
  (node leaf 504 504 [78,768] leaf))) 505 505 [110,768] (node (node (node leaf 506 506 [65,778,769]
  leaf) 507 507 [97,778,769] (node leaf 508 508 [198,769] leaf)) 509 509 [230,769] (node (node leaf
  510 510 [216,769] leaf) 511 511 [248,769] (node leaf 512 512 [65,783] leaf)))) 513 513 [97,783]
  (node (node (node (node leaf 514 514 [65,785] leaf) 515 515 [97,785] (node leaf 516 516 [69,783]
  leaf)) 517 517 [101,783] (node (node leaf 518 518 [69,785] leaf) 519 519 [101,785] (node leaf 520
  520 [73,783] leaf))) 521 521 [105,783] (node (node (node leaf 522 522 [73,785] leaf) 523 523
  [105,785] (node leaf 524 524 [79,783] leaf)) 525 525 [111,783] (node (node leaf 526 526 [79,785]
  leaf) 527 527 [111,785] (node leaf 528 528 [82,783] leaf))))) 529 529 [114,783] (node (node (node
  (node (node leaf 530 530 [82,785] leaf) 531 531 [114,785] (node leaf 532 532 [85,783] leaf)) 533
  533 [117,783] (node (node leaf 534 534 [85,785] leaf) 535 535 [117,785] (node leaf 536 536
  [83,806] leaf))) 537 537 [115,806] (node (node (node leaf 538 538 [84,806] leaf) 539 539 [116,806]
  (node leaf 542 542 [72,780] leaf)) 543 543 [104,780] (node (node leaf 550 550 [65,775] leaf) 551
  551 [97,775] (node leaf 552 552 [69,807] leaf)))) 553 553 [101,807] (node (node (node (node leaf
  554 554 [79,776,772] leaf) 555 555 [111,776,772] (node leaf 556 556 [79,771,772] leaf)) 557 557
  [111,771,772] (node (node leaf 558 558 [79,775] leaf) 559 559 [111,775] (node leaf 560 560
  [79,775,772] leaf))) 561 561 [111,775,772] (node (node (node leaf 562 562 [89,772] leaf) 563 563
  [121,772] (node leaf 832 832 [768] leaf)) 833 833 [769] (node (node leaf 835 835 [787] leaf) 836
  836 [776,769] (node leaf 884 884 [697] leaf)))))
def decompTable6 : Tbl (List Nat) :=
  node (node (node (node (node (node leaf 901 901 [168,769] leaf) 902 902 [913,769] leaf) 903 903
  [183] (node leaf 904 904 [917,769] leaf)) 905 905 [919,769] (node (node leaf 906 906 [921,769]
  leaf) 908 908 [927,769] (node leaf 910 910 [933,769] leaf))) 911 911 [937,769] (node (node (node
  leaf 912 912 [953,776,769] leaf) 938 938 [921,776] (node leaf 939 939 [933,776] leaf)) 940 940
  [945,769] (node (node leaf 941 941 [949,769] leaf) 942 942 [951,769] (node leaf 943 943 [953,769]
  leaf)))) 944 944 [965,776,769] (node (node (node (node leaf 970 970 [953,776] leaf) 971 971
  [965,776] (node leaf 972 972 [959,769] leaf)) 973 973 [965,769] (node (node leaf 974 974 [969,769]
  leaf) 979 979 [978,769] (node leaf 980 980 [978,776] leaf))) 1024 1024 [1045,768] (node (node
  (node leaf 1025 1025 [1045,776] leaf) 1027 1027 [1043,769] (node leaf 1031 1031 [1030,776] leaf))
  1036 1036 [1050,769] (node (node leaf 1037 1037 [1048,768] leaf) 1038 1038 [1059,774] (node leaf
  1049 1049 [1048,774] leaf))))
def decompTable7 : Tbl (List Nat) :=
  node (node (node (node (node leaf 1104 1104 [1077,768] leaf) 1105 1105 [1077,776] (node leaf 1107
  1107 [1075,769] leaf)) 1111 1111 [1110,776] (node (node leaf 1116 1116 [1082,769] leaf) 1117 1117
  [1080,768] (node leaf 1118 1118 [1091,774] leaf))) 1142 1142 [1140,783] (node (node (node leaf
  1143 1143 [1141,783] leaf) 1217 1217 [1046,774] (node leaf 1218 1218 [1078,774] leaf)) 1232 1232
  [1040,774] (node (node leaf 1233 1233 [1072,774] leaf) 1234 1234 [1040,776] (node leaf 1235 1235
  [1072,776] leaf)))) 1238 1238 [1045,774] (node (node (node (node leaf 1239 1239 [1077,774] leaf)
  1242 1242 [1240,776] (node leaf 1243 1243 [1241,776] leaf)) 1244 1244 [1046,776] (node (node leaf
  1245 1245 [1078,776] leaf) 1246 1246 [1047,776] (node leaf 1247 1247 [1079,776] leaf))) 1250 1250
  [1048,772] (node (node (node leaf 1251 1251 [1080,772] leaf) 1252 1252 [1048,776] (node leaf 1253
  1253 [1080,776] leaf)) 1254 1254 [1054,776] (node (node leaf 1255 1255 [1086,776] leaf) 1258 1258
  [1256,776] (node leaf 1259 1259 [1257,776] leaf))))
def decompTable8 : Tbl (List Nat) :=
  node (node (node (node (node (node leaf 1261 1261 [1101,776] leaf) 1262 1262 [1059,772] (node leaf
  1263 1263 [1091,772] leaf)) 1264 1264 [1059,776] (node (node leaf 1265 1265 [1091,776] leaf) 1266
  1266 [1059,779] (node leaf 1267 1267 [1091,779] leaf))) 1268 1268 [1063,776] (node (node (node
  leaf 1269 1269 [1095,776] leaf) 1272 1272 [1067,776] (node leaf 1273 1273 [1099,776] leaf)) 1570
  1570 [1575,1619] (node (node leaf 1571 1571 [1575,1620] leaf) 1572 1572 [1608,1620] (node leaf
  1573 1573 [1575,1621] leaf)))) 1574 1574 [1610,1620] (node (node (node (node leaf 1728 1728
  [1749,1620] leaf) 1730 1730 [1729,1620] (node leaf 1747 1747 [1746,1620] leaf)) 2345 2345
  [2344,2364] (node (node leaf 2353 2353 [2352,2364] leaf) 2356 2356 [2355,2364] (node leaf 2392
  2392 [2325,2364] leaf))) 2393 2393 [2326,2364] (node (node (node leaf 2394 2394 [2327,2364] leaf)
  2395 2395 [2332,2364] (node leaf 2396 2396 [2337,2364] leaf)) 2397 2397 [2338,2364] (node (node
  leaf 2398 2398 [2347,2364] leaf) 2399 2399 [2351,2364] (node leaf 2507 2507 [2503,2494] leaf)))))
  2508 2508 [2503,2519] (node (node (node (node (node leaf 2524 2524 [2465,2492] leaf) 2525 2525
  [2466,2492] (node leaf 2527 2527 [2479,2492] leaf)) 2611 2611 [2610,2620] (node (node leaf 2614
  2614 [2616,2620] leaf) 2649 2649 [2582,2620] (node leaf 2650 2650 [2583,2620] leaf))) 2651 2651
  [2588,2620] (node (node (node leaf 2654 2654 [2603,2620] leaf) 2888 2888 [2887,2902] (node leaf
  2891 2891 [2887,2878] leaf)) 2892 2892 [2887,2903] (node (node leaf 2908 2908 [2849,2876] leaf)
  2909 2909 [2850,2876] (node leaf 2964 2964 [2962,3031] leaf)))) 3018 3018 [3014,3006] (node (node
  (node (node leaf 3019 3019 [3015,3006] leaf) 3020 3020 [3014,3031] (node leaf 3144 3144
  [3142,3158] leaf)) 3264 3264 [3263,3285] (node (node leaf 3271 3271 [3270,3285] leaf) 3272 3272
  [3270,3286] (node leaf 3274 3274 [3270,3266] leaf))) 3275 3275 [3270,3266,3285] (node (node (node
  leaf 3402 3402 [3398,3390] leaf) 3403 3403 [3399,3390] (node leaf 3404 3404 [3398,3415] leaf))
  3546 3546 [3545,3530] (node (node leaf 3548 3548 [3545,3535] leaf) 3549 3549 [3545,3535,3530]
  (node leaf 3550 3550 [3545,3551] leaf)))))
def decompTable9 : Tbl (List Nat) :=
  node (node (node (node (node (node leaf 3917 3917 [3916,4023] leaf) 3922 3922 [3921,4023] leaf) 3927
  3927 [3926,4023] (node leaf 3932 3932 [3931,4023] leaf)) 3945 3945 [3904,4021] (node (node leaf
  3955 3955 [3953,3954] leaf) 3957 3957 [3953,3956] (node leaf 3958 3958 [4018,3968] leaf))) 3960
  3960 [4019,3968] (node (node (node leaf 3969 3969 [3953,3968] leaf) 3987 3987 [3986,4023] (node
  leaf 3997 3997 [3996,4023] leaf)) 4002 4002 [4001,4023] (node (node leaf 4007 4007 [4006,4023]
  leaf) 4012 4012 [4011,4023] (node leaf 4025 4025 [3984,4021] leaf)))) 4134 4134 [4133,4142] (node
  (node (node (node leaf 6918 6918 [6917,6965] leaf) 6920 6920 [6919,6965] (node leaf 6922 6922
  [6921,6965] leaf)) 6924 6924 [6923,6965] (node (node leaf 6926 6926 [6925,6965] leaf) 6930 6930
  [6929,6965] (node leaf 6971 6971 [6970,6965] leaf))) 6973 6973 [6972,6965] (node (node (node leaf
  6976 6976 [6974,6965] leaf) 6977 6977 [6975,6965] (node leaf 6979 6979 [6978,6965] leaf)) 7680
  7680 [65,805] (node (node leaf 7681 7681 [97,805] leaf) 7682 7682 [66,775] (node leaf 7683 7683
  [98,775] leaf))))
def decompTable10 : Tbl (List Nat) :=
  node (node (node (node (node leaf 7685 7685 [98,803] leaf) 7686 7686 [66,817] (node leaf 7687 7687
  [98,817] leaf)) 7688 7688 [67,807,769] (node (node leaf 7689 7689 [99,807,769] leaf) 7690 7690
  [68,775] (node leaf 7691 7691 [100,775] leaf))) 7692 7692 [68,803] (node (node (node leaf 7693
  7693 [100,803] leaf) 7694 7694 [68,817] (node leaf 7695 7695 [100,817] leaf)) 7696 7696 [68,807]
  (node (node leaf 7697 7697 [100,807] leaf) 7698 7698 [68,813] (node leaf 7699 7699 [100,813]
  leaf)))) 7700 7700 [69,772,768] (node (node (node (node leaf 7701 7701 [101,772,768] leaf) 7702
  7702 [69,772,769] (node leaf 7703 7703 [101,772,769] leaf)) 7704 7704 [69,813] (node (node leaf
  7705 7705 [101,813] leaf) 7706 7706 [69,816] (node leaf 7707 7707 [101,816] leaf))) 7708 7708
  [69,807,774] (node (node (node leaf 7709 7709 [101,807,774] leaf) 7710 7710 [70,775] (node leaf
  7711 7711 [102,775] leaf)) 7712 7712 [71,772] (node (node leaf 7713 7713 [103,772] leaf) 7714 7714
  [72,775] (node leaf 7715 7715 [104,775] leaf))))
def decompTable11 : Tbl (List Nat) :=
  node (node (node (node (node (node leaf 7717 7717 [104,803] leaf) 7718 7718 [72,776] (node leaf 7719
  7719 [104,776] leaf)) 7720 7720 [72,807] (node (node leaf 7721 7721 [104,807] leaf) 7722 7722
  [72,814] (node leaf 7723 7723 [104,814] leaf))) 7724 7724 [73,816] (node (node (node leaf 7725
  7725 [105,816] leaf) 7726 7726 [73,776,769] (node leaf 7727 7727 [105,776,769] leaf)) 7728 7728
  [75,769] (node (node leaf 7729 7729 [107,769] leaf) 7730 7730 [75,803] (node leaf 7731 7731
  [107,803] leaf)))) 7732 7732 [75,817] (node (node (node (node leaf 7733 7733 [107,817] leaf) 7734
  7734 [76,803] (node leaf 7735 7735 [108,803] leaf)) 7736 7736 [76,803,772] (node (node leaf 7737
  7737 [108,803,772] leaf) 7738 7738 [76,817] (node leaf 7739 7739 [108,817] leaf))) 7740 7740
  [76,813] (node (node (node leaf 7741 7741 [108,813] leaf) 7742 7742 [77,769] (node leaf 7743 7743
  [109,769] leaf)) 7744 7744 [77,775] (node (node leaf 7745 7745 [109,775] leaf) 7746 7746 [77,803]
  (node leaf 7747 7747 [109,803] leaf))))) 7748 7748 [78,775] (node (node (node (node (node leaf
  7749 7749 [110,775] leaf) 7750 7750 [78,803] (node leaf 7751 7751 [110,803] leaf)) 7752 7752
  [78,817] (node (node leaf 7753 7753 [110,817] leaf) 7754 7754 [78,813] (node leaf 7755 7755
  [110,813] leaf))) 7756 7756 [79,771,769] (node (node (node leaf 7757 7757 [111,771,769] leaf) 7758
  7758 [79,771,776] (node leaf 7759 7759 [111,771,776] leaf)) 7760 7760 [79,772,768] (node (node
  leaf 7761 7761 [111,772,768] leaf) 7762 7762 [79,772,769] (node leaf 7763 7763 [111,772,769]
  leaf)))) 7764 7764 [80,769] (node (node (node (node leaf 7765 7765 [112,769] leaf) 7766 7766
  [80,775] (node leaf 7767 7767 [112,775] leaf)) 7768 7768 [82,775] (node (node leaf 7769 7769
  [114,775] leaf) 7770 7770 [82,803] (node leaf 7771 7771 [114,803] leaf))) 7772 7772 [82,803,772]
  (node (node (node leaf 7773 7773 [114,803,772] leaf) 7774 7774 [82,817] (node leaf 7775 7775
  [114,817] leaf)) 7776 7776 [83,775] (node (node leaf 7777 7777 [115,775] leaf) 7778 7778 [83,803]
  (node leaf 7779 7779 [115,803] leaf)))))
def decompTable12 : Tbl (List Nat) :=
  node (node (node (node (node (node leaf 7781 7781 [115,769,775] leaf) 7782 7782 [83,780,775] leaf)
  7783 7783 [115,780,775] (node leaf 7784 7784 [83,803,775] leaf)) 7785 7785 [115,803,775] (node
  (node leaf 7786 7786 [84,775] leaf) 7787 7787 [116,775] (node leaf 7788 7788 [84,803] leaf))) 7789
  7789 [116,803] (node (node (node leaf 7790 7790 [84,817] leaf) 7791 7791 [116,817] (node leaf 7792
  7792 [84,813] leaf)) 7793 7793 [116,813] (node (node leaf 7794 7794 [85,804] leaf) 7795 7795
  [117,804] (node leaf 7796 7796 [85,816] leaf)))) 7797 7797 [117,816] (node (node (node (node leaf
  7798 7798 [85,813] leaf) 7799 7799 [117,813] (node leaf 7800 7800 [85,771,769] leaf)) 7801 7801
  [117,771,769] (node (node leaf 7802 7802 [85,772,776] leaf) 7803 7803 [117,772,776] (node leaf
  7804 7804 [86,771] leaf))) 7805 7805 [118,771] (node (node (node leaf 7806 7806 [86,803] leaf)
  7807 7807 [118,803] (node leaf 7808 7808 [87,768] leaf)) 7809 7809 [119,768] (node (node leaf 7810
  7810 [87,769] leaf) 7811 7811 [119,769] (node leaf 7812 7812 [87,776] leaf))))
def decompTable13 : Tbl (List Nat) :=
  node (node (node (node (node leaf 7814 7814 [87,775] leaf) 7815 7815 [119,775] (node leaf 7816 7816
  [87,803] leaf)) 7817 7817 [119,803] (node (node leaf 7818 7818 [88,775] leaf) 7819 7819 [120,775]
  (node leaf 7820 7820 [88,776] leaf))) 7821 7821 [120,776] (node (node (node leaf 7822 7822
  [89,775] leaf) 7823 7823 [121,775] (node leaf 7824 7824 [90,770] leaf)) 7825 7825 [122,770] (node
  (node leaf 7826 7826 [90,803] leaf) 7827 7827 [122,803] (node leaf 7828 7828 [90,817] leaf))))
  7829 7829 [122,817] (node (node (node (node leaf 7830 7830 [104,817] leaf) 7831 7831 [116,776]
  (node leaf 7832 7832 [119,778] leaf)) 7833 7833 [121,778] (node (node leaf 7835 7835 [383,775]
  leaf) 7840 7840 [65,803] (node leaf 7841 7841 [97,803] leaf))) 7842 7842 [65,777] (node (node
  (node leaf 7843 7843 [97,777] leaf) 7844 7844 [65,770,769] (node leaf 7845 7845 [97,770,769]
  leaf)) 7846 7846 [65,770,768] (node (node leaf 7847 7847 [97,770,768] leaf) 7848 7848 [65,770,777]
  (node leaf 7849 7849 [97,770,777] leaf))))
def decompTable14 : Tbl (List Nat) :=
  node (node (node (node (node (node leaf 7851 7851 [97,770,771] leaf) 7852 7852 [65,803,770] (node
  leaf 7853 7853 [97,803,770] leaf)) 7854 7854 [65,774,769] (node (node leaf 7855 7855 [97,774,769]
  leaf) 7856 7856 [65,774,768] (node leaf 7857 7857 [97,774,768] leaf))) 7858 7858 [65,774,777]
  (node (node (node leaf 7859 7859 [97,774,777] leaf) 7860 7860 [65,774,771] (node leaf 7861 7861
  [97,774,771] leaf)) 7862 7862 [65,803,774] (node (node leaf 7863 7863 [97,803,774] leaf) 7864 7864
  [69,803] (node leaf 7865 7865 [101,803] leaf)))) 7866 7866 [69,777] (node (node (node (node leaf
  7867 7867 [101,777] leaf) 7868 7868 [69,771] (node leaf 7869 7869 [101,771] leaf)) 7870 7870
  [69,770,769] (node (node leaf 7871 7871 [101,770,769] leaf) 7872 7872 [69,770,768] (node leaf 7873
  7873 [101,770,768] leaf))) 7874 7874 [69,770,777] (node (node (node leaf 7875 7875 [101,770,777]
  leaf) 7876 7876 [69,770,771] (node leaf 7877 7877 [101,770,771] leaf)) 7878 7878 [69,803,770]
  (node (node leaf 7879 7879 [101,803,770] leaf) 7880 7880 [73,777] (node leaf 7881 7881 [105,777]
  leaf))))) 7882 7882 [73,803] (node (node (node (node (node leaf 7883 7883 [105,803] leaf) 7884
  7884 [79,803] (node leaf 7885 7885 [111,803] leaf)) 7886 7886 [79,777] (node (node leaf 7887 7887
  [111,777] leaf) 7888 7888 [79,770,769] (node leaf 7889 7889 [111,770,769] leaf))) 7890 7890
  [79,770,768] (node (node (node leaf 7891 7891 [111,770,768] leaf) 7892 7892 [79,770,777] (node
  leaf 7893 7893 [111,770,777] leaf)) 7894 7894 [79,770,771] (node (node leaf 7895 7895
  [111,770,771] leaf) 7896 7896 [79,803,770] (node leaf 7897 7897 [111,803,770] leaf)))) 7898 7898
  [79,795,769] (node (node (node (node leaf 7899 7899 [111,795,769] leaf) 7900 7900 [79,795,768]
  (node leaf 7901 7901 [111,795,768] leaf)) 7902 7902 [79,795,777] (node (node leaf 7903 7903
  [111,795,777] leaf) 7904 7904 [79,795,771] (node leaf 7905 7905 [111,795,771] leaf))) 7906 7906
  [79,795,803] (node (node (node leaf 7907 7907 [111,795,803] leaf) 7908 7908 [85,803] (node leaf
  7909 7909 [117,803] leaf)) 7910 7910 [85,777] (node (node leaf 7911 7911 [117,777] leaf) 7912 7912
  [85,795,769] (node leaf 7913 7913 [117,795,769] leaf)))))
def decompTable15 : Tbl (List Nat) :=
  node (node (node (node (node (node leaf 7915 7915 [117,795,768] leaf) 7916 7916 [85,795,777] leaf)
  7917 7917 [117,795,777] (node leaf 7918 7918 [85,795,771] leaf)) 7919 7919 [117,795,771] (node
  (node leaf 7920 7920 [85,795,803] leaf) 7921 7921 [117,795,803] (node leaf 7922 7922 [89,768]
  leaf))) 7923 7923 [121,768] (node (node (node leaf 7924 7924 [89,803] leaf) 7925 7925 [121,803]
  (node leaf 7926 7926 [89,777] leaf)) 7927 7927 [121,777] (node (node leaf 7928 7928 [89,771] leaf)
  7929 7929 [121,771] (node leaf 7936 7936 [945,787] leaf)))) 7937 7937 [945,788] (node (node (node
  (node leaf 7938 7938 [945,787,768] leaf) 7939 7939 [945,788,768] (node leaf 7940 7940
  [945,787,769] leaf)) 7941 7941 [945,788,769] (node (node leaf 7942 7942 [945,787,834] leaf) 7943
  7943 [945,788,834] (node leaf 7944 7944 [913,787] leaf))) 7945 7945 [913,788] (node (node (node
  leaf 7946 7946 [913,787,768] leaf) 7947 7947 [913,788,768] (node leaf 7948 7948 [913,787,769]
  leaf)) 7949 7949 [913,788,769] (node (node leaf 7950 7950 [913,787,834] leaf) 7951 7951
  [913,788,834] (node leaf 7952 7952 [949,787] leaf))))
def decompTable16 : Tbl (List Nat) :=
  node (node (node (node (node leaf 7954 7954 [949,787,768] leaf) 7955 7955 [949,788,768] (node leaf
  7956 7956 [949,787,769] leaf)) 7957 7957 [949,788,769] (node (node leaf 7960 7960 [917,787] leaf)
  7961 7961 [917,788] (node leaf 7962 7962 [917,787,768] leaf))) 7963 7963 [917,788,768] (node (node
  (node leaf 7964 7964 [917,787,769] leaf) 7965 7965 [917,788,769] (node leaf 7968 7968 [951,787]
  leaf)) 7969 7969 [951,788] (node (node leaf 7970 7970 [951,787,768] leaf) 7971 7971 [951,788,768]
  (node leaf 7972 7972 [951,787,769] leaf)))) 7973 7973 [951,788,769] (node (node (node (node leaf
  7974 7974 [951,787,834] leaf) 7975 7975 [951,788,834] (node leaf 7976 7976 [919,787] leaf)) 7977
  7977 [919,788] (node (node leaf 7978 7978 [919,787,768] leaf) 7979 7979 [919,788,768] (node leaf
  7980 7980 [919,787,769] leaf))) 7981 7981 [919,788,769] (node (node (node leaf 7982 7982
  [919,787,834] leaf) 7983 7983 [919,788,834] (node leaf 7984 7984 [953,787] leaf)) 7985 7985
  [953,788] (node (node leaf 7986 7986 [953,787,768] leaf) 7987 7987 [953,788,768] (node leaf 7988
  7988 [953,787,769] leaf))))
def decompTable17 : Tbl (List Nat) :=
  node (node (node (node (node (node leaf 7990 7990 [953,787,834] leaf) 7991 7991 [953,788,834] (node
  leaf 7992 7992 [921,787] leaf)) 7993 7993 [921,788] (node (node leaf 7994 7994 [921,787,768] leaf)
  7995 7995 [921,788,768] (node leaf 7996 7996 [921,787,769] leaf))) 7997 7997 [921,788,769] (node
  (node (node leaf 7998 7998 [921,787,834] leaf) 7999 7999 [921,788,834] (node leaf 8000 8000
  [959,787] leaf)) 8001 8001 [959,788] (node (node leaf 8002 8002 [959,787,768] leaf) 8003 8003
  [959,788,768] (node leaf 8004 8004 [959,787,769] leaf)))) 8005 8005 [959,788,769] (node (node
  (node (node leaf 8008 8008 [927,787] leaf) 8009 8009 [927,788] (node leaf 8010 8010 [927,787,768]
  leaf)) 8011 8011 [927,788,768] (node (node leaf 8012 8012 [927,787,769] leaf) 8013 8013
  [927,788,769] (node leaf 8016 8016 [965,787] leaf))) 8017 8017 [965,788] (node (node (node leaf
  8018 8018 [965,787,768] leaf) 8019 8019 [965,788,768] (node leaf 8020 8020 [965,787,769] leaf))
  8021 8021 [965,788,769] (node (node leaf 8022 8022 [965,787,834] leaf) 8023 8023 [965,788,834]
  (node leaf 8025 8025 [933,788] leaf))))) 8027 8027 [933,788,768] (node (node (node (node (node
  leaf 8029 8029 [933,788,769] leaf) 8031 8031 [933,788,834] (node leaf 8032 8032 [969,787] leaf))
  8033 8033 [969,788] (node (node leaf 8034 8034 [969,787,768] leaf) 8035 8035 [969,788,768] (node
  leaf 8036 8036 [969,787,769] leaf))) 8037 8037 [969,788,769] (node (node (node leaf 8038 8038
  [969,787,834] leaf) 8039 8039 [969,788,834] (node leaf 8040 8040 [937,787] leaf)) 8041 8041
  [937,788] (node (node leaf 8042 8042 [937,787,768] leaf) 8043 8043 [937,788,768] (node leaf 8044
  8044 [937,787,769] leaf)))) 8045 8045 [937,788,769] (node (node (node (node leaf 8046 8046
  [937,787,834] leaf) 8047 8047 [937,788,834] (node leaf 8048 8048 [945,768] leaf)) 8049 8049
  [945,769] (node (node leaf 8050 8050 [949,768] leaf) 8051 8051 [949,769] (node leaf 8052 8052
  [951,768] leaf))) 8053 8053 [951,769] (node (node (node leaf 8054 8054 [953,768] leaf) 8055 8055
  [953,769] (node leaf 8056 8056 [959,768] leaf)) 8057 8057 [959,769] (node (node leaf 8058 8058
  [965,768] leaf) 8059 8059 [965,769] (node leaf 8060 8060 [969,768] leaf)))))
def decompTable18 : Tbl (List Nat) :=
  node (node (node (node (node (node leaf 8064 8064 [945,787,837] leaf) 8065 8065 [945,788,837] leaf)
  8066 8066 [945,787,768,837] (node leaf 8067 8067 [945,788,768,837] leaf)) 8068 8068
  [945,787,769,837] (node (node leaf 8069 8069 [945,788,769,837] leaf) 8070 8070 [945,787,834,837]
  (node leaf 8071 8071 [945,788,834,837] leaf))) 8072 8072 [913,787,837] (node (node (node leaf 8073
  8073 [913,788,837] leaf) 8074 8074 [913,787,768,837] (node leaf 8075 8075 [913,788,768,837] leaf))
  8076 8076 [913,787,769,837] (node (node leaf 8077 8077 [913,788,769,837] leaf) 8078 8078
  [913,787,834,837] (node leaf 8079 8079 [913,788,834,837] leaf)))) 8080 8080 [951,787,837] (node
  (node (node (node leaf 8081 8081 [951,788,837] leaf) 8082 8082 [951,787,768,837] (node leaf 8083
  8083 [951,788,768,837] leaf)) 8084 8084 [951,787,769,837] (node (node leaf 8085 8085
  [951,788,769,837] leaf) 8086 8086 [951,787,834,837] (node leaf 8087 8087 [951,788,834,837] leaf)))
  8088 8088 [919,787,837] (node (node (node leaf 8089 8089 [919,788,837] leaf) 8090 8090
  [919,787,768,837] (node leaf 8091 8091 [919,788,768,837] leaf)) 8092 8092 [919,787,769,837] (node
  (node leaf 8093 8093 [919,788,769,837] leaf) 8094 8094 [919,787,834,837] (node leaf 8095 8095
  [919,788,834,837] leaf))))
def decompTable19 : Tbl (List Nat) :=
  node (node (node (node (node leaf 8097 8097 [969,788,837] leaf) 8098 8098 [969,787,768,837] (node
  leaf 8099 8099 [969,788,768,837] leaf)) 8100 8100 [969,787,769,837] (node (node leaf 8101 8101
  [969,788,769,837] leaf) 8102 8102 [969,787,834,837] (node leaf 8103 8103 [969,788,834,837] leaf)))
  8104 8104 [937,787,837] (node (node (node leaf 8105 8105 [937,788,837] leaf) 8106 8106
  [937,787,768,837] (node leaf 8107 8107 [937,788,768,837] leaf)) 8108 8108 [937,787,769,837] (node
  (node leaf 8109 8109 [937,788,769,837] leaf) 8110 8110 [937,787,834,837] (node leaf 8111 8111
  [937,788,834,837] leaf)))) 8112 8112 [945,774] (node (node (node (node leaf 8113 8113 [945,772]
  leaf) 8114 8114 [945,768,837] (node leaf 8115 8115 [945,837] leaf)) 8116 8116 [945,769,837] (node
  (node leaf 8118 8118 [945,834] leaf) 8119 8119 [945,834,837] (node leaf 8120 8120 [913,774]
  leaf))) 8121 8121 [913,772] (node (node (node leaf 8122 8122 [913,768] leaf) 8123 8123 [913,769]
  (node leaf 8124 8124 [913,837] leaf)) 8126 8126 [953] (node (node leaf 8129 8129 [168,834] leaf)
  8130 8130 [951,768,837] (node leaf 8131 8131 [951,837] leaf))))
def decompTable20 : Tbl (List Nat) :=
  node (node (node (node (node (node leaf 8134 8134 [951,834] leaf) 8135 8135 [951,834,837] (node leaf
  8136 8136 [917,768] leaf)) 8137 8137 [917,769] (node (node leaf 8138 8138 [919,768] leaf) 8139
  8139 [919,769] (node leaf 8140 8140 [919,837] leaf))) 8141 8141 [8127,768] (node (node (node leaf
  8142 8142 [8127,769] leaf) 8143 8143 [8127,834] (node leaf 8144 8144 [953,774] leaf)) 8145 8145
  [953,772] (node (node leaf 8146 8146 [953,776,768] leaf) 8147 8147 [953,776,769] (node leaf 8150
  8150 [953,834] leaf)))) 8151 8151 [953,776,834] (node (node (node (node leaf 8152 8152 [921,774]
  leaf) 8153 8153 [921,772] (node leaf 8154 8154 [921,768] leaf)) 8155 8155 [921,769] (node (node
  leaf 8157 8157 [8190,768] leaf) 8158 8158 [8190,769] (node leaf 8159 8159 [8190,834] leaf))) 8160
  8160 [965,774] (node (node (node leaf 8161 8161 [965,772] leaf) 8162 8162 [965,776,768] (node leaf
  8163 8163 [965,776,769] leaf)) 8164 8164 [961,787] (node (node leaf 8165 8165 [961,788] leaf) 8166
  8166 [965,834] (node leaf 8167 8167 [965,776,834] leaf))))) 8168 8168 [933,774] (node (node (node
  (node (node leaf 8169 8169 [933,772] leaf) 8170 8170 [933,768] (node leaf 8171 8171 [933,769]
  leaf)) 8172 8172 [929,788] (node (node leaf 8173 8173 [168,768] leaf) 8174 8174 [168,769] (node
  leaf 8175 8175 [96] leaf))) 8178 8178 [969,768,837] (node (node (node leaf 8179 8179 [969,837]
  leaf) 8180 8180 [969,769,837] (node leaf 8182 8182 [969,834] leaf)) 8183 8183 [969,834,837] (node
  (node leaf 8184 8184 [927,768] leaf) 8185 8185 [927,769] (node leaf 8186 8186 [937,768] leaf))))
  8187 8187 [937,769] (node (node (node (node leaf 8188 8188 [937,837] leaf) 8189 8189 [180] (node
  leaf 8192 8192 [8194] leaf)) 8193 8193 [8195] (node (node leaf 8486 8486 [937] leaf) 8490 8490
  [75] (node leaf 8491 8491 [65,778] leaf))) 8602 8602 [8592,824] (node (node (node leaf 8603 8603
  [8594,824] leaf) 8622 8622 [8596,824] (node leaf 8653 8653 [8656,824] leaf)) 8654 8654 [8660,824]
  (node (node leaf 8655 8655 [8658,824] leaf) 8708 8708 [8707,824] (node leaf 8713 8713 [8712,824]
  leaf)))))
def decompTable21 : Tbl (List Nat) :=
  node (node (node (node (node (node leaf 8740 8740 [8739,824] leaf) 8742 8742 [8741,824] (node leaf
  8769 8769 [8764,824] leaf)) 8772 8772 [8771,824] (node (node leaf 8775 8775 [8773,824] leaf) 8777
  8777 [8776,824] (node leaf 8800 8800 [61,824] leaf))) 8802 8802 [8801,824] (node (node (node leaf
  8813 8813 [8781,824] leaf) 8814 8814 [60,824] (node leaf 8815 8815 [62,824] leaf)) 8816 8816
  [8804,824] (node (node leaf 8817 8817 [8805,824] leaf) 8820 8820 [8818,824] (node leaf 8821 8821
  [8819,824] leaf)))) 8824 8824 [8822,824] (node (node (node (node leaf 8825 8825 [8823,824] leaf)
  8832 8832 [8826,824] (node leaf 8833 8833 [8827,824] leaf)) 8836 8836 [8834,824] (node (node leaf
  8837 8837 [8835,824] leaf) 8840 8840 [8838,824] (node leaf 8841 8841 [8839,824] leaf))) 8876 8876
  [8866,824] (node (node (node leaf 8877 8877 [8872,824] leaf) 8878 8878 [8873,824] (node leaf 8879
  8879 [8875,824] leaf)) 8928 8928 [8828,824] (node (node leaf 8929 8929 [8829,824] leaf) 8930 8930
  [8849,824] (node leaf 8931 8931 [8850,824] leaf))))) 8938 8938 [8882,824] (node (node (node (node
  (node leaf 8939 8939 [8883,824] leaf) 8940 8940 [8884,824] (node leaf 8941 8941 [8885,824] leaf))
  9001 9001 [12296] (node (node leaf 9002 9002 [12297] leaf) 10972 10972 [10973,824] (node leaf
  12364 12364 [12363,12441] leaf))) 12366 12366 [12365,12441] (node (node (node leaf 12368 12368
  [12367,12441] leaf) 12370 12370 [12369,12441] (node leaf 12372 12372 [12371,12441] leaf)) 12374
  12374 [12373,12441] (node (node leaf 12376 12376 [12375,12441] leaf) 12378 12378 [12377,12441]
  (node leaf 12380 12380 [12379,12441] leaf)))) 12382 12382 [12381,12441] (node (node (node (node
  leaf 12384 12384 [12383,12441] leaf) 12386 12386 [12385,12441] (node leaf 12389 12389
  [12388,12441] leaf)) 12391 12391 [12390,12441] (node (node leaf 12393 12393 [12392,12441] leaf)
  12400 12400 [12399,12441] (node leaf 12401 12401 [12399,12442] leaf))) 12403 12403 [12402,12441]
  (node (node (node leaf 12404 12404 [12402,12442] leaf) 12406 12406 [12405,12441] (node leaf 12407
  12407 [12405,12442] leaf)) 12409 12409 [12408,12441] (node (node leaf 12410 12410 [12408,12442]
  leaf) 12412 12412 [12411,12441] (node leaf 12413 12413 [12411,12442] leaf)))))
def decompTable22 : Tbl (List Nat) :=
  node (node (node (node (node (node leaf 12446 12446 [12445,12441] leaf) 12460 12460 [12459,12441]
  (node leaf 12462 12462 [12461,12441] leaf)) 12464 12464 [12463,12441] (node (node leaf 12466 12466
  [12465,12441] leaf) 12468 12468 [12467,12441] (node leaf 12470 12470 [12469,12441] leaf))) 12472
  12472 [12471,12441] (node (node (node leaf 12474 12474 [12473,12441] leaf) 12476 12476
  [12475,12441] (node leaf 12478 12478 [12477,12441] leaf)) 12480 12480 [12479,12441] (node (node
  leaf 12482 12482 [12481,12441] leaf) 12485 12485 [12484,12441] (node leaf 12487 12487
  [12486,12441] leaf)))) 12489 12489 [12488,12441] (node (node (node (node leaf 12496 12496
  [12495,12441] leaf) 12497 12497 [12495,12442] (node leaf 12499 12499 [12498,12441] leaf)) 12500
  12500 [12498,12442] (node (node leaf 12502 12502 [12501,12441] leaf) 12503 12503 [12501,12442]
  (node leaf 12505 12505 [12504,12441] leaf))) 12506 12506 [12504,12442] (node (node (node leaf
  12508 12508 [12507,12441] leaf) 12509 12509 [12507,12442] (node leaf 12532 12532 [12454,12441]
  leaf)) 12535 12535 [12527,12441] (node (node leaf 12536 12536 [12528,12441] leaf) 12537 12537
  [12529,12441] (node leaf 12538 12538 [12530,12441] leaf))))) 12542 12542 [12541,12441] (node (node
  (node (node (node leaf 63744 63744 [35912] leaf) 63745 63745 [26356] (node leaf 63746 63746
  [36554] leaf)) 63747 63747 [36040] (node (node leaf 63748 63748 [28369] leaf) 63749 63749 [20018]
  (node leaf 63750 63750 [21477] leaf))) 63751 63751 [40860] (node (node (node leaf 63752 63752
  [40860] leaf) 63753 63753 [22865] (node leaf 63754 63754 [37329] leaf)) 63755 63755 [21895] (node
  (node leaf 63756 63756 [22856] leaf) 63757 63757 [25078] (node leaf 63758 63758 [30313] leaf))))
  63759 63759 [32645] (node (node (node (node leaf 63760 63760 [34367] leaf) 63761 63761 [34746]
  (node leaf 63762 63762 [35064] leaf)) 63763 63763 [37007] (node (node leaf 63764 63764 [27138]
  leaf) 63765 63765 [27931] (node leaf 63766 63766 [28889] leaf))) 63767 63767 [29662] (node (node
  (node leaf 63768 63768 [33853] leaf) 63769 63769 [37226] (node leaf 63770 63770 [39409] leaf))
  63771 63771 [20098] (node (node leaf 63772 63772 [21365] leaf) 63773 63773 [27396] (node leaf
  63774 63774 [29211] leaf)))))
def decompTable23 : Tbl (List Nat) :=
  node (node (node (node (node (node leaf 63776 63776 [40478] leaf) 63777 63777 [23888] leaf) 63778
  63778 [28651] (node leaf 63779 63779 [34253] leaf)) 63780 63780 [35172] (node (node leaf 63781
  63781 [25289] leaf) 63782 63782 [33240] (node leaf 63783 63783 [34847] leaf))) 63784 63784 [24266]
  (node (node (node leaf 63785 63785 [26391] leaf) 63786 63786 [28010] (node leaf 63787 63787
  [29436] leaf)) 63788 63788 [37070] (node (node leaf 63789 63789 [20358] leaf) 63790 63790 [20919]
  (node leaf 63791 63791 [21214] leaf)))) 63792 63792 [25796] (node (node (node (node leaf 63793
  63793 [27347] leaf) 63794 63794 [29200] (node leaf 63795 63795 [30439] leaf)) 63796 63796 [32769]
  (node (node leaf 63797 63797 [34310] leaf) 63798 63798 [34396] (node leaf 63799 63799 [36335]
  leaf))) 63800 63800 [38706] (node (node (node leaf 63801 63801 [39791] leaf) 63802 63802 [40442]
  (node leaf 63803 63803 [30860] leaf)) 63804 63804 [31103] (node (node leaf 63805 63805 [32160]
  leaf) 63806 63806 [33737] (node leaf 63807 63807 [37636] leaf))))
def decompTable24 : Tbl (List Nat) :=
  node (node (node (node (node leaf 63809 63809 [35542] leaf) 63810 63810 [22751] (node leaf 63811
  63811 [24324] leaf)) 63812 63812 [31840] (node (node leaf 63813 63813 [32894] leaf) 63814 63814
  [29282] (node leaf 63815 63815 [30922] leaf))) 63816 63816 [36034] (node (node (node leaf 63817
  63817 [38647] leaf) 63818 63818 [22744] (node leaf 63819 63819 [23650] leaf)) 63820 63820 [27155]
  (node (node leaf 63821 63821 [28122] leaf) 63822 63822 [28431] (node leaf 63823 63823 [32047]
  leaf)))) 63824 63824 [32311] (node (node (node (node leaf 63825 63825 [38475] leaf) 63826 63826
  [21202] (node leaf 63827 63827 [32907] leaf)) 63828 63828 [20956] (node (node leaf 63829 63829
  [20940] leaf) 63830 63830 [31260] (node leaf 63831 63831 [32190] leaf))) 63832 63832 [33777] (node
  (node (node leaf 63833 63833 [38517] leaf) 63834 63834 [35712] (node leaf 63835 63835 [25295]
  leaf)) 63836 63836 [27138] (node (node leaf 63837 63837 [35582] leaf) 63838 63838 [20025] (node
  leaf 63839 63839 [23527] leaf))))
def decompTable25 : Tbl (List Nat) :=
  node (node (node (node (node (node leaf 63841 63841 [29575] leaf) 63842 63842 [30064] (node leaf
  63843 63843 [21271] leaf)) 63844 63844 [30971] (node (node leaf 63845 63845 [20415] leaf) 63846
  63846 [24489] (node leaf 63847 63847 [19981] leaf))) 63848 63848 [27852] (node (node (node leaf
  63849 63849 [25976] leaf) 63850 63850 [32034] (node leaf 63851 63851 [21443] leaf)) 63852 63852
  [22622] (node (node leaf 63853 63853 [30465] leaf) 63854 63854 [33865] (node leaf 63855 63855
  [35498] leaf)))) 63856 63856 [27578] (node (node (node (node leaf 63857 63857 [36784] leaf) 63858
  63858 [27784] (node leaf 63859 63859 [25342] leaf)) 63860 63860 [33509] (node (node leaf 63861
  63861 [25504] leaf) 63862 63862 [30053] (node leaf 63863 63863 [20142] leaf))) 63864 63864 [20841]
  (node (node (node leaf 63865 63865 [20937] leaf) 63866 63866 [26753] (node leaf 63867 63867
  [31975] leaf)) 63868 63868 [33391] (node (node leaf 63869 63869 [35538] leaf) 63870 63870 [37327]
  (node leaf 63871 63871 [21237] leaf))))) 63872 63872 [21570] (node (node (node (node (node leaf
  63873 63873 [22899] leaf) 63874 63874 [24300] (node leaf 63875 63875 [26053] leaf)) 63876 63876
  [28670] (node (node leaf 63877 63877 [31018] leaf) 63878 63878 [38317] (node leaf 63879 63879
  [39530] leaf))) 63880 63880 [40599] (node (node (node leaf 63881 63881 [40654] leaf) 63882 63882
  [21147] (node leaf 63883 63883 [26310] leaf)) 63884 63884 [27511] (node (node leaf 63885 63885
  [36706] leaf) 63886 63886 [24180] (node leaf 63887 63887 [24976] leaf)))) 63888 63888 [25088]
  (node (node (node (node leaf 63889 63889 [25754] leaf) 63890 63890 [28451] (node leaf 63891 63891
  [29001] leaf)) 63892 63892 [29833] (node (node leaf 63893 63893 [31178] leaf) 63894 63894 [32244]
  (node leaf 63895 63895 [32879] leaf))) 63896 63896 [36646] (node (node (node leaf 63897 63897
  [34030] leaf) 63898 63898 [36899] (node leaf 63899 63899 [37706] leaf)) 63900 63900 [21015] (node
  (node leaf 63901 63901 [21155] leaf) 63902 63902 [21693] (node leaf 63903 63903 [28872] leaf)))))
def decompTable26 : Tbl (List Nat) :=
  node (node (node (node (node (node leaf 63905 63905 [35498] leaf) 63906 63906 [24265] leaf) 63907
  63907 [24565] (node leaf 63908 63908 [25467] leaf)) 63909 63909 [27566] (node (node leaf 63910
  63910 [31806] leaf) 63911 63911 [29557] (node leaf 63912 63912 [20196] leaf))) 63913 63913 [22265]
  (node (node (node leaf 63914 63914 [23527] leaf) 63915 63915 [23994] (node leaf 63916 63916
  [24604] leaf)) 63917 63917 [29618] (node (node leaf 63918 63918 [29801] leaf) 63919 63919 [32666]
  (node leaf 63920 63920 [32838] leaf)))) 63921 63921 [37428] (node (node (node (node leaf 63922
  63922 [38646] leaf) 63923 63923 [38728] (node leaf 63924 63924 [38936] leaf)) 63925 63925 [20363]
  (node (node leaf 63926 63926 [31150] leaf) 63927 63927 [37300] (node leaf 63928 63928 [38584]
  leaf))) 63929 63929 [24801] (node (node (node leaf 63930 63930 [20102] leaf) 63931 63931 [20698]
  (node leaf 63932 63932 [23534] leaf)) 63933 63933 [23615] (node (node leaf 63934 63934 [26009]
  leaf) 63935 63935 [27138] (node leaf 63936 63936 [29134] leaf))))
def decompTable27 : Tbl (List Nat) :=
  node (node (node (node (node leaf 63938 63938 [34044] leaf) 63939 63939 [36988] (node leaf 63940
  63940 [40845] leaf)) 63941 63941 [26248] (node (node leaf 63942 63942 [38446] leaf) 63943 63943
  [21129] (node leaf 63944 63944 [26491] leaf))) 63945 63945 [26611] (node (node (node leaf 63946
  63946 [27969] leaf) 63947 63947 [28316] (node leaf 63948 63948 [29705] leaf)) 63949 63949 [30041]
  (node (node leaf 63950 63950 [30827] leaf) 63951 63951 [32016] (node leaf 63952 63952 [39006]
  leaf)))) 63953 63953 [20845] (node (node (node (node leaf 63954 63954 [25134] leaf) 63955 63955
  [38520] (node leaf 63956 63956 [20523] leaf)) 63957 63957 [23833] (node (node leaf 63958 63958
  [28138] leaf) 63959 63959 [36650] (node leaf 63960 63960 [24459] leaf))) 63961 63961 [24900] (node
  (node (node leaf 63962 63962 [26647] leaf) 63963 63963 [29575] (node leaf 63964 63964 [38534]
  leaf)) 63965 63965 [21033] (node (node leaf 63966 63966 [21519] leaf) 63967 63967 [23653] (node
  leaf 63968 63968 [26131] leaf))))
def decompTable28 : Tbl (List Nat) :=
  node (node (node (node (node (node leaf 63970 63970 [26792] leaf) 63971 63971 [27877] (node leaf
  63972 63972 [29702] leaf)) 63973 63973 [30178] (node (node leaf 63974 63974 [32633] leaf) 63975
  63975 [35023] (node leaf 63976 63976 [35041] leaf))) 63977 63977 [37324] (node (node (node leaf
  63978 63978 [38626] leaf) 63979 63979 [21311] (node leaf 63980 63980 [28346] leaf)) 63981 63981
  [21533] (node (node leaf 63982 63982 [29136] leaf) 63983 63983 [29848] (node leaf 63984 63984
  [34298] leaf)))) 63985 63985 [38563] (node (node (node (node leaf 63986 63986 [40023] leaf) 63987
  63987 [40607] (node leaf 63988 63988 [26519] leaf)) 63989 63989 [28107] (node (node leaf 63990
  63990 [33256] leaf) 63991 63991 [31435] (node leaf 63992 63992 [31520] leaf))) 63993 63993 [31890]
  (node (node (node leaf 63994 63994 [29376] leaf) 63995 63995 [28825] (node leaf 63996 63996
  [35672] leaf)) 63997 63997 [20160] (node (node leaf 63998 63998 [33590] leaf) 63999 63999 [21050]
  (node leaf 64000 64000 [20999] leaf))))) 64001 64001 [24230] (node (node (node (node (node leaf
  64002 64002 [25299] leaf) 64003 64003 [31958] (node leaf 64004 64004 [23429] leaf)) 64005 64005
  [27934] (node (node leaf 64006 64006 [26292] leaf) 64007 64007 [36667] (node leaf 64008 64008
  [34892] leaf))) 64009 64009 [38477] (node (node (node leaf 64010 64010 [35211] leaf) 64011 64011
  [24275] (node leaf 64012 64012 [20800] leaf)) 64013 64013 [21952] (node (node leaf 64016 64016
  [22618] leaf) 64018 64018 [26228] (node leaf 64021 64021 [20958] leaf)))) 64022 64022 [29482]
  (node (node (node (node leaf 64023 64023 [30410] leaf) 64024 64024 [31036] (node leaf 64025 64025
  [31070] leaf)) 64026 64026 [31077] (node (node leaf 64027 64027 [31119] leaf) 64028 64028 [38742]
  (node leaf 64029 64029 [31934] leaf))) 64030 64030 [32701] (node (node (node leaf 64032 64032
  [34322] leaf) 64034 64034 [35576] (node leaf 64037 64037 [36920] leaf)) 64038 64038 [37117] (node
  (node leaf 64042 64042 [39151] leaf) 64043 64043 [39164] (node leaf 64044 64044 [39208] leaf)))))
def decompTable29 : Tbl (List Nat) :=
  node (node (node (node (node (node leaf 64046 64046 [37086] leaf) 64047 64047 [38583] leaf) 64048
  64048 [20398] (node leaf 64049 64049 [20711] leaf)) 64050 64050 [20813] (node (node leaf 64051
  64051 [21193] leaf) 64052 64052 [21220] (node leaf 64053 64053 [21329] leaf))) 64054 64054 [21917]
  (node (node (node leaf 64055 64055 [22022] leaf) 64056 64056 [22120] (node leaf 64057 64057
  [22592] leaf)) 64058 64058 [22696] (node (node leaf 64059 64059 [23652] leaf) 64060 64060 [23662]
  (node leaf 64061 64061 [24724] leaf)))) 64062 64062 [24936] (node (node (node (node leaf 64063
  64063 [24974] leaf) 64064 64064 [25074] (node leaf 64065 64065 [25935] leaf)) 64066 64066 [26082]
  (node (node leaf 64067 64067 [26257] leaf) 64068 64068 [26757] (node leaf 64069 64069 [28023]
  leaf))) 64070 64070 [28186] (node (node (node leaf 64071 64071 [28450] leaf) 64072 64072 [29038]
  (node leaf 64073 64073 [29227] leaf)) 64074 64074 [29730] (node (node leaf 64075 64075 [30865]
  leaf) 64076 64076 [31038] (node leaf 64077 64077 [31049] leaf))))
def decompTable30 : Tbl (List Nat) :=
  node (node (node (node (node leaf 64079 64079 [31056] leaf) 64080 64080 [31062] (node leaf 64081
  64081 [31069] leaf)) 64082 64082 [31117] (node (node leaf 64083 64083 [31118] leaf) 64084 64084
  [31296] (node leaf 64085 64085 [31361] leaf))) 64086 64086 [31680] (node (node (node leaf 64087
  64087 [32244] leaf) 64088 64088 [32265] (node leaf 64089 64089 [32321] leaf)) 64090 64090 [32626]
  (node (node leaf 64091 64091 [32773] leaf) 64092 64092 [33261] (node leaf 64093 64093 [33401]
  leaf)))) 64094 64094 [33401] (node (node (node (node leaf 64095 64095 [33879] leaf) 64096 64096
  [35088] (node leaf 64097 64097 [35222] leaf)) 64098 64098 [35585] (node (node leaf 64099 64099
  [35641] leaf) 64100 64100 [36051] (node leaf 64101 64101 [36104] leaf))) 64102 64102 [36790] (node
  (node (node leaf 64103 64103 [36920] leaf) 64104 64104 [38627] (node leaf 64105 64105 [38911]
  leaf)) 64106 64106 [38971] (node (node leaf 64107 64107 [24693] leaf) 64108 64108 [148206] (node
  leaf 64109 64109 [33304] leaf))))
def decompTable31 : Tbl (List Nat) :=
  node (node (node (node (node (node leaf 64113 64113 [20917] leaf) 64114 64114 [20840] (node leaf
  64115 64115 [20352] leaf)) 64116 64116 [20805] (node (node leaf 64117 64117 [20864] leaf) 64118
  64118 [21191] (node leaf 64119 64119 [21242] leaf))) 64120 64120 [21917] (node (node (node leaf
  64121 64121 [21845] leaf) 64122 64122 [21913] (node leaf 64123 64123 [21986] leaf)) 64124 64124
  [22618] (node (node leaf 64125 64125 [22707] leaf) 64126 64126 [22852] (node leaf 64127 64127
  [22868] leaf)))) 64128 64128 [23138] (node (node (node (node leaf 64129 64129 [23336] leaf) 64130
  64130 [24274] (node leaf 64131 64131 [24281] leaf)) 64132 64132 [24425] (node (node leaf 64133
  64133 [24493] leaf) 64134 64134 [24792] (node leaf 64135 64135 [24910] leaf))) 64136 64136 [24840]
  (node (node (node leaf 64137 64137 [24974] leaf) 64138 64138 [24928] (node leaf 64139 64139
  [25074] leaf)) 64140 64140 [25140] (node (node leaf 64141 64141 [25540] leaf) 64142 64142 [25628]
  (node leaf 64143 64143 [25682] leaf))))) 64144 64144 [25942] (node (node (node (node (node leaf
  64145 64145 [26228] leaf) 64146 64146 [26391] (node leaf 64147 64147 [26395] leaf)) 64148 64148
  [26454] (node (node leaf 64149 64149 [27513] leaf) 64150 64150 [27578] (node leaf 64151 64151
  [27969] leaf))) 64152 64152 [28379] (node (node (node leaf 64153 64153 [28363] leaf) 64154 64154
  [28450] (node leaf 64155 64155 [28702] leaf)) 64156 64156 [29038] (node (node leaf 64157 64157
  [30631] leaf) 64158 64158 [29237] (node leaf 64159 64159 [29359] leaf)))) 64160 64160 [29482]
  (node (node (node (node leaf 64161 64161 [29809] leaf) 64162 64162 [29958] (node leaf 64163 64163
  [30011] leaf)) 64164 64164 [30237] (node (node leaf 64165 64165 [30239] leaf) 64166 64166 [30410]
  (node leaf 64167 64167 [30427] leaf))) 64168 64168 [30452] (node (node (node leaf 64169 64169
  [30538] leaf) 64170 64170 [30528] (node leaf 64171 64171 [30924] leaf)) 64172 64172 [31409] (node
  (node leaf 64173 64173 [31680] leaf) 64174 64174 [31867] (node leaf 64175 64175 [32091] leaf)))))
def decompTable32 : Tbl (List Nat) :=
  node (node (node (node (node (node leaf 64177 64177 [32574] leaf) 64178 64178 [32773] leaf) 64179
  64179 [33618] (node leaf 64180 64180 [33775] leaf)) 64181 64181 [34681] (node (node leaf 64182
  64182 [35137] leaf) 64183 64183 [35206] (node leaf 64184 64184 [35222] leaf))) 64185 64185 [35519]
  (node (node (node leaf 64186 64186 [35576] leaf) 64187 64187 [35531] (node leaf 64188 64188
  [35585] leaf)) 64189 64189 [35582] (node (node leaf 64190 64190 [35565] leaf) 64191 64191 [35641]
  (node leaf 64192 64192 [35722] leaf)))) 64193 64193 [36104] (node (node (node (node leaf 64194
  64194 [36664] leaf) 64195 64195 [36978] (node leaf 64196 64196 [37273] leaf)) 64197 64197 [37494]
  (node (node leaf 64198 64198 [38524] leaf) 64199 64199 [38627] (node leaf 64200 64200 [38742]
  leaf))) 64201 64201 [38875] (node (node (node leaf 64202 64202 [38911] leaf) 64203 64203 [38923]
  (node leaf 64204 64204 [38971] leaf)) 64205 64205 [39698] (node (node leaf 64206 64206 [40860]
  leaf) 64207 64207 [141386] (node leaf 64208 64208 [141380] leaf))))
def decompTable33 : Tbl (List Nat) :=
  node (node (node (node (node leaf 64210 64210 [15261] leaf) 64211 64211 [16408] (node leaf 64212
  64212 [16441] leaf)) 64213 64213 [152137] (node (node leaf 64214 64214 [154832] leaf) 64215 64215
  [163539] (node leaf 64216 64216 [40771] leaf))) 64217 64217 [40846] (node (node (node leaf 64285
  64285 [1497,1460] leaf) 64287 64287 [1522,1463] (node leaf 64298 64298 [1513,1473] leaf)) 64299
  64299 [1513,1474] (node (node leaf 64300 64300 [1513,1468,1473] leaf) 64301 64301 [1513,1468,1474]
  (node leaf 64302 64302 [1488,1463] leaf)))) 64303 64303 [1488,1464] (node (node (node (node leaf
  64304 64304 [1488,1468] leaf) 64305 64305 [1489,1468] (node leaf 64306 64306 [1490,1468] leaf))
  64307 64307 [1491,1468] (node (node leaf 64308 64308 [1492,1468] leaf) 64309 64309 [1493,1468]
  (node leaf 64310 64310 [1494,1468] leaf))) 64312 64312 [1496,1468] (node (node (node leaf 64313
  64313 [1497,1468] leaf) 64314 64314 [1498,1468] (node leaf 64315 64315 [1499,1468] leaf)) 64316
  64316 [1500,1468] (node (node leaf 64318 64318 [1502,1468] leaf) 64320 64320 [1504,1468] (node
  leaf 64321 64321 [1505,1468] leaf))))
def decompTable34 : Tbl (List Nat) :=
  node (node (node (node (node (node leaf 64324 64324 [1508,1468] leaf) 64326 64326 [1510,1468] (node
  leaf 64327 64327 [1511,1468] leaf)) 64328 64328 [1512,1468] (node (node leaf 64329 64329
  [1513,1468] leaf) 64330 64330 [1514,1468] (node leaf 64331 64331 [1493,1465] leaf))) 64332 64332
  [1489,1471] (node (node (node leaf 64333 64333 [1499,1471] leaf) 64334 64334 [1508,1471] (node
  leaf 69786 69786 [69785,69818] leaf)) 69788 69788 [69787,69818] (node (node leaf 69803 69803
  [69797,69818] leaf) 69934 69934 [69937,69927] (node leaf 69935 69935 [69938,69927] leaf)))) 70475
  70475 [70471,70462] (node (node (node (node leaf 70476 70476 [70471,70487] leaf) 70843 70843
  [70841,70842] (node leaf 70844 70844 [70841,70832] leaf)) 70846 70846 [70841,70845] (node (node
  leaf 71098 71098 [71096,71087] leaf) 71099 71099 [71097,71087] (node leaf 71992 71992
  [71989,71984] leaf))) 119134 119134 [119127,119141] (node (node (node leaf 119135 119135
  [119128,119141] leaf) 119136 119136 [119128,119141,119150] (node leaf 119137 119137
  [119128,119141,119151] leaf)) 119138 119138 [119128,119141,119152] (node (node leaf 119139 119139
  [119128,119141,119153] leaf) 119140 119140 [119128,119141,119154] (node leaf 119227 119227
  [119225,119141] leaf))))) 119228 119228 [119226,119141] (node (node (node (node (node leaf 119229
  119229 [119225,119141,119150] leaf) 119230 119230 [119226,119141,119150] (node leaf 119231 119231
  [119225,119141,119151] leaf)) 119232 119232 [119226,119141,119151] (node (node leaf 194560 194560
  [20029] leaf) 194561 194561 [20024] (node leaf 194562 194562 [20033] leaf))) 194563 194563
  [131362] (node (node (node leaf 194564 194564 [20320] leaf) 194565 194565 [20398] (node leaf
  194566 194566 [20411] leaf)) 194567 194567 [20482] (node (node leaf 194568 194568 [20602] leaf)
  194569 194569 [20633] (node leaf 194570 194570 [20711] leaf)))) 194571 194571 [20687] (node (node
  (node (node leaf 194572 194572 [13470] leaf) 194573 194573 [132666] (node leaf 194574 194574
  [20813] leaf)) 194575 194575 [20820] (node (node leaf 194576 194576 [20836] leaf) 194577 194577
  [20855] (node leaf 194578 194578 [132380] leaf))) 194579 194579 [13497] (node (node (node leaf
  194580 194580 [20839] leaf) 194581 194581 [20877] (node leaf 194582 194582 [132427] leaf)) 194583
  194583 [20887] (node (node leaf 194584 194584 [20900] leaf) 194585 194585 [20172] (node leaf
  194586 194586 [20908] leaf)))))
def decompTable35 : Tbl (List Nat) :=
  node (node (node (node (node (node leaf 194588 194588 [168415] leaf) 194589 194589 [20981] leaf)
  194590 194590 [20995] (node leaf 194591 194591 [13535] leaf)) 194592 194592 [21051] (node (node
  leaf 194593 194593 [21062] leaf) 194594 194594 [21106] (node leaf 194595 194595 [21111] leaf)))
  194596 194596 [13589] (node (node (node leaf 194597 194597 [21191] leaf) 194598 194598 [21193]
  (node leaf 194599 194599 [21220] leaf)) 194600 194600 [21242] (node (node leaf 194601 194601
  [21253] leaf) 194602 194602 [21254] (node leaf 194603 194603 [21271] leaf)))) 194604 194604
  [21321] (node (node (node (node leaf 194605 194605 [21329] leaf) 194606 194606 [21338] (node leaf
  194607 194607 [21363] leaf)) 194608 194608 [21373] (node (node leaf 194609 194609 [21375] leaf)
  194610 194610 [21375] (node leaf 194611 194611 [21375] leaf))) 194612 194612 [133676] (node (node
  (node leaf 194613 194613 [28784] leaf) 194614 194614 [21450] (node leaf 194615 194615 [21471]
  leaf)) 194616 194616 [133987] (node (node leaf 194617 194617 [21483] leaf) 194618 194618 [21489]
  (node leaf 194619 194619 [21510] leaf))))
def decompTable36 : Tbl (List Nat) :=
  node (node (node (node (node leaf 194621 194621 [21560] leaf) 194622 194622 [21576] (node leaf
  194623 194623 [21608] leaf)) 194624 194624 [21666] (node (node leaf 194625 194625 [21750] leaf)
  194626 194626 [21776] (node leaf 194627 194627 [21843] leaf))) 194628 194628 [21859] (node (node
  (node leaf 194629 194629 [21892] leaf) 194630 194630 [21892] (node leaf 194631 194631 [21913]
  leaf)) 194632 194632 [21931] (node (node leaf 194633 194633 [21939] leaf) 194634 194634 [21954]
  (node leaf 194635 194635 [22294] leaf)))) 194636 194636 [22022] (node (node (node (node leaf
  194637 194637 [22295] leaf) 194638 194638 [22097] (node leaf 194639 194639 [22132] leaf)) 194640
  194640 [20999] (node (node leaf 194641 194641 [22766] leaf) 194642 194642 [22478] (node leaf
  194643 194643 [22516] leaf))) 194644 194644 [22541] (node (node (node leaf 194645 194645 [22411]
  leaf) 194646 194646 [22578] (node leaf 194647 194647 [22577] leaf)) 194648 194648 [22700] (node
  (node leaf 194649 194649 [136420] leaf) 194650 194650 [22770] (node leaf 194651 194651 [22775]
  leaf))))
def decompTable37 : Tbl (List Nat) :=
  node (node (node (node (node (node leaf 194653 194653 [22810] leaf) 194654 194654 [22818] (node leaf
  194655 194655 [22882] leaf)) 194656 194656 [136872] (node (node leaf 194657 194657 [136938] leaf)
  194658 194658 [23020] (node leaf 194659 194659 [23067] leaf))) 194660 194660 [23079] (node (node
  (node leaf 194661 194661 [23000] leaf) 194662 194662 [23142] (node leaf 194663 194663 [14062]
  leaf)) 194664 194664 [14076] (node (node leaf 194665 194665 [23304] leaf) 194666 194666 [23358]
  (node leaf 194667 194667 [23358] leaf)))) 194668 194668 [137672] (node (node (node (node leaf
  194669 194669 [23491] leaf) 194670 194670 [23512] (node leaf 194671 194671 [23527] leaf)) 194672
  194672 [23539] (node (node leaf 194673 194673 [138008] leaf) 194674 194674 [23551] (node leaf
  194675 194675 [23558] leaf))) 194676 194676 [24403] (node (node (node leaf 194677 194677 [23586]
  leaf) 194678 194678 [14209] (node leaf 194679 194679 [23648] leaf)) 194680 194680 [23662] (node
  (node leaf 194681 194681 [23744] leaf) 194682 194682 [23693] (node leaf 194683 194683 [138724]
  leaf))))) 194684 194684 [23875] (node (node (node (node (node leaf 194685 194685 [138726] leaf)
  194686 194686 [23918] (node leaf 194687 194687 [23915] leaf)) 194688 194688 [23932] (node (node
  leaf 194689 194689 [24033] leaf) 194690 194690 [24034] (node leaf 194691 194691 [14383] leaf)))
  194692 194692 [24061] (node (node (node leaf 194693 194693 [24104] leaf) 194694 194694 [24125]
  (node leaf 194695 194695 [24169] leaf)) 194696 194696 [14434] (node (node leaf 194697 194697
  [139651] leaf) 194698 194698 [14460] (node leaf 194699 194699 [24240] leaf)))) 194700 194700
  [24243] (node (node (node (node leaf 194701 194701 [24246] leaf) 194702 194702 [24266] (node leaf
  194703 194703 [172946] leaf)) 194704 194704 [24318] (node (node leaf 194705 194705 [140081] leaf)
  194706 194706 [140081] (node leaf 194707 194707 [33281] leaf))) 194708 194708 [24354] (node (node
  (node leaf 194709 194709 [24354] leaf) 194710 194710 [14535] (node leaf 194711 194711 [144056]
  leaf)) 194712 194712 [156122] (node (node leaf 194713 194713 [24418] leaf) 194714 194714 [24427]
  (node leaf 194715 194715 [14563] leaf)))))
def decompTable38 : Tbl (List Nat) :=
  node (node (node (node (node (node leaf 194717 194717 [24525] leaf) 194718 194718 [24535] leaf)
  194719 194719 [24569] (node leaf 194720 194720 [24705] leaf)) 194721 194721 [14650] (node (node
  leaf 194722 194722 [14620] leaf) 194723 194723 [24724] (node leaf 194724 194724 [141012] leaf)))
  194725 194725 [24775] (node (node (node leaf 194726 194726 [24904] leaf) 194727 194727 [24908]
  (node leaf 194728 194728 [24910] leaf)) 194729 194729 [24908] (node (node leaf 194730 194730
  [24954] leaf) 194731 194731 [24974] (node leaf 194732 194732 [25010] leaf)))) 194733 194733
  [24996] (node (node (node (node leaf 194734 194734 [25007] leaf) 194735 194735 [25054] (node leaf
  194736 194736 [25074] leaf)) 194737 194737 [25078] (node (node leaf 194738 194738 [25104] leaf)
  194739 194739 [25115] (node leaf 194740 194740 [25181] leaf))) 194741 194741 [25265] (node (node
  (node leaf 194742 194742 [25300] leaf) 194743 194743 [25424] (node leaf 194744 194744 [142092]
  leaf)) 194745 194745 [25405] (node (node leaf 194746 194746 [25340] leaf) 194747 194747 [25448]
  (node leaf 194748 194748 [25475] leaf))))
def decompTable39 : Tbl (List Nat) :=
  node (node (node (node (node leaf 194750 194750 [142321] leaf) 194751 194751 [25634] (node leaf
  194752 194752 [25541] leaf)) 194753 194753 [25513] (node (node leaf 194754 194754 [14894] leaf)
  194755 194755 [25705] (node leaf 194756 194756 [25726] leaf))) 194757 194757 [25757] (node (node
  (node leaf 194758 194758 [25719] leaf) 194759 194759 [14956] (node leaf 194760 194760 [25935]
  leaf)) 194761 194761 [25964] (node (node leaf 194762 194762 [143370] leaf) 194763 194763 [26083]
  (node leaf 194764 194764 [26360] leaf)))) 194765 194765 [26185] (node (node (node (node leaf
  194766 194766 [15129] leaf) 194767 194767 [26257] (node leaf 194768 194768 [15112] leaf)) 194769
  194769 [15076] (node (node leaf 194770 194770 [20882] leaf) 194771 194771 [20885] (node leaf
  194772 194772 [26368] leaf))) 194773 194773 [26268] (node (node (node leaf 194774 194774 [32941]
  leaf) 194775 194775 [17369] (node leaf 194776 194776 [26391] leaf)) 194777 194777 [26395] (node
  (node leaf 194778 194778 [26401] leaf) 194779 194779 [26462] (node leaf 194780 194780 [26451]
  leaf))))
def decompTable40 : Tbl (List Nat) :=
  node (node (node (node (node (node leaf 194782 194782 [15177] leaf) 194783 194783 [26618] (node leaf
  194784 194784 [26501] leaf)) 194785 194785 [26706] (node (node leaf 194786 194786 [26757] leaf)
  194787 194787 [144493] (node leaf 194788 194788 [26766] leaf))) 194789 194789 [26655] (node (node
  (node leaf 194790 194790 [26900] leaf) 194791 194791 [15261] (node leaf 194792 194792 [26946]
  leaf)) 194793 194793 [27043] (node (node leaf 194794 194794 [27114] leaf) 194795 194795 [27304]
  (node leaf 194796 194796 [145059] leaf)))) 194797 194797 [27355] (node (node (node (node leaf
  194798 194798 [15384] leaf) 194799 194799 [27425] (node leaf 194800 194800 [145575] leaf)) 194801
  194801 [27476] (node (node leaf 194802 194802 [15438] leaf) 194803 194803 [27506] (node leaf
  194804 194804 [27551] leaf))) 194805 194805 [27578] (node (node (node leaf 194806 194806 [27579]
  leaf) 194807 194807 [146061] (node leaf 194808 194808 [138507] leaf)) 194809 194809 [146170] (node
  (node leaf 194810 194810 [27726] leaf) 194811 194811 [146620] (node leaf 194812 194812 [27839]
  leaf))))) 194813 194813 [27853] (node (node (node (node (node leaf 194814 194814 [27751] leaf)
  194815 194815 [27926] (node leaf 194816 194816 [27966] leaf)) 194817 194817 [28023] (node (node
  leaf 194818 194818 [27969] leaf) 194819 194819 [28009] (node leaf 194820 194820 [28024] leaf)))
  194821 194821 [28037] (node (node (node leaf 194822 194822 [146718] leaf) 194823 194823 [27956]
  (node leaf 194824 194824 [28207] leaf)) 194825 194825 [28270] (node (node leaf 194826 194826
  [15667] leaf) 194827 194827 [28363] (node leaf 194828 194828 [28359] leaf)))) 194829 194829
  [147153] (node (node (node (node leaf 194830 194830 [28153] leaf) 194831 194831 [28526] (node leaf
  194832 194832 [147294] leaf)) 194833 194833 [147342] (node (node leaf 194834 194834 [28614] leaf)
  194835 194835 [28729] (node leaf 194836 194836 [28702] leaf))) 194837 194837 [28699] (node (node
  (node leaf 194838 194838 [15766] leaf) 194839 194839 [28746] (node leaf 194840 194840 [28797]
  leaf)) 194841 194841 [28791] (node (node leaf 194842 194842 [28845] leaf) 194843 194843 [132389]
  (node leaf 194844 194844 [28997] leaf)))))
def decompTable41 : Tbl (List Nat) :=
  node (node (node (node (node (node leaf 194846 194846 [29084] leaf) 194847 194847 [148395] leaf)
  194848 194848 [29224] (node leaf 194849 194849 [29237] leaf)) 194850 194850 [29264] (node (node
  leaf 194851 194851 [149000] leaf) 194852 194852 [29312] (node leaf 194853 194853 [29333] leaf)))
  194854 194854 [149301] (node (node (node leaf 194855 194855 [149524] leaf) 194856 194856 [29562]
  (node leaf 194857 194857 [29579] leaf)) 194858 194858 [16044] (node (node leaf 194859 194859
  [29605] leaf) 194860 194860 [16056] (node leaf 194861 194861 [16056] leaf)))) 194862 194862
  [29767] (node (node (node (node leaf 194863 194863 [29788] leaf) 194864 194864 [29809] (node leaf
  194865 194865 [29829] leaf)) 194866 194866 [29898] (node (node leaf 194867 194867 [16155] leaf)
  194868 194868 [29988] (node leaf 194869 194869 [150582] leaf))) 194870 194870 [30014] (node (node
  (node leaf 194871 194871 [150674] leaf) 194872 194872 [30064] (node leaf 194873 194873 [139679]
  leaf)) 194874 194874 [30224] (node (node leaf 194875 194875 [151457] leaf) 194876 194876 [151480]
  (node leaf 194877 194877 [151620] leaf))))
def decompTable42 : Tbl (List Nat) :=
  node (node (node (node (node leaf 194879 194879 [16392] leaf) 194880 194880 [30452] (node leaf
  194881 194881 [151795] leaf)) 194882 194882 [151794] (node (node leaf 194883 194883 [151833] leaf)
  194884 194884 [151859] (node leaf 194885 194885 [30494] leaf))) 194886 194886 [30495] (node (node
  (node leaf 194887 194887 [30495] leaf) 194888 194888 [30538] (node leaf 194889 194889 [16441]
  leaf)) 194890 194890 [30603] (node (node leaf 194891 194891 [16454] leaf) 194892 194892 [16534]
  (node leaf 194893 194893 [152605] leaf)))) 194894 194894 [30798] (node (node (node (node leaf
  194895 194895 [30860] leaf) 194896 194896 [30924] (node leaf 194897 194897 [16611] leaf)) 194898
  194898 [153126] (node (node leaf 194899 194899 [31062] leaf) 194900 194900 [153242] (node leaf
  194901 194901 [153285] leaf))) 194902 194902 [31119] (node (node (node leaf 194903 194903 [31211]
  leaf) 194904 194904 [16687] (node leaf 194905 194905 [31296] leaf)) 194906 194906 [31306] (node
  (node leaf 194907 194907 [31311] leaf) 194908 194908 [153980] (node leaf 194909 194909 [154279]
  leaf))))
def decompTable43 : Tbl (List Nat) :=
  node (node (node (node (node (node leaf 194911 194911 [31470] leaf) 194912 194912 [16898] (node leaf
  194913 194913 [154539] leaf)) 194914 194914 [31686] (node (node leaf 194915 194915 [31689] leaf)
  194916 194916 [16935] (node leaf 194917 194917 [154752] leaf))) 194918 194918 [31954] (node (node
  (node leaf 194919 194919 [17056] leaf) 194920 194920 [31976] (node leaf 194921 194921 [31971]
  leaf)) 194922 194922 [32000] (node (node leaf 194923 194923 [155526] leaf) 194924 194924 [32099]
  (node leaf 194925 194925 [17153] leaf)))) 194926 194926 [32199] (node (node (node (node leaf
  194927 194927 [32258] leaf) 194928 194928 [32325] (node leaf 194929 194929 [17204] leaf)) 194930
  194930 [156200] (node (node leaf 194931 194931 [156231] leaf) 194932 194932 [17241] (node leaf
  194933 194933 [156377] leaf))) 194934 194934 [32634] (node (node (node leaf 194935 194935 [156478]
  leaf) 194936 194936 [32661] (node leaf 194937 194937 [32762] leaf)) 194938 194938 [32773] (node
  (node leaf 194939 194939 [156890] leaf) 194940 194940 [156963] (node leaf 194941 194941 [32864]
  leaf))))) 194942 194942 [157096] (node (node (node (node (node leaf 194943 194943 [32880] leaf)
  194944 194944 [144223] (node leaf 194945 194945 [17365] leaf)) 194946 194946 [32946] (node (node
  leaf 194947 194947 [33027] leaf) 194948 194948 [17419] (node leaf 194949 194949 [33086] leaf)))
  194950 194950 [23221] (node (node (node leaf 194951 194951 [157607] leaf) 194952 194952 [157621]
  (node leaf 194953 194953 [144275] leaf)) 194954 194954 [144284] (node (node leaf 194955 194955
  [33281] leaf) 194956 194956 [33284] (node leaf 194957 194957 [36766] leaf)))) 194958 194958
  [17515] (node (node (node (node leaf 194959 194959 [33425] leaf) 194960 194960 [33419] (node leaf
  194961 194961 [33437] leaf)) 194962 194962 [21171] (node (node leaf 194963 194963 [33457] leaf)
  194964 194964 [33459] (node leaf 194965 194965 [33469] leaf))) 194966 194966 [33510] (node (node
  (node leaf 194967 194967 [158524] leaf) 194968 194968 [33509] (node leaf 194969 194969 [33565]
  leaf)) 194970 194970 [33635] (node (node leaf 194971 194971 [33709] leaf) 194972 194972 [33571]
  (node leaf 194973 194973 [33725] leaf)))))
def decompTable44 : Tbl (List Nat) :=
  node (node (node (node (node (node leaf 194975 194975 [33879] leaf) 194976 194976 [33619] (node leaf
  194977 194977 [33738] leaf)) 194978 194978 [33740] (node (node leaf 194979 194979 [33756] leaf)
  194980 194980 [158774] (node leaf 194981 194981 [159083] leaf))) 194982 194982 [158933] (node
  (node (node leaf 194983 194983 [17707] leaf) 194984 194984 [34033] (node leaf 194985 194985
  [34035] leaf)) 194986 194986 [34070] (node (node leaf 194987 194987 [160714] leaf) 194988 194988
  [34148] (node leaf 194989 194989 [159532] leaf)))) 194990 194990 [17757] (node (node (node (node
  leaf 194991 194991 [17761] leaf) 194992 194992 [159665] (node leaf 194993 194993 [159954] leaf))
  194994 194994 [17771] (node (node leaf 194995 194995 [34384] leaf) 194996 194996 [34396] (node
  leaf 194997 194997 [34407] leaf))) 194998 194998 [34409] (node (node (node leaf 194999 194999
  [34473] leaf) 195000 195000 [34440] (node leaf 195001 195001 [34574] leaf)) 195002 195002 [34530]
  (node (node leaf 195003 195003 [34681] leaf) 195004 195004 [34600] (node leaf 195005 195005
  [34667] leaf))))) 195006 195006 [34694] (node (node (node (node (node leaf 195007 195007 [17879]
  leaf) 195008 195008 [34785] (node leaf 195009 195009 [34817] leaf)) 195010 195010 [17913] (node
  (node leaf 195011 195011 [34912] leaf) 195012 195012 [34915] (node leaf 195013 195013 [161383]
  leaf))) 195014 195014 [35031] (node (node (node leaf 195015 195015 [35038] leaf) 195016 195016
  [17973] (node leaf 195017 195017 [35066] leaf)) 195018 195018 [13499] (node (node leaf 195019
  195019 [161966] leaf) 195020 195020 [162150] (node leaf 195021 195021 [18110] leaf)))) 195022
  195022 [18119] (node (node (node (node leaf 195023 195023 [35488] leaf) 195024 195024 [35565]
  (node leaf 195025 195025 [35722] leaf)) 195026 195026 [35925] (node (node leaf 195027 195027
  [162984] leaf) 195028 195028 [36011] (node leaf 195029 195029 [36033] leaf))) 195030 195030
  [36123] (node (node (node leaf 195031 195031 [36215] leaf) 195032 195032 [163631] (node leaf
  195033 195033 [133124] leaf)) 195034 195034 [36299] (node (node leaf 195035 195035 [36284] leaf)
  195036 195036 [36336] (node leaf 195037 195037 [133342] leaf)))))
def decompTable45 : Tbl (List Nat) :=
  node (node (node (node (node (node leaf 195039 195039 [36664] leaf) 195040 195040 [165330] (node
  leaf 195041 195041 [165357] leaf)) 195042 195042 [37012] (node (node leaf 195043 195043 [37105]
  leaf) 195044 195044 [37137] (node leaf 195045 195045 [165678] leaf))) 195046 195046 [37147] (node
  (node (node leaf 195047 195047 [37432] leaf) 195048 195048 [37591] (node leaf 195049 195049
  [37592] leaf)) 195050 195050 [37500] (node (node leaf 195051 195051 [37881] leaf) 195052 195052
  [37909] (node leaf 195053 195053 [166906] leaf)))) 195054 195054 [38283] (node (node (node (node
  leaf 195055 195055 [18837] leaf) 195056 195056 [38327] (node leaf 195057 195057 [167287] leaf))
  195058 195058 [18918] (node (node leaf 195059 195059 [38595] leaf) 195060 195060 [23986] (node
  leaf 195061 195061 [38691] leaf))) 195062 195062 [168261] (node (node (node leaf 195063 195063
  [168474] leaf) 195064 195064 [19054] (node leaf 195065 195065 [19062] leaf)) 195066 195066 [38880]
  (node (node leaf 195067 195067 [168970] leaf) 195068 195068 [19122] (node leaf 195069 195069
  [169110] leaf))))) 195070 195070 [38923] (node (node (node (node (node leaf 195071 195071 [38923]
  leaf) 195072 195072 [38953] (node leaf 195073 195073 [169398] leaf)) 195074 195074 [39138] (node
  (node leaf 195075 195075 [19251] leaf) 195076 195076 [39209] (node leaf 195077 195077 [39335]
  leaf))) 195078 195078 [39362] (node (node (node leaf 195079 195079 [39422] leaf) 195080 195080
  [19406] (node leaf 195081 195081 [170800] leaf)) 195082 195082 [39698] (node (node leaf 195083
  195083 [40000] leaf) 195084 195084 [40189] (node leaf 195085 195085 [19662] leaf)))) 195086 195086
  [19693] (node (node (node (node leaf 195087 195087 [40295] leaf) 195088 195088 [172238] (node leaf
  195089 195089 [19704] leaf)) 195090 195090 [172293] (node (node leaf 195091 195091 [172558] leaf)
  195092 195092 [172689] (node leaf 195093 195093 [40635] leaf))) 195094 195094 [19798] (node (node
  (node leaf 195095 195095 [40697] leaf) 195096 195096 [40702] (node leaf 195097 195097 [40709]
  leaf)) 195098 195098 [40719] (node (node leaf 195099 195099 [40726] leaf) 195100 195100 [40763]
  (node leaf 195101 195101 [173568] leaf)))))
/-- Canonical decomposition mappings of Unicode 14.0 (UnicodeData.txt, field 5 without a
compatibility tag), each expanded recursively to code points that have no further mapping.
Hangul syllables are decomposed arithmetically and are not listed. -/
def decompTable : Tbl (List Nat) :=
  (node (node (node (node (node (node decompTable0 231 231 [99,807] decompTable1) 267 267 [99,775]
  decompTable2) 348 348 [83,770] (node (node decompTable3 416 416 [79,795] decompTable4) 492 492
  [79,808,772] decompTable5)) 894 894 [59] (node (node (node decompTable6 1081 1081 [1080,774]
  decompTable7) 1260 1260 [1069,776] decompTable8) 3907 3907 [3906,4023] (node (node decompTable9
  7684 7684 [66,803] decompTable10) 7716 7716 [72,803] decompTable11))) 7780 7780 [83,769,775] (node
  (node (node (node decompTable12 7813 7813 [119,776] decompTable13) 7850 7850 [65,770,771]
  decompTable14) 7914 7914 [85,795,768] (node (node decompTable15 7953 7953 [949,788] decompTable16)
  7989 7989 [953,788,769] decompTable17)) 8061 8061 [969,769] (node (node (node decompTable18 8096
  8096 [969,787,837] decompTable19) 8132 8132 [951,769,837] decompTable20) 8716 8716 [8715,824]
  (node decompTable21 12436 12436 [12358,12441] decompTable22)))) 63775 63775 [34349] (node (node
  (node (node (node decompTable23 63808 63808 [40575] decompTable24) 63840 63840 [24594]
  decompTable25) 63904 63904 [35010] (node (node decompTable26 63937 63937 [30274] decompTable27)
  63969 63969 [26446] decompTable28)) 64045 64045 [40372] (node (node (node decompTable29 64078
  64078 [31048] decompTable30) 64112 64112 [20006] decompTable31) 64176 64176 [32244] (node (node
  decompTable32 64209 64209 [144341] decompTable33) 64323 64323 [1507,1468] decompTable34))) 194587
  194587 [20917] (node (node (node (node decompTable35 194620 194620 [21662] decompTable36) 194652
  194652 [22790] decompTable37) 194716 194716 [24474] (node (node decompTable38 194749 194749
  [25572] decompTable39) 194781 194781 [144323] decompTable40)) 194845 194845 [148067] (node (node
  (node decompTable41 194878 194878 [16380] decompTable42) 194910 194910 [154279] decompTable43)
  194974 194974 [33767] (node decompTable44 195038 195038 [36564] decompTable45)))))

def cccTable0 : Tbl Nat :=
  node (node (node (node (node (node leaf 768 788 230 leaf) 789 789 232 leaf) 790 793 220 (node (node
  leaf 794 794 232 leaf) 795 795 216 leaf)) 796 800 220 (node (node (node leaf 801 802 202 leaf) 803
  806 220 leaf) 807 808 202 (node (node leaf 809 819 220 leaf) 820 824 1 leaf))) 825 828 220 (node
  (node (node (node leaf 829 836 230 leaf) 837 837 240 leaf) 838 838 230 (node (node leaf 839 841
  220 leaf) 842 844 230 leaf)) 845 846 220 (node (node (node leaf 848 850 230 leaf) 851 854 220
  leaf) 855 855 230 (node (node leaf 856 856 232 leaf) 857 858 220 leaf)))) 859 859 230 (node (node
  (node (node (node leaf 860 860 233 leaf) 861 862 234 leaf) 863 863 233 (node (node leaf 864 865
  234 leaf) 866 866 233 leaf)) 867 879 230 (node (node (node leaf 1155 1159 230 leaf) 1425 1425 220
  leaf) 1426 1429 230 (node (node leaf 1430 1430 220 leaf) 1431 1433 230 leaf))) 1434 1434 222 (node
  (node (node (node leaf 1435 1435 220 leaf) 1436 1441 230 leaf) 1442 1447 220 (node (node leaf 1448
  1449 230 leaf) 1450 1450 220 leaf)) 1451 1452 230 (node (node (node leaf 1453 1453 222 leaf) 1454
  1454 228 leaf) 1455 1455 230 (node (node leaf 1456 1456 10 leaf) 1457 1457 11 leaf))))
def cccTable1 : Tbl Nat :=
  node (node (node (node (node (node leaf 1459 1459 13 leaf) 1460 1460 14 leaf) 1461 1461 15 (node
  (node leaf 1462 1462 16 leaf) 1463 1463 17 leaf)) 1464 1464 18 (node (node (node leaf 1465 1466 19
  leaf) 1467 1467 20 leaf) 1468 1468 21 (node (node leaf 1469 1469 22 leaf) 1471 1471 23 leaf)))
  1473 1473 24 (node (node (node (node leaf 1474 1474 25 leaf) 1476 1476 230 leaf) 1477 1477 220
  (node (node leaf 1479 1479 18 leaf) 1552 1559 230 leaf)) 1560 1560 30 (node (node (node leaf 1561
  1561 31 leaf) 1562 1562 32 leaf) 1611 1611 27 (node (node leaf 1612 1612 28 leaf) 1613 1613 29
  leaf)))) 1614 1614 30 (node (node (node (node (node leaf 1615 1615 31 leaf) 1616 1616 32 leaf)
  1617 1617 33 (node (node leaf 1618 1618 34 leaf) 1619 1620 230 leaf)) 1621 1622 220 (node (node
  (node leaf 1623 1627 230 leaf) 1628 1628 220 leaf) 1629 1630 230 (node (node leaf 1631 1631 220
  leaf) 1648 1648 35 leaf))) 1750 1756 230 (node (node (node (node leaf 1759 1762 230 leaf) 1763
  1763 220 leaf) 1764 1764 230 (node (node leaf 1767 1768 230 leaf) 1770 1770 220 leaf)) 1771 1772
  230 (node (node (node leaf 1773 1773 220 leaf) 1809 1809 36 leaf) 1840 1840 230 (node (node leaf
  1841 1841 220 leaf) 1842 1843 230 leaf))))
def cccTable2 : Tbl Nat :=
  node (node (node (node (node (node leaf 1845 1846 230 leaf) 1847 1849 220 leaf) 1850 1850 230 (node
  (node leaf 1851 1852 220 leaf) 1853 1853 230 leaf)) 1854 1854 220 (node (node (node leaf 1855 1857
  230 leaf) 1858 1858 220 leaf) 1859 1859 230 (node (node leaf 1860 1860 220 leaf) 1861 1861 230
  leaf))) 1862 1862 220 (node (node (node (node leaf 1863 1863 230 leaf) 1864 1864 220 leaf) 1865
  1866 230 (node (node leaf 2027 2033 230 leaf) 2034 2034 220 leaf)) 2035 2035 230 (node (node (node
  leaf 2045 2045 220 leaf) 2070 2073 230 leaf) 2075 2083 230 (node (node leaf 2085 2087 230 leaf)
  2089 2093 230 leaf)))) 2137 2139 220 (node (node (node (node (node leaf 2200 2200 230 leaf) 2201
  2203 220 leaf) 2204 2207 230 (node (node leaf 2250 2254 230 leaf) 2255 2259 220 leaf)) 2260 2273
  230 (node (node (node leaf 2275 2275 220 leaf) 2276 2277 230 leaf) 2278 2278 220 (node (node leaf
  2279 2280 230 leaf) 2281 2281 220 leaf))) 2282 2284 230 (node (node (node (node leaf 2285 2287 220
  leaf) 2288 2288 27 leaf) 2289 2289 28 (node (node leaf 2290 2290 29 leaf) 2291 2293 230 leaf))
  2294 2294 220 (node (node (node leaf 2295 2296 230 leaf) 2297 2298 220 leaf) 2299 2303 230 (node
  (node leaf 2364 2364 7 leaf) 2381 2381 9 leaf))))
def cccTable3 : Tbl Nat :=
  node (node (node (node (node (node leaf 2386 2386 220 leaf) 2387 2388 230 leaf) 2492 2492 7 (node
  (node leaf 2509 2509 9 leaf) 2558 2558 230 leaf)) 2620 2620 7 (node (node (node leaf 2637 2637 9
  leaf) 2748 2748 7 leaf) 2765 2765 9 (node (node leaf 2876 2876 7 leaf) 2893 2893 9 leaf))) 3021
  3021 9 (node (node (node (node leaf 3132 3132 7 leaf) 3149 3149 9 leaf) 3157 3157 84 (node (node
  leaf 3158 3158 91 leaf) 3260 3260 7 leaf)) 3277 3277 9 (node (node (node leaf 3387 3388 9 leaf)
  3405 3405 9 leaf) 3530 3530 9 (node (node leaf 3640 3641 103 leaf) 3642 3642 9 leaf)))) 3656 3659
  107 (node (node (node (node (node leaf 3768 3769 118 leaf) 3770 3770 9 leaf) 3784 3787 122 (node
  (node leaf 3864 3865 220 leaf) 3893 3893 220 leaf)) 3895 3895 220 (node (node (node leaf 3897 3897
  216 leaf) 3953 3953 129 leaf) 3954 3954 130 (node (node leaf 3956 3956 132 leaf) 3962 3965 130
  leaf))) 3968 3968 130 (node (node (node (node leaf 3970 3971 230 leaf) 3972 3972 9 leaf) 3974 3975
  230 (node (node leaf 4038 4038 220 leaf) 4151 4151 7 leaf)) 4153 4154 9 (node (node (node leaf
  4237 4237 220 leaf) 4957 4959 230 leaf) 5908 5909 9 (node (node leaf 5940 5940 9 leaf) 6098 6098 9
  leaf))))
def cccTable4 : Tbl Nat :=
  node (node (node (node (node (node leaf 6313 6313 228 leaf) 6457 6457 222 leaf) 6458 6458 230 (node
  (node leaf 6459 6459 220 leaf) 6679 6679 230 leaf)) 6680 6680 220 (node (node (node leaf 6752 6752
  9 leaf) 6773 6780 230 leaf) 6783 6783 220 (node (node leaf 6832 6836 230 leaf) 6837 6842 220
  leaf))) 6843 6844 230 (node (node (node (node leaf 6845 6845 220 leaf) 6847 6848 220 leaf) 6849
  6850 230 (node (node leaf 6851 6852 220 leaf) 6853 6857 230 leaf)) 6858 6858 220 (node (node (node
  leaf 6859 6862 230 leaf) 6964 6964 7 leaf) 6980 6980 9 (node (node leaf 7019 7019 230 leaf) 7020
  7020 220 leaf)))) 7021 7027 230 (node (node (node (node (node leaf 7082 7083 9 leaf) 7142 7142 7
  leaf) 7154 7155 9 (node (node leaf 7223 7223 7 leaf) 7376 7378 230 leaf)) 7380 7380 1 (node (node
  (node leaf 7381 7385 220 leaf) 7386 7387 230 leaf) 7388 7391 220 (node (node leaf 7392 7392 230
  leaf) 7394 7400 1 leaf))) 7405 7405 220 (node (node (node (node leaf 7412 7412 230 leaf) 7416 7417
  230 leaf) 7616 7617 230 (node (node leaf 7618 7618 220 leaf) 7619 7625 230 leaf)) 7626 7626 220
  (node (node (node leaf 7627 7628 230 leaf) 7629 7629 234 leaf) 7630 7630 214 (node (node leaf 7631
  7631 220 leaf) 7632 7632 202 leaf))))
def cccTable5 : Tbl Nat :=
  node (node (node (node (node (node leaf 7670 7670 232 leaf) 7671 7672 228 leaf) 7673 7673 220 (node
  (node leaf 7674 7674 218 leaf) 7675 7675 230 leaf)) 7676 7676 233 (node (node (node leaf 7677 7677
  220 leaf) 7678 7678 230 leaf) 7679 7679 220 (node (node leaf 8400 8401 230 leaf) 8402 8403 1
  leaf))) 8404 8407 230 (node (node (node (node leaf 8408 8410 1 leaf) 8411 8412 230 leaf) 8417 8417
  230 (node (node leaf 8421 8422 1 leaf) 8423 8423 230 leaf)) 8424 8424 220 (node (node (node leaf
  8425 8425 230 leaf) 8426 8427 1 leaf) 8428 8431 220 (node (node leaf 8432 8432 230 leaf) 11503
  11505 230 leaf)))) 11647 11647 9 (node (node (node (node (node leaf 11744 11775 230 leaf) 12330
  12330 218 leaf) 12331 12331 228 (node (node leaf 12332 12332 232 leaf) 12333 12333 222 leaf))
  12334 12335 224 (node (node (node leaf 12441 12442 8 leaf) 42607 42607 230 leaf) 42612 42621 230
  (node (node leaf 42654 42655 230 leaf) 42736 42737 230 leaf))) 43014 43014 9 (node (node (node
  (node leaf 43052 43052 9 leaf) 43204 43204 9 leaf) 43232 43249 230 (node (node leaf 43307 43309
  220 leaf) 43347 43347 9 leaf)) 43443 43443 7 (node (node (node leaf 43456 43456 9 leaf) 43696
  43696 230 leaf) 43698 43699 230 (node (node leaf 43700 43700 220 leaf) 43703 43704 230 leaf))))
def cccTable6 : Tbl Nat :=
  node (node (node (node (node (node leaf 43713 43713 230 leaf) 43766 43766 9 leaf) 44013 44013 9
  (node (node leaf 64286 64286 26 leaf) 65056 65062 230 leaf)) 65063 65069 220 (node (node (node
  leaf 65070 65071 230 leaf) 66045 66045 220 leaf) 66272 66272 220 (node (node leaf 66422 66426 230
  leaf) 68109 68109 220 leaf))) 68111 68111 230 (node (node (node (node leaf 68152 68152 230 leaf)
  68153 68153 1 leaf) 68154 68154 220 (node (node leaf 68159 68159 9 leaf) 68325 68325 230 leaf))
  68326 68326 220 (node (node (node leaf 68900 68903 230 leaf) 69291 69292 230 leaf) 69446 69447 220
  (node (node leaf 69448 69450 230 leaf) 69451 69451 220 leaf)))) 69452 69452 230 (node (node (node
  (node (node leaf 69453 69456 220 leaf) 69506 69506 230 leaf) 69507 69507 220 (node (node leaf
  69508 69508 230 leaf) 69509 69509 220 leaf)) 69702 69702 9 (node (node (node leaf 69744 69744 9
  leaf) 69759 69759 9 leaf) 69817 69817 9 (node (node leaf 69818 69818 7 leaf) 69888 69890 230
  leaf))) 69939 69940 9 (node (node (node (node leaf 70003 70003 7 leaf) 70080 70080 9 leaf) 70090
  70090 7 (node (node leaf 70197 70197 9 leaf) 70198 70198 7 leaf)) 70377 70377 7 (node (node (node
  leaf 70378 70378 9 leaf) 70459 70460 7 leaf) 70477 70477 9 (node (node leaf 70502 70508 230 leaf)
  70512 70516 230 leaf))))
def cccTable7 : Tbl Nat :=
  node (node (node (node (node (node leaf 70726 70726 7 leaf) 70750 70750 230 leaf) 70850 70850 9
  (node (node leaf 70851 70851 7 leaf) 71103 71103 9 leaf)) 71104 71104 7 (node (node (node leaf
  71231 71231 9 leaf) 71350 71350 9 leaf) 71351 71351 7 (node (node leaf 71467 71467 9 leaf) 71737
  71737 9 leaf))) 71738 71738 7 (node (node (node (node leaf 71997 71998 9 leaf) 72003 72003 7 leaf)
  72160 72160 9 (node (node leaf 72244 72244 9 leaf) 72263 72263 9 leaf)) 72345 72345 9 (node (node
  (node leaf 72767 72767 9 leaf) 73026 73026 7 leaf) 73028 73029 9 (node (node leaf 73111 73111 9
  leaf) 92912 92916 1 leaf)))) 92976 92982 230 (node (node (node (node (node leaf 94192 94193 6
  leaf) 113822 113822 1 leaf) 119141 119142 216 (node (node leaf 119143 119145 1 leaf) 119149 119149
  226 leaf)) 119150 119154 216 (node (node (node leaf 119163 119170 220 leaf) 119173 119177 230
  leaf) 119178 119179 220 (node (node leaf 119210 119213 230 leaf) 119362 119364 230 leaf))) 122880
  122886 230 (node (node (node (node leaf 122888 122904 230 leaf) 122907 122913 230 leaf) 122915
  122916 230 (node (node leaf 122918 122922 230 leaf) 123184 123190 230 leaf)) 123566 123566 230
  (node (node (node leaf 123628 123631 230 leaf) 125136 125142 220 leaf) 125252 125257 230 (node
  leaf 125258 125258 7 leaf))))
/-- Canonical combining classes of Unicode 14.0 (UnicodeData.txt, field 3), as ranges; a code
point outside every range has class 0. -/
def cccTable : Tbl Nat :=
  (node (node (node cccTable0 1458 1458 12 cccTable1) 1844 1844 220 (node cccTable2 2385 2385 230
  cccTable3)) 6109 6109 230 (node (node cccTable4 7633 7669 230 cccTable5) 43710 43711 230 (node
  cccTable6 70722 70722 9 cccTable7)))

def lowerTable0 : Tbl (List Nat) :=
  node (node (node (node (node (node leaf 65 65 [97] leaf) 66 66 [98] leaf) 67 67 [99] (node (node
  leaf 68 68 [100] leaf) 69 69 [101] leaf)) 70 70 [102] (node (node (node leaf 71 71 [103] leaf) 72
  72 [104] leaf) 73 73 [105] (node (node leaf 74 74 [106] leaf) 75 75 [107] leaf))) 76 76 [108]
  (node (node (node (node leaf 77 77 [109] leaf) 78 78 [110] leaf) 79 79 [111] (node (node leaf 80
  80 [112] leaf) 81 81 [113] leaf)) 82 82 [114] (node (node (node leaf 83 83 [115] leaf) 84 84 [116]
  leaf) 85 85 [117] (node leaf 86 86 [118] leaf)))) 87 87 [119] (node (node (node (node (node leaf
  88 88 [120] leaf) 89 89 [121] leaf) 90 90 [122] (node (node leaf 192 192 [224] leaf) 193 193 [225]
  leaf)) 194 194 [226] (node (node (node leaf 195 195 [227] leaf) 196 196 [228] leaf) 197 197 [229]
  (node leaf 198 198 [230] leaf))) 199 199 [231] (node (node (node (node leaf 200 200 [232] leaf)
  201 201 [233] leaf) 202 202 [234] (node (node leaf 203 203 [235] leaf) 204 204 [236] leaf)) 205
  205 [237] (node (node (node leaf 206 206 [238] leaf) 207 207 [239] leaf) 208 208 [240] (node leaf
  209 209 [241] leaf))))
def lowerTable1 : Tbl (List Nat) :=
  node (node (node (node (node (node leaf 211 211 [243] leaf) 212 212 [244] leaf) 213 213 [245] (node
  (node leaf 214 214 [246] leaf) 216 216 [248] leaf)) 217 217 [249] (node (node (node leaf 218 218
  [250] leaf) 219 219 [251] leaf) 220 220 [252] (node (node leaf 221 221 [253] leaf) 222 222 [254]
  leaf))) 256 256 [257] (node (node (node (node leaf 258 258 [259] leaf) 260 260 [261] leaf) 262 262
  [263] (node (node leaf 264 264 [265] leaf) 266 266 [267] leaf)) 268 268 [269] (node (node (node
  leaf 270 270 [271] leaf) 272 272 [273] leaf) 274 274 [275] (node leaf 276 276 [277] leaf)))) 278
  278 [279] (node (node (node (node (node leaf 280 280 [281] leaf) 282 282 [283] leaf) 284 284 [285]
  (node (node leaf 286 286 [287] leaf) 288 288 [289] leaf)) 290 290 [291] (node (node (node leaf 292
  292 [293] leaf) 294 294 [295] leaf) 296 296 [297] (node leaf 298 298 [299] leaf))) 300 300 [301]
  (node (node (node (node leaf 302 302 [303] leaf) 304 304 [105,775] leaf) 306 306 [307] (node (node
  leaf 308 308 [309] leaf) 310 310 [311] leaf)) 313 313 [314] (node (node (node leaf 315 315 [316]
  leaf) 317 317 [318] leaf) 319 319 [320] (node leaf 321 321 [322] leaf))))
def lowerTable2 : Tbl (List Nat) :=
  node (node (node (node (node (node leaf 325 325 [326] leaf) 327 327 [328] leaf) 330 330 [331] (node
  (node leaf 332 332 [333] leaf) 334 334 [335] leaf)) 336 336 [337] (node (node (node leaf 338 338
  [339] leaf) 340 340 [341] leaf) 342 342 [343] (node (node leaf 344 344 [345] leaf) 346 346 [347]
  leaf))) 348 348 [349] (node (node (node (node leaf 350 350 [351] leaf) 352 352 [353] leaf) 354 354
  [355] (node (node leaf 356 356 [357] leaf) 358 358 [359] leaf)) 360 360 [361] (node (node (node
  leaf 362 362 [363] leaf) 364 364 [365] leaf) 366 366 [367] (node leaf 368 368 [369] leaf)))) 370
  370 [371] (node (node (node (node (node leaf 372 372 [373] leaf) 374 374 [375] leaf) 376 376 [255]
  (node (node leaf 377 377 [378] leaf) 379 379 [380] leaf)) 381 381 [382] (node (node (node leaf 385
  385 [595] leaf) 386 386 [387] leaf) 388 388 [389] (node leaf 390 390 [596] leaf))) 391 391 [392]
  (node (node (node (node leaf 393 393 [598] leaf) 394 394 [599] leaf) 395 395 [396] (node (node
  leaf 398 398 [477] leaf) 399 399 [601] leaf)) 400 400 [603] (node (node (node leaf 401 401 [402]
  leaf) 403 403 [608] leaf) 404 404 [611] (node leaf 406 406 [617] leaf))))
def lowerTable3 : Tbl (List Nat) :=
  node (node (node (node (node (node leaf 408 408 [409] leaf) 412 412 [623] leaf) 413 413 [626] (node
  (node leaf 415 415 [629] leaf) 416 416 [417] leaf)) 418 418 [419] (node (node (node leaf 420 420
  [421] leaf) 422 422 [640] leaf) 423 423 [424] (node (node leaf 425 425 [643] leaf) 428 428 [429]
  leaf))) 430 430 [648] (node (node (node (node leaf 431 431 [432] leaf) 433 433 [650] leaf) 434 434
  [651] (node (node leaf 435 435 [436] leaf) 437 437 [438] leaf)) 439 439 [658] (node (node (node
  leaf 440 440 [441] leaf) 444 444 [445] leaf) 452 452 [454] (node leaf 453 453 [454] leaf)))) 455
  455 [457] (node (node (node (node (node leaf 456 456 [457] leaf) 458 458 [460] leaf) 459 459 [460]
  (node (node leaf 461 461 [462] leaf) 463 463 [464] leaf)) 465 465 [466] (node (node (node leaf 467
  467 [468] leaf) 469 469 [470] leaf) 471 471 [472] (node leaf 473 473 [474] leaf))) 475 475 [476]
  (node (node (node (node leaf 478 478 [479] leaf) 480 480 [481] leaf) 482 482 [483] (node (node
  leaf 484 484 [485] leaf) 486 486 [487] leaf)) 488 488 [489] (node (node (node leaf 490 490 [491]
  leaf) 492 492 [493] leaf) 494 494 [495] (node leaf 497 497 [499] leaf))))
def lowerTable4 : Tbl (List Nat) :=
  node (node (node (node (node (node leaf 500 500 [501] leaf) 502 502 [405] leaf) 503 503 [447] (node
  (node leaf 504 504 [505] leaf) 506 506 [507] leaf)) 508 508 [509] (node (node (node leaf 510 510
  [511] leaf) 512 512 [513] leaf) 514 514 [515] (node (node leaf 516 516 [517] leaf) 518 518 [519]
  leaf))) 520 520 [521] (node (node (node (node leaf 522 522 [523] leaf) 524 524 [525] leaf) 526 526
  [527] (node (node leaf 528 528 [529] leaf) 530 530 [531] leaf)) 532 532 [533] (node (node (node
  leaf 534 534 [535] leaf) 536 536 [537] leaf) 538 538 [539] (node leaf 540 540 [541] leaf)))) 542
  542 [543] (node (node (node (node (node leaf 544 544 [414] leaf) 546 546 [547] leaf) 548 548 [549]
  (node (node leaf 550 550 [551] leaf) 552 552 [553] leaf)) 554 554 [555] (node (node (node leaf 556
  556 [557] leaf) 558 558 [559] leaf) 560 560 [561] (node leaf 562 562 [563] leaf))) 570 570 [11365]
  (node (node (node (node leaf 571 571 [572] leaf) 573 573 [410] leaf) 574 574 [11366] (node (node
  leaf 577 577 [578] leaf) 579 579 [384] leaf)) 580 580 [649] (node (node (node leaf 581 581 [652]
  leaf) 582 582 [583] leaf) 584 584 [585] (node leaf 586 586 [587] leaf))))
def lowerTable5 : Tbl (List Nat) :=
  node (node (node (node (node (node leaf 590 590 [591] leaf) 880 880 [881] leaf) 882 882 [883] (node
  (node leaf 886 886 [887] leaf) 895 895 [1011] leaf)) 902 902 [940] (node (node (node leaf 904 904
  [941] leaf) 905 905 [942] leaf) 906 906 [943] (node (node leaf 908 908 [972] leaf) 910 910 [973]
  leaf))) 911 911 [974] (node (node (node (node leaf 913 913 [945] leaf) 914 914 [946] leaf) 915 915
  [947] (node (node leaf 916 916 [948] leaf) 917 917 [949] leaf)) 918 918 [950] (node (node (node
  leaf 919 919 [951] leaf) 920 920 [952] leaf) 921 921 [953] (node leaf 922 922 [954] leaf)))) 923
  923 [955] (node (node (node (node (node leaf 924 924 [956] leaf) 925 925 [957] leaf) 926 926 [958]
  (node (node leaf 927 927 [959] leaf) 928 928 [960] leaf)) 929 929 [961] (node (node (node leaf 931
  931 [963] leaf) 932 932 [964] leaf) 933 933 [965] (node leaf 934 934 [966] leaf))) 935 935 [967]
  (node (node (node (node leaf 936 936 [968] leaf) 937 937 [969] leaf) 938 938 [970] (node (node
  leaf 939 939 [971] leaf) 975 975 [983] leaf)) 984 984 [985] (node (node (node leaf 986 986 [987]
  leaf) 988 988 [989] leaf) 990 990 [991] (node leaf 992 992 [993] leaf))))
def lowerTable6 : Tbl (List Nat) :=
  node (node (node (node (node (node leaf 996 996 [997] leaf) 998 998 [999] leaf) 1000 1000 [1001]
  (node (node leaf 1002 1002 [1003] leaf) 1004 1004 [1005] leaf)) 1006 1006 [1007] (node (node (node
  leaf 1012 1012 [952] leaf) 1015 1015 [1016] leaf) 1017 1017 [1010] (node (node leaf 1018 1018
  [1019] leaf) 1021 1021 [891] leaf))) 1022 1022 [892] (node (node (node (node leaf 1023 1023 [893]
  leaf) 1024 1024 [1104] leaf) 1025 1025 [1105] (node (node leaf 1026 1026 [1106] leaf) 1027 1027
  [1107] leaf)) 1028 1028 [1108] (node (node (node leaf 1029 1029 [1109] leaf) 1030 1030 [1110]
  leaf) 1031 1031 [1111] (node leaf 1032 1032 [1112] leaf)))) 1033 1033 [1113] (node (node (node
  (node (node leaf 1034 1034 [1114] leaf) 1035 1035 [1115] leaf) 1036 1036 [1116] (node (node leaf
  1037 1037 [1117] leaf) 1038 1038 [1118] leaf)) 1039 1039 [1119] (node (node (node leaf 1040 1040
  [1072] leaf) 1041 1041 [1073] leaf) 1042 1042 [1074] (node leaf 1043 1043 [1075] leaf))) 1044 1044
  [1076] (node (node (node (node leaf 1045 1045 [1077] leaf) 1046 1046 [1078] leaf) 1047 1047 [1079]
  (node (node leaf 1048 1048 [1080] leaf) 1049 1049 [1081] leaf)) 1050 1050 [1082] (node (node (node
  leaf 1051 1051 [1083] leaf) 1052 1052 [1084] leaf) 1053 1053 [1085] (node leaf 1054 1054 [1086]
  leaf))))
def lowerTable7 : Tbl (List Nat) :=
  node (node (node (node (node (node leaf 1056 1056 [1088] leaf) 1057 1057 [1089] leaf) 1058 1058
  [1090] (node (node leaf 1059 1059 [1091] leaf) 1060 1060 [1092] leaf)) 1061 1061 [1093] (node
  (node (node leaf 1062 1062 [1094] leaf) 1063 1063 [1095] leaf) 1064 1064 [1096] (node leaf 1065
  1065 [1097] leaf))) 1066 1066 [1098] (node (node (node (node leaf 1067 1067 [1099] leaf) 1068 1068
  [1100] leaf) 1069 1069 [1101] (node (node leaf 1070 1070 [1102] leaf) 1071 1071 [1103] leaf)) 1120
  1120 [1121] (node (node (node leaf 1122 1122 [1123] leaf) 1124 1124 [1125] leaf) 1126 1126 [1127]
  (node leaf 1128 1128 [1129] leaf)))) 1130 1130 [1131] (node (node (node (node (node leaf 1132 1132
  [1133] leaf) 1134 1134 [1135] leaf) 1136 1136 [1137] (node (node leaf 1138 1138 [1139] leaf) 1140
  1140 [1141] leaf)) 1142 1142 [1143] (node (node (node leaf 1144 1144 [1145] leaf) 1146 1146 [1147]
  leaf) 1148 1148 [1149] (node leaf 1150 1150 [1151] leaf))) 1152 1152 [1153] (node (node (node
  (node leaf 1162 1162 [1163] leaf) 1164 1164 [1165] leaf) 1166 1166 [1167] (node (node leaf 1168
  1168 [1169] leaf) 1170 1170 [1171] leaf)) 1172 1172 [1173] (node (node (node leaf 1174 1174 [1175]
  leaf) 1176 1176 [1177] leaf) 1178 1178 [1179] (node leaf 1180 1180 [1181] leaf))))
def lowerTable8 : Tbl (List Nat) :=
  node (node (node (node (node (node leaf 1184 1184 [1185] leaf) 1186 1186 [1187] leaf) 1188 1188
  [1189] (node (node leaf 1190 1190 [1191] leaf) 1192 1192 [1193] leaf)) 1194 1194 [1195] (node
  (node (node leaf 1196 1196 [1197] leaf) 1198 1198 [1199] leaf) 1200 1200 [1201] (node (node leaf
  1202 1202 [1203] leaf) 1204 1204 [1205] leaf))) 1206 1206 [1207] (node (node (node (node leaf 1208
  1208 [1209] leaf) 1210 1210 [1211] leaf) 1212 1212 [1213] (node (node leaf 1214 1214 [1215] leaf)
  1216 1216 [1231] leaf)) 1217 1217 [1218] (node (node (node leaf 1219 1219 [1220] leaf) 1221 1221
  [1222] leaf) 1223 1223 [1224] (node leaf 1225 1225 [1226] leaf)))) 1227 1227 [1228] (node (node
  (node (node (node leaf 1229 1229 [1230] leaf) 1232 1232 [1233] leaf) 1234 1234 [1235] (node (node
  leaf 1236 1236 [1237] leaf) 1238 1238 [1239] leaf)) 1240 1240 [1241] (node (node (node leaf 1242
  1242 [1243] leaf) 1244 1244 [1245] leaf) 1246 1246 [1247] (node leaf 1248 1248 [1249] leaf))) 1250
  1250 [1251] (node (node (node (node leaf 1252 1252 [1253] leaf) 1254 1254 [1255] leaf) 1256 1256
  [1257] (node (node leaf 1258 1258 [1259] leaf) 1260 1260 [1261] leaf)) 1262 1262 [1263] (node
  (node (node leaf 1264 1264 [1265] leaf) 1266 1266 [1267] leaf) 1268 1268 [1269] (node leaf 1270
  1270 [1271] leaf))))
def lowerTable9 : Tbl (List Nat) :=
  node (node (node (node (node (node leaf 1274 1274 [1275] leaf) 1276 1276 [1277] leaf) 1278 1278
  [1279] (node (node leaf 1280 1280 [1281] leaf) 1282 1282 [1283] leaf)) 1284 1284 [1285] (node
  (node (node leaf 1286 1286 [1287] leaf) 1288 1288 [1289] leaf) 1290 1290 [1291] (node (node leaf
  1292 1292 [1293] leaf) 1294 1294 [1295] leaf))) 1296 1296 [1297] (node (node (node (node leaf 1298
  1298 [1299] leaf) 1300 1300 [1301] leaf) 1302 1302 [1303] (node (node leaf 1304 1304 [1305] leaf)
  1306 1306 [1307] leaf)) 1308 1308 [1309] (node (node (node leaf 1310 1310 [1311] leaf) 1312 1312
  [1313] leaf) 1314 1314 [1315] (node leaf 1316 1316 [1317] leaf)))) 1318 1318 [1319] (node (node
  (node (node (node leaf 1320 1320 [1321] leaf) 1322 1322 [1323] leaf) 1324 1324 [1325] (node (node
  leaf 1326 1326 [1327] leaf) 1329 1329 [1377] leaf)) 1330 1330 [1378] (node (node (node leaf 1331
  1331 [1379] leaf) 1332 1332 [1380] leaf) 1333 1333 [1381] (node leaf 1334 1334 [1382] leaf))) 1335
  1335 [1383] (node (node (node (node leaf 1336 1336 [1384] leaf) 1337 1337 [1385] leaf) 1338 1338
  [1386] (node (node leaf 1339 1339 [1387] leaf) 1340 1340 [1388] leaf)) 1341 1341 [1389] (node
  (node (node leaf 1342 1342 [1390] leaf) 1343 1343 [1391] leaf) 1344 1344 [1392] (node leaf 1345
  1345 [1393] leaf))))
def lowerTable10 : Tbl (List Nat) :=
  node (node (node (node (node (node leaf 1347 1347 [1395] leaf) 1348 1348 [1396] leaf) 1349 1349
  [1397] (node (node leaf 1350 1350 [1398] leaf) 1351 1351 [1399] leaf)) 1352 1352 [1400] (node
  (node (node leaf 1353 1353 [1401] leaf) 1354 1354 [1402] leaf) 1355 1355 [1403] (node (node leaf
  1356 1356 [1404] leaf) 1357 1357 [1405] leaf))) 1358 1358 [1406] (node (node (node (node leaf 1359
  1359 [1407] leaf) 1360 1360 [1408] leaf) 1361 1361 [1409] (node (node leaf 1362 1362 [1410] leaf)
  1363 1363 [1411] leaf)) 1364 1364 [1412] (node (node (node leaf 1365 1365 [1413] leaf) 1366 1366
  [1414] leaf) 4256 4256 [11520] (node leaf 4257 4257 [11521] leaf)))) 4258 4258 [11522] (node (node
  (node (node (node leaf 4259 4259 [11523] leaf) 4260 4260 [11524] leaf) 4261 4261 [11525] (node
  (node leaf 4262 4262 [11526] leaf) 4263 4263 [11527] leaf)) 4264 4264 [11528] (node (node (node
  leaf 4265 4265 [11529] leaf) 4266 4266 [11530] leaf) 4267 4267 [11531] (node leaf 4268 4268
  [11532] leaf))) 4269 4269 [11533] (node (node (node (node leaf 4270 4270 [11534] leaf) 4271 4271
  [11535] leaf) 4272 4272 [11536] (node (node leaf 4273 4273 [11537] leaf) 4274 4274 [11538] leaf))
  4275 4275 [11539] (node (node (node leaf 4276 4276 [11540] leaf) 4277 4277 [11541] leaf) 4278 4278
  [11542] (node leaf 4279 4279 [11543] leaf))))
def lowerTable11 : Tbl (List Nat) :=
  node (node (node (node (node (node leaf 4281 4281 [11545] leaf) 4282 4282 [11546] leaf) 4283 4283
  [11547] (node (node leaf 4284 4284 [11548] leaf) 4285 4285 [11549] leaf)) 4286 4286 [11550] (node
  (node (node leaf 4287 4287 [11551] leaf) 4288 4288 [11552] leaf) 4289 4289 [11553] (node leaf 4290
  4290 [11554] leaf))) 4291 4291 [11555] (node (node (node (node leaf 4292 4292 [11556] leaf) 4293
  4293 [11557] leaf) 4295 4295 [11559] (node (node leaf 4301 4301 [11565] leaf) 5024 5024 [43888]
  leaf)) 5025 5025 [43889] (node (node (node leaf 5026 5026 [43890] leaf) 5027 5027 [43891] leaf)
  5028 5028 [43892] (node leaf 5029 5029 [43893] leaf)))) 5030 5030 [43894] (node (node (node (node
  (node leaf 5031 5031 [43895] leaf) 5032 5032 [43896] leaf) 5033 5033 [43897] (node (node leaf 5034
  5034 [43898] leaf) 5035 5035 [43899] leaf)) 5036 5036 [43900] (node (node (node leaf 5037 5037
  [43901] leaf) 5038 5038 [43902] leaf) 5039 5039 [43903] (node leaf 5040 5040 [43904] leaf))) 5041
  5041 [43905] (node (node (node (node leaf 5042 5042 [43906] leaf) 5043 5043 [43907] leaf) 5044
  5044 [43908] (node (node leaf 5045 5045 [43909] leaf) 5046 5046 [43910] leaf)) 5047 5047 [43911]
  (node (node (node leaf 5048 5048 [43912] leaf) 5049 5049 [43913] leaf) 5050 5050 [43914] (node
  leaf 5051 5051 [43915] leaf))))
def lowerTable12 : Tbl (List Nat) :=
  node (node (node (node (node (node leaf 5053 5053 [43917] leaf) 5054 5054 [43918] leaf) 5055 5055
  [43919] (node (node leaf 5056 5056 [43920] leaf) 5057 5057 [43921] leaf)) 5058 5058 [43922] (node
  (node (node leaf 5059 5059 [43923] leaf) 5060 5060 [43924] leaf) 5061 5061 [43925] (node (node
  leaf 5062 5062 [43926] leaf) 5063 5063 [43927] leaf))) 5064 5064 [43928] (node (node (node (node
  leaf 5065 5065 [43929] leaf) 5066 5066 [43930] leaf) 5067 5067 [43931] (node (node leaf 5068 5068
  [43932] leaf) 5069 5069 [43933] leaf)) 5070 5070 [43934] (node (node (node leaf 5071 5071 [43935]
  leaf) 5072 5072 [43936] leaf) 5073 5073 [43937] (node leaf 5074 5074 [43938] leaf)))) 5075 5075
  [43939] (node (node (node (node (node leaf 5076 5076 [43940] leaf) 5077 5077 [43941] leaf) 5078
  5078 [43942] (node (node leaf 5079 5079 [43943] leaf) 5080 5080 [43944] leaf)) 5081 5081 [43945]
  (node (node (node leaf 5082 5082 [43946] leaf) 5083 5083 [43947] leaf) 5084 5084 [43948] (node
  leaf 5085 5085 [43949] leaf))) 5086 5086 [43950] (node (node (node (node leaf 5087 5087 [43951]
  leaf) 5088 5088 [43952] leaf) 5089 5089 [43953] (node (node leaf 5090 5090 [43954] leaf) 5091 5091
  [43955] leaf)) 5092 5092 [43956] (node (node (node leaf 5093 5093 [43957] leaf) 5094 5094 [43958]
  leaf) 5095 5095 [43959] (node leaf 5096 5096 [43960] leaf))))
def lowerTable13 : Tbl (List Nat) :=
  node (node (node (node (node (node leaf 5098 5098 [43962] leaf) 5099 5099 [43963] leaf) 5100 5100
  [43964] (node (node leaf 5101 5101 [43965] leaf) 5102 5102 [43966] leaf)) 5103 5103 [43967] (node
  (node (node leaf 5104 5104 [5112] leaf) 5105 5105 [5113] leaf) 5106 5106 [5114] (node (node leaf
  5107 5107 [5115] leaf) 5108 5108 [5116] leaf))) 5109 5109 [5117] (node (node (node (node leaf 7312
  7312 [4304] leaf) 7313 7313 [4305] leaf) 7314 7314 [4306] (node (node leaf 7315 7315 [4307] leaf)
  7316 7316 [4308] leaf)) 7317 7317 [4309] (node (node (node leaf 7318 7318 [4310] leaf) 7319 7319
  [4311] leaf) 7320 7320 [4312] (node leaf 7321 7321 [4313] leaf)))) 7322 7322 [4314] (node (node
  (node (node (node leaf 7323 7323 [4315] leaf) 7324 7324 [4316] leaf) 7325 7325 [4317] (node (node
  leaf 7326 7326 [4318] leaf) 7327 7327 [4319] leaf)) 7328 7328 [4320] (node (node (node leaf 7329
  7329 [4321] leaf) 7330 7330 [4322] leaf) 7331 7331 [4323] (node leaf 7332 7332 [4324] leaf))) 7333
  7333 [4325] (node (node (node (node leaf 7334 7334 [4326] leaf) 7335 7335 [4327] leaf) 7336 7336
  [4328] (node (node leaf 7337 7337 [4329] leaf) 7338 7338 [4330] leaf)) 7339 7339 [4331] (node
  (node (node leaf 7340 7340 [4332] leaf) 7341 7341 [4333] leaf) 7342 7342 [4334] (node leaf 7343
  7343 [4335] leaf))))
def lowerTable14 : Tbl (List Nat) :=
  node (node (node (node (node (node leaf 7345 7345 [4337] leaf) 7346 7346 [4338] leaf) 7347 7347
  [4339] (node (node leaf 7348 7348 [4340] leaf) 7349 7349 [4341] leaf)) 7350 7350 [4342] (node
  (node (node leaf 7351 7351 [4343] leaf) 7352 7352 [4344] leaf) 7353 7353 [4345] (node (node leaf
  7354 7354 [4346] leaf) 7357 7357 [4349] leaf))) 7358 7358 [4350] (node (node (node (node leaf 7359
  7359 [4351] leaf) 7680 7680 [7681] leaf) 7682 7682 [7683] (node (node leaf 7684 7684 [7685] leaf)
  7686 7686 [7687] leaf)) 7688 7688 [7689] (node (node (node leaf 7690 7690 [7691] leaf) 7692 7692
  [7693] leaf) 7694 7694 [7695] (node leaf 7696 7696 [7697] leaf)))) 7698 7698 [7699] (node (node
  (node (node (node leaf 7700 7700 [7701] leaf) 7702 7702 [7703] leaf) 7704 7704 [7705] (node (node
  leaf 7706 7706 [7707] leaf) 7708 7708 [7709] leaf)) 7710 7710 [7711] (node (node (node leaf 7712
  7712 [7713] leaf) 7714 7714 [7715] leaf) 7716 7716 [7717] (node leaf 7718 7718 [7719] leaf))) 7720
  7720 [7721] (node (node (node (node leaf 7722 7722 [7723] leaf) 7724 7724 [7725] leaf) 7726 7726
  [7727] (node (node leaf 7728 7728 [7729] leaf) 7730 7730 [7731] leaf)) 7732 7732 [7733] (node
  (node (node leaf 7734 7734 [7735] leaf) 7736 7736 [7737] leaf) 7738 7738 [7739] (node leaf 7740
  7740 [7741] leaf))))
def lowerTable15 : Tbl (List Nat) :=
  node (node (node (node (node (node leaf 7744 7744 [7745] leaf) 7746 7746 [7747] leaf) 7748 7748
  [7749] (node (node leaf 7750 7750 [7751] leaf) 7752 7752 [7753] leaf)) 7754 7754 [7755] (node
  (node (node leaf 7756 7756 [7757] leaf) 7758 7758 [7759] leaf) 7760 7760 [7761] (node leaf 7762
  7762 [7763] leaf))) 7764 7764 [7765] (node (node (node (node leaf 7766 7766 [7767] leaf) 7768 7768
  [7769] leaf) 7770 7770 [7771] (node (node leaf 7772 7772 [7773] leaf) 7774 7774 [7775] leaf)) 7776
  7776 [7777] (node (node (node leaf 7778 7778 [7779] leaf) 7780 7780 [7781] leaf) 7782 7782 [7783]
  (node leaf 7784 7784 [7785] leaf)))) 7786 7786 [7787] (node (node (node (node (node leaf 7788 7788
  [7789] leaf) 7790 7790 [7791] leaf) 7792 7792 [7793] (node (node leaf 7794 7794 [7795] leaf) 7796
  7796 [7797] leaf)) 7798 7798 [7799] (node (node (node leaf 7800 7800 [7801] leaf) 7802 7802 [7803]
  leaf) 7804 7804 [7805] (node leaf 7806 7806 [7807] leaf))) 7808 7808 [7809] (node (node (node
  (node leaf 7810 7810 [7811] leaf) 7812 7812 [7813] leaf) 7814 7814 [7815] (node (node leaf 7816
  7816 [7817] leaf) 7818 7818 [7819] leaf)) 7820 7820 [7821] (node (node (node leaf 7822 7822 [7823]
  leaf) 7824 7824 [7825] leaf) 7826 7826 [7827] (node leaf 7828 7828 [7829] leaf))))
def lowerTable16 : Tbl (List Nat) :=
  node (node (node (node (node (node leaf 7840 7840 [7841] leaf) 7842 7842 [7843] leaf) 7844 7844
  [7845] (node (node leaf 7846 7846 [7847] leaf) 7848 7848 [7849] leaf)) 7850 7850 [7851] (node
  (node (node leaf 7852 7852 [7853] leaf) 7854 7854 [7855] leaf) 7856 7856 [7857] (node (node leaf
  7858 7858 [7859] leaf) 7860 7860 [7861] leaf))) 7862 7862 [7863] (node (node (node (node leaf 7864
  7864 [7865] leaf) 7866 7866 [7867] leaf) 7868 7868 [7869] (node (node leaf 7870 7870 [7871] leaf)
  7872 7872 [7873] leaf)) 7874 7874 [7875] (node (node (node leaf 7876 7876 [7877] leaf) 7878 7878
  [7879] leaf) 7880 7880 [7881] (node leaf 7882 7882 [7883] leaf)))) 7884 7884 [7885] (node (node
  (node (node (node leaf 7886 7886 [7887] leaf) 7888 7888 [7889] leaf) 7890 7890 [7891] (node (node
  leaf 7892 7892 [7893] leaf) 7894 7894 [7895] leaf)) 7896 7896 [7897] (node (node (node leaf 7898
  7898 [7899] leaf) 7900 7900 [7901] leaf) 7902 7902 [7903] (node leaf 7904 7904 [7905] leaf))) 7906
  7906 [7907] (node (node (node (node leaf 7908 7908 [7909] leaf) 7910 7910 [7911] leaf) 7912 7912
  [7913] (node (node leaf 7914 7914 [7915] leaf) 7916 7916 [7917] leaf)) 7918 7918 [7919] (node
  (node (node leaf 7920 7920 [7921] leaf) 7922 7922 [7923] leaf) 7924 7924 [7925] (node leaf 7926
  7926 [7927] leaf))))
def lowerTable17 : Tbl (List Nat) :=
  node (node (node (node (node (node leaf 7930 7930 [7931] leaf) 7932 7932 [7933] leaf) 7934 7934
  [7935] (node (node leaf 7944 7944 [7936] leaf) 7945 7945 [7937] leaf)) 7946 7946 [7938] (node
  (node (node leaf 7947 7947 [7939] leaf) 7948 7948 [7940] leaf) 7949 7949 [7941] (node (node leaf
  7950 7950 [7942] leaf) 7951 7951 [7943] leaf))) 7960 7960 [7952] (node (node (node (node leaf 7961
  7961 [7953] leaf) 7962 7962 [7954] leaf) 7963 7963 [7955] (node (node leaf 7964 7964 [7956] leaf)
  7965 7965 [7957] leaf)) 7976 7976 [7968] (node (node (node leaf 7977 7977 [7969] leaf) 7978 7978
  [7970] leaf) 7979 7979 [7971] (node leaf 7980 7980 [7972] leaf)))) 7981 7981 [7973] (node (node
  (node (node (node leaf 7982 7982 [7974] leaf) 7983 7983 [7975] leaf) 7992 7992 [7984] (node (node
  leaf 7993 7993 [7985] leaf) 7994 7994 [7986] leaf)) 7995 7995 [7987] (node (node (node leaf 7996
  7996 [7988] leaf) 7997 7997 [7989] leaf) 7998 7998 [7990] (node leaf 7999 7999 [7991] leaf))) 8008
  8008 [8000] (node (node (node (node leaf 8009 8009 [8001] leaf) 8010 8010 [8002] leaf) 8011 8011
  [8003] (node (node leaf 8012 8012 [8004] leaf) 8013 8013 [8005] leaf)) 8025 8025 [8017] (node
  (node (node leaf 8027 8027 [8019] leaf) 8029 8029 [8021] leaf) 8031 8031 [8023] (node leaf 8040
  8040 [8032] leaf))))
def lowerTable18 : Tbl (List Nat) :=
  node (node (node (node (node (node leaf 8042 8042 [8034] leaf) 8043 8043 [8035] leaf) 8044 8044
  [8036] (node (node leaf 8045 8045 [8037] leaf) 8046 8046 [8038] leaf)) 8047 8047 [8039] (node
  (node (node leaf 8072 8072 [8064] leaf) 8073 8073 [8065] leaf) 8074 8074 [8066] (node (node leaf
  8075 8075 [8067] leaf) 8076 8076 [8068] leaf))) 8077 8077 [8069] (node (node (node (node leaf 8078
  8078 [8070] leaf) 8079 8079 [8071] leaf) 8088 8088 [8080] (node (node leaf 8089 8089 [8081] leaf)
  8090 8090 [8082] leaf)) 8091 8091 [8083] (node (node (node leaf 8092 8092 [8084] leaf) 8093 8093
  [8085] leaf) 8094 8094 [8086] (node leaf 8095 8095 [8087] leaf)))) 8104 8104 [8096] (node (node
  (node (node (node leaf 8105 8105 [8097] leaf) 8106 8106 [8098] leaf) 8107 8107 [8099] (node (node
  leaf 8108 8108 [8100] leaf) 8109 8109 [8101] leaf)) 8110 8110 [8102] (node (node (node leaf 8111
  8111 [8103] leaf) 8120 8120 [8112] leaf) 8121 8121 [8113] (node leaf 8122 8122 [8048] leaf))) 8123
  8123 [8049] (node (node (node (node leaf 8124 8124 [8115] leaf) 8136 8136 [8050] leaf) 8137 8137
  [8051] (node (node leaf 8138 8138 [8052] leaf) 8139 8139 [8053] leaf)) 8140 8140 [8131] (node
  (node (node leaf 8152 8152 [8144] leaf) 8153 8153 [8145] leaf) 8154 8154 [8054] (node leaf 8155
  8155 [8055] leaf))))
def lowerTable19 : Tbl (List Nat) :=
  node (node (node (node (node (node leaf 8169 8169 [8161] leaf) 8170 8170 [8058] leaf) 8171 8171
  [8059] (node (node leaf 8172 8172 [8165] leaf) 8184 8184 [8056] leaf)) 8185 8185 [8057] (node
  (node (node leaf 8186 8186 [8060] leaf) 8187 8187 [8061] leaf) 8188 8188 [8179] (node (node leaf
  8486 8486 [969] leaf) 8490 8490 [107] leaf))) 8491 8491 [229] (node (node (node (node leaf 8498
  8498 [8526] leaf) 8544 8544 [8560] leaf) 8545 8545 [8561] (node (node leaf 8546 8546 [8562] leaf)
  8547 8547 [8563] leaf)) 8548 8548 [8564] (node (node (node leaf 8549 8549 [8565] leaf) 8550 8550
  [8566] leaf) 8551 8551 [8567] (node leaf 8552 8552 [8568] leaf)))) 8553 8553 [8569] (node (node
  (node (node (node leaf 8554 8554 [8570] leaf) 8555 8555 [8571] leaf) 8556 8556 [8572] (node (node
  leaf 8557 8557 [8573] leaf) 8558 8558 [8574] leaf)) 8559 8559 [8575] (node (node (node leaf 8579
  8579 [8580] leaf) 9398 9398 [9424] leaf) 9399 9399 [9425] (node leaf 9400 9400 [9426] leaf))) 9401
  9401 [9427] (node (node (node (node leaf 9402 9402 [9428] leaf) 9403 9403 [9429] leaf) 9404 9404
  [9430] (node (node leaf 9405 9405 [9431] leaf) 9406 9406 [9432] leaf)) 9407 9407 [9433] (node
  (node (node leaf 9408 9408 [9434] leaf) 9409 9409 [9435] leaf) 9410 9410 [9436] (node leaf 9411
  9411 [9437] leaf))))
def lowerTable20 : Tbl (List Nat) :=
  node (node (node (node (node (node leaf 9413 9413 [9439] leaf) 9414 9414 [9440] leaf) 9415 9415
  [9441] (node (node leaf 9416 9416 [9442] leaf) 9417 9417 [9443] leaf)) 9418 9418 [9444] (node
  (node (node leaf 9419 9419 [9445] leaf) 9420 9420 [9446] leaf) 9421 9421 [9447] (node (node leaf
  9422 9422 [9448] leaf) 9423 9423 [9449] leaf))) 11264 11264 [11312] (node (node (node (node leaf
  11265 11265 [11313] leaf) 11266 11266 [11314] leaf) 11267 11267 [11315] (node (node leaf 11268
  11268 [11316] leaf) 11269 11269 [11317] leaf)) 11270 11270 [11318] (node (node (node leaf 11271
  11271 [11319] leaf) 11272 11272 [11320] leaf) 11273 11273 [11321] (node leaf 11274 11274 [11322]
  leaf)))) 11275 11275 [11323] (node (node (node (node (node leaf 11276 11276 [11324] leaf) 11277
  11277 [11325] leaf) 11278 11278 [11326] (node (node leaf 11279 11279 [11327] leaf) 11280 11280
  [11328] leaf)) 11281 11281 [11329] (node (node (node leaf 11282 11282 [11330] leaf) 11283 11283
  [11331] leaf) 11284 11284 [11332] (node leaf 11285 11285 [11333] leaf))) 11286 11286 [11334] (node
  (node (node (node leaf 11287 11287 [11335] leaf) 11288 11288 [11336] leaf) 11289 11289 [11337]
  (node (node leaf 11290 11290 [11338] leaf) 11291 11291 [11339] leaf)) 11292 11292 [11340] (node
  (node (node leaf 11293 11293 [11341] leaf) 11294 11294 [11342] leaf) 11295 11295 [11343] (node
  leaf 11296 11296 [11344] leaf))))
def lowerTable21 : Tbl (List Nat) :=
  node (node (node (node (node (node leaf 11298 11298 [11346] leaf) 11299 11299 [11347] leaf) 11300
  11300 [11348] (node (node leaf 11301 11301 [11349] leaf) 11302 11302 [11350] leaf)) 11303 11303
  [11351] (node (node (node leaf 11304 11304 [11352] leaf) 11305 11305 [11353] leaf) 11306 11306
  [11354] (node (node leaf 11307 11307 [11355] leaf) 11308 11308 [11356] leaf))) 11309 11309 [11357]
  (node (node (node (node leaf 11310 11310 [11358] leaf) 11311 11311 [11359] leaf) 11360 11360
  [11361] (node (node leaf 11362 11362 [619] leaf) 11363 11363 [7549] leaf)) 11364 11364 [637] (node
  (node (node leaf 11367 11367 [11368] leaf) 11369 11369 [11370] leaf) 11371 11371 [11372] (node
  leaf 11373 11373 [593] leaf)))) 11374 11374 [625] (node (node (node (node (node leaf 11375 11375
  [592] leaf) 11376 11376 [594] leaf) 11378 11378 [11379] (node (node leaf 11381 11381 [11382] leaf)
  11390 11390 [575] leaf)) 11391 11391 [576] (node (node (node leaf 11392 11392 [11393] leaf) 11394
  11394 [11395] leaf) 11396 11396 [11397] (node leaf 11398 11398 [11399] leaf))) 11400 11400 [11401]
  (node (node (node (node leaf 11402 11402 [11403] leaf) 11404 11404 [11405] leaf) 11406 11406
  [11407] (node (node leaf 11408 11408 [11409] leaf) 11410 11410 [11411] leaf)) 11412 11412 [11413]
  (node (node (node leaf 11414 11414 [11415] leaf) 11416 11416 [11417] leaf) 11418 11418 [11419]
  (node leaf 11420 11420 [11421] leaf))))
def lowerTable22 : Tbl (List Nat) :=
  node (node (node (node (node (node leaf 11424 11424 [11425] leaf) 11426 11426 [11427] leaf) 11428
  11428 [11429] (node (node leaf 11430 11430 [11431] leaf) 11432 11432 [11433] leaf)) 11434 11434
  [11435] (node (node (node leaf 11436 11436 [11437] leaf) 11438 11438 [11439] leaf) 11440 11440
  [11441] (node (node leaf 11442 11442 [11443] leaf) 11444 11444 [11445] leaf))) 11446 11446 [11447]
  (node (node (node (node leaf 11448 11448 [11449] leaf) 11450 11450 [11451] leaf) 11452 11452
  [11453] (node (node leaf 11454 11454 [11455] leaf) 11456 11456 [11457] leaf)) 11458 11458 [11459]
  (node (node (node leaf 11460 11460 [11461] leaf) 11462 11462 [11463] leaf) 11464 11464 [11465]
  (node leaf 11466 11466 [11467] leaf)))) 11468 11468 [11469] (node (node (node (node (node leaf
  11470 11470 [11471] leaf) 11472 11472 [11473] leaf) 11474 11474 [11475] (node (node leaf 11476
  11476 [11477] leaf) 11478 11478 [11479] leaf)) 11480 11480 [11481] (node (node (node leaf 11482
  11482 [11483] leaf) 11484 11484 [11485] leaf) 11486 11486 [11487] (node leaf 11488 11488 [11489]
  leaf))) 11490 11490 [11491] (node (node (node (node leaf 11499 11499 [11500] leaf) 11501 11501
  [11502] leaf) 11506 11506 [11507] (node (node leaf 42560 42560 [42561] leaf) 42562 42562 [42563]
  leaf)) 42564 42564 [42565] (node (node (node leaf 42566 42566 [42567] leaf) 42568 42568 [42569]
  leaf) 42570 42570 [42571] (node leaf 42572 42572 [42573] leaf))))
def lowerTable23 : Tbl (List Nat) :=
  node (node (node (node (node (node leaf 42576 42576 [42577] leaf) 42578 42578 [42579] leaf) 42580
  42580 [42581] (node (node leaf 42582 42582 [42583] leaf) 42584 42584 [42585] leaf)) 42586 42586
  [42587] (node (node (node leaf 42588 42588 [42589] leaf) 42590 42590 [42591] leaf) 42592 42592
  [42593] (node leaf 42594 42594 [42595] leaf))) 42596 42596 [42597] (node (node (node (node leaf
  42598 42598 [42599] leaf) 42600 42600 [42601] leaf) 42602 42602 [42603] (node (node leaf 42604
  42604 [42605] leaf) 42624 42624 [42625] leaf)) 42626 42626 [42627] (node (node (node leaf 42628
  42628 [42629] leaf) 42630 42630 [42631] leaf) 42632 42632 [42633] (node leaf 42634 42634 [42635]
  leaf)))) 42636 42636 [42637] (node (node (node (node (node leaf 42638 42638 [42639] leaf) 42640
  42640 [42641] leaf) 42642 42642 [42643] (node (node leaf 42644 42644 [42645] leaf) 42646 42646
  [42647] leaf)) 42648 42648 [42649] (node (node (node leaf 42650 42650 [42651] leaf) 42786 42786
  [42787] leaf) 42788 42788 [42789] (node leaf 42790 42790 [42791] leaf))) 42792 42792 [42793] (node
  (node (node (node leaf 42794 42794 [42795] leaf) 42796 42796 [42797] leaf) 42798 42798 [42799]
  (node (node leaf 42802 42802 [42803] leaf) 42804 42804 [42805] leaf)) 42806 42806 [42807] (node
  (node (node leaf 42808 42808 [42809] leaf) 42810 42810 [42811] leaf) 42812 42812 [42813] (node
  leaf 42814 42814 [42815] leaf))))
def lowerTable24 : Tbl (List Nat) :=
  node (node (node (node (node (node leaf 42818 42818 [42819] leaf) 42820 42820 [42821] leaf) 42822
  42822 [42823] (node (node leaf 42824 42824 [42825] leaf) 42826 42826 [42827] leaf)) 42828 42828
  [42829] (node (node (node leaf 42830 42830 [42831] leaf) 42832 42832 [42833] leaf) 42834 42834
  [42835] (node (node leaf 42836 42836 [42837] leaf) 42838 42838 [42839] leaf))) 42840 42840 [42841]
  (node (node (node (node leaf 42842 42842 [42843] leaf) 42844 42844 [42845] leaf) 42846 42846
  [42847] (node (node leaf 42848 42848 [42849] leaf) 42850 42850 [42851] leaf)) 42852 42852 [42853]
  (node (node (node leaf 42854 42854 [42855] leaf) 42856 42856 [42857] leaf) 42858 42858 [42859]
  (node leaf 42860 42860 [42861] leaf)))) 42862 42862 [42863] (node (node (node (node (node leaf
  42873 42873 [42874] leaf) 42875 42875 [42876] leaf) 42877 42877 [7545] (node (node leaf 42878
  42878 [42879] leaf) 42880 42880 [42881] leaf)) 42882 42882 [42883] (node (node (node leaf 42884
  42884 [42885] leaf) 42886 42886 [42887] leaf) 42891 42891 [42892] (node leaf 42893 42893 [613]
  leaf))) 42896 42896 [42897] (node (node (node (node leaf 42898 42898 [42899] leaf) 42902 42902
  [42903] leaf) 42904 42904 [42905] (node (node leaf 42906 42906 [42907] leaf) 42908 42908 [42909]
  leaf)) 42910 42910 [42911] (node (node (node leaf 42912 42912 [42913] leaf) 42914 42914 [42915]
  leaf) 42916 42916 [42917] (node leaf 42918 42918 [42919] leaf))))
def lowerTable25 : Tbl (List Nat) :=
  node (node (node (node (node (node leaf 42922 42922 [614] leaf) 42923 42923 [604] leaf) 42924 42924
  [609] (node (node leaf 42925 42925 [620] leaf) 42926 42926 [618] leaf)) 42928 42928 [670] (node
  (node (node leaf 42929 42929 [647] leaf) 42930 42930 [669] leaf) 42931 42931 [43859] (node (node
  leaf 42932 42932 [42933] leaf) 42934 42934 [42935] leaf))) 42936 42936 [42937] (node (node (node
  (node leaf 42938 42938 [42939] leaf) 42940 42940 [42941] leaf) 42942 42942 [42943] (node (node
  leaf 42944 42944 [42945] leaf) 42946 42946 [42947] leaf)) 42948 42948 [42900] (node (node (node
  leaf 42949 42949 [642] leaf) 42950 42950 [7566] leaf) 42951 42951 [42952] (node leaf 42953 42953
  [42954] leaf)))) 42960 42960 [42961] (node (node (node (node (node leaf 42966 42966 [42967] leaf)
  42968 42968 [42969] leaf) 42997 42997 [42998] (node (node leaf 65313 65313 [65345] leaf) 65314
  65314 [65346] leaf)) 65315 65315 [65347] (node (node (node leaf 65316 65316 [65348] leaf) 65317
  65317 [65349] leaf) 65318 65318 [65350] (node leaf 65319 65319 [65351] leaf))) 65320 65320 [65352]
  (node (node (node (node leaf 65321 65321 [65353] leaf) 65322 65322 [65354] leaf) 65323 65323
  [65355] (node (node leaf 65324 65324 [65356] leaf) 65325 65325 [65357] leaf)) 65326 65326 [65358]
  (node (node (node leaf 65327 65327 [65359] leaf) 65328 65328 [65360] leaf) 65329 65329 [65361]
  (node leaf 65330 65330 [65362] leaf))))
def lowerTable26 : Tbl (List Nat) :=
  node (node (node (node (node (node leaf 65332 65332 [65364] leaf) 65333 65333 [65365] leaf) 65334
  65334 [65366] (node (node leaf 65335 65335 [65367] leaf) 65336 65336 [65368] leaf)) 65337 65337
  [65369] (node (node (node leaf 65338 65338 [65370] leaf) 66560 66560 [66600] leaf) 66561 66561
  [66601] (node (node leaf 66562 66562 [66602] leaf) 66563 66563 [66603] leaf))) 66564 66564 [66604]
  (node (node (node (node leaf 66565 66565 [66605] leaf) 66566 66566 [66606] leaf) 66567 66567
  [66607] (node (node leaf 66568 66568 [66608] leaf) 66569 66569 [66609] leaf)) 66570 66570 [66610]
  (node (node (node leaf 66571 66571 [66611] leaf) 66572 66572 [66612] leaf) 66573 66573 [66613]
  (node leaf 66574 66574 [66614] leaf)))) 66575 66575 [66615] (node (node (node (node (node leaf
  66576 66576 [66616] leaf) 66577 66577 [66617] leaf) 66578 66578 [66618] (node (node leaf 66579
  66579 [66619] leaf) 66580 66580 [66620] leaf)) 66581 66581 [66621] (node (node (node leaf 66582
  66582 [66622] leaf) 66583 66583 [66623] leaf) 66584 66584 [66624] (node leaf 66585 66585 [66625]
  leaf))) 66586 66586 [66626] (node (node (node (node leaf 66587 66587 [66627] leaf) 66588 66588
  [66628] leaf) 66589 66589 [66629] (node (node leaf 66590 66590 [66630] leaf) 66591 66591 [66631]
  leaf)) 66592 66592 [66632] (node (node (node leaf 66593 66593 [66633] leaf) 66594 66594 [66634]
  leaf) 66595 66595 [66635] (node leaf 66596 66596 [66636] leaf))))
def lowerTable27 : Tbl (List Nat) :=
  node (node (node (node (node (node leaf 66598 66598 [66638] leaf) 66599 66599 [66639] leaf) 66736
  66736 [66776] (node (node leaf 66737 66737 [66777] leaf) 66738 66738 [66778] leaf)) 66739 66739
  [66779] (node (node (node leaf 66740 66740 [66780] leaf) 66741 66741 [66781] leaf) 66742 66742
  [66782] (node leaf 66743 66743 [66783] leaf))) 66744 66744 [66784] (node (node (node (node leaf
  66745 66745 [66785] leaf) 66746 66746 [66786] leaf) 66747 66747 [66787] (node (node leaf 66748
  66748 [66788] leaf) 66749 66749 [66789] leaf)) 66750 66750 [66790] (node (node (node leaf 66751
  66751 [66791] leaf) 66752 66752 [66792] leaf) 66753 66753 [66793] (node leaf 66754 66754 [66794]
  leaf)))) 66755 66755 [66795] (node (node (node (node (node leaf 66756 66756 [66796] leaf) 66757
  66757 [66797] leaf) 66758 66758 [66798] (node (node leaf 66759 66759 [66799] leaf) 66760 66760
  [66800] leaf)) 66761 66761 [66801] (node (node (node leaf 66762 66762 [66802] leaf) 66763 66763
  [66803] leaf) 66764 66764 [66804] (node leaf 66765 66765 [66805] leaf))) 66766 66766 [66806] (node
  (node (node (node leaf 66767 66767 [66807] leaf) 66768 66768 [66808] leaf) 66769 66769 [66809]
  (node (node leaf 66770 66770 [66810] leaf) 66771 66771 [66811] leaf)) 66928 66928 [66967] (node
  (node (node leaf 66929 66929 [66968] leaf) 66930 66930 [66969] leaf) 66931 66931 [66970] (node
  leaf 66932 66932 [66971] leaf))))
def lowerTable28 : Tbl (List Nat) :=
  node (node (node (node (node (node leaf 66934 66934 [66973] leaf) 66935 66935 [66974] leaf) 66936
  66936 [66975] (node (node leaf 66937 66937 [66976] leaf) 66938 66938 [66977] leaf)) 66940 66940
  [66979] (node (node (node leaf 66941 66941 [66980] leaf) 66942 66942 [66981] leaf) 66943 66943
  [66982] (node (node leaf 66944 66944 [66983] leaf) 66945 66945 [66984] leaf))) 66946 66946 [66985]
  (node (node (node (node leaf 66947 66947 [66986] leaf) 66948 66948 [66987] leaf) 66949 66949
  [66988] (node (node leaf 66950 66950 [66989] leaf) 66951 66951 [66990] leaf)) 66952 66952 [66991]
  (node (node (node leaf 66953 66953 [66992] leaf) 66954 66954 [66993] leaf) 66956 66956 [66995]
  (node leaf 66957 66957 [66996] leaf)))) 66958 66958 [66997] (node (node (node (node (node leaf
  66959 66959 [66998] leaf) 66960 66960 [66999] leaf) 66961 66961 [67000] (node (node leaf 66962
  66962 [67001] leaf) 66964 66964 [67003] leaf)) 66965 66965 [67004] (node (node (node leaf 68736
  68736 [68800] leaf) 68737 68737 [68801] leaf) 68738 68738 [68802] (node leaf 68739 68739 [68803]
  leaf))) 68740 68740 [68804] (node (node (node (node leaf 68741 68741 [68805] leaf) 68742 68742
  [68806] leaf) 68743 68743 [68807] (node (node leaf 68744 68744 [68808] leaf) 68745 68745 [68809]
  leaf)) 68746 68746 [68810] (node (node (node leaf 68747 68747 [68811] leaf) 68748 68748 [68812]
  leaf) 68749 68749 [68813] (node leaf 68750 68750 [68814] leaf))))
def lowerTable29 : Tbl (List Nat) :=
  node (node (node (node (node (node leaf 68752 68752 [68816] leaf) 68753 68753 [68817] leaf) 68754
  68754 [68818] (node (node leaf 68755 68755 [68819] leaf) 68756 68756 [68820] leaf)) 68757 68757
  [68821] (node (node (node leaf 68758 68758 [68822] leaf) 68759 68759 [68823] leaf) 68760 68760
  [68824] (node (node leaf 68761 68761 [68825] leaf) 68762 68762 [68826] leaf))) 68763 68763 [68827]
  (node (node (node (node leaf 68764 68764 [68828] leaf) 68765 68765 [68829] leaf) 68766 68766
  [68830] (node (node leaf 68767 68767 [68831] leaf) 68768 68768 [68832] leaf)) 68769 68769 [68833]
  (node (node (node leaf 68770 68770 [68834] leaf) 68771 68771 [68835] leaf) 68772 68772 [68836]
  (node leaf 68773 68773 [68837] leaf)))) 68774 68774 [68838] (node (node (node (node (node leaf
  68775 68775 [68839] leaf) 68776 68776 [68840] leaf) 68777 68777 [68841] (node (node leaf 68778
  68778 [68842] leaf) 68779 68779 [68843] leaf)) 68780 68780 [68844] (node (node (node leaf 68781
  68781 [68845] leaf) 68782 68782 [68846] leaf) 68783 68783 [68847] (node leaf 68784 68784 [68848]
  leaf))) 68785 68785 [68849] (node (node (node (node leaf 68786 68786 [68850] leaf) 71840 71840
  [71872] leaf) 71841 71841 [71873] (node (node leaf 71842 71842 [71874] leaf) 71843 71843 [71875]
  leaf)) 71844 71844 [71876] (node (node (node leaf 71845 71845 [71877] leaf) 71846 71846 [71878]
  leaf) 71847 71847 [71879] (node leaf 71848 71848 [71880] leaf))))
def lowerTable30 : Tbl (List Nat) :=
  node (node (node (node (node (node leaf 71850 71850 [71882] leaf) 71851 71851 [71883] leaf) 71852
  71852 [71884] (node (node leaf 71853 71853 [71885] leaf) 71854 71854 [71886] leaf)) 71855 71855
  [71887] (node (node (node leaf 71856 71856 [71888] leaf) 71857 71857 [71889] leaf) 71858 71858
  [71890] (node (node leaf 71859 71859 [71891] leaf) 71860 71860 [71892] leaf))) 71861 71861 [71893]
  (node (node (node (node leaf 71862 71862 [71894] leaf) 71863 71863 [71895] leaf) 71864 71864
  [71896] (node (node leaf 71865 71865 [71897] leaf) 71866 71866 [71898] leaf)) 71867 71867 [71899]
  (node (node (node leaf 71868 71868 [71900] leaf) 71869 71869 [71901] leaf) 71870 71870 [71902]
  (node leaf 71871 71871 [71903] leaf)))) 93760 93760 [93792] (node (node (node (node (node leaf
  93761 93761 [93793] leaf) 93762 93762 [93794] leaf) 93763 93763 [93795] (node (node leaf 93764
  93764 [93796] leaf) 93765 93765 [93797] leaf)) 93766 93766 [93798] (node (node (node leaf 93767
  93767 [93799] leaf) 93768 93768 [93800] leaf) 93769 93769 [93801] (node leaf 93770 93770 [93802]
  leaf))) 93771 93771 [93803] (node (node (node (node leaf 93772 93772 [93804] leaf) 93773 93773
  [93805] leaf) 93774 93774 [93806] (node (node leaf 93775 93775 [93807] leaf) 93776 93776 [93808]
  leaf)) 93777 93777 [93809] (node (node (node leaf 93778 93778 [93810] leaf) 93779 93779 [93811]
  leaf) 93780 93780 [93812] (node leaf 93781 93781 [93813] leaf))))
def lowerTable31 : Tbl (List Nat) :=
  node (node (node (node (node (node leaf 93783 93783 [93815] leaf) 93784 93784 [93816] leaf) 93785
  93785 [93817] (node (node leaf 93786 93786 [93818] leaf) 93787 93787 [93819] leaf)) 93788 93788
  [93820] (node (node (node leaf 93789 93789 [93821] leaf) 93790 93790 [93822] leaf) 93791 93791
  [93823] (node leaf 125184 125184 [125218] leaf))) 125185 125185 [125219] (node (node (node (node
  leaf 125186 125186 [125220] leaf) 125187 125187 [125221] leaf) 125188 125188 [125222] (node (node
  leaf 125189 125189 [125223] leaf) 125190 125190 [125224] leaf)) 125191 125191 [125225] (node (node
  (node leaf 125192 125192 [125226] leaf) 125193 125193 [125227] leaf) 125194 125194 [125228] (node
  leaf 125195 125195 [125229] leaf)))) 125196 125196 [125230] (node (node (node (node (node leaf
  125197 125197 [125231] leaf) 125198 125198 [125232] leaf) 125199 125199 [125233] (node (node leaf
  125200 125200 [125234] leaf) 125201 125201 [125235] leaf)) 125202 125202 [125236] (node (node
  (node leaf 125203 125203 [125237] leaf) 125204 125204 [125238] leaf) 125205 125205 [125239] (node
  leaf 125206 125206 [125240] leaf))) 125207 125207 [125241] (node (node (node (node leaf 125208
  125208 [125242] leaf) 125209 125209 [125243] leaf) 125210 125210 [125244] (node (node leaf 125211
  125211 [125245] leaf) 125212 125212 [125246] leaf)) 125213 125213 [125247] (node (node (node leaf
  125214 125214 [125248] leaf) 125215 125215 [125249] leaf) 125216 125216 [125250] (node leaf 125217
  125217 [125251] leaf))))
/-- Lowercase mappings of Unicode 14.0: the simple mapping of UnicodeData.txt (field 13), replaced
by the unconditional full mapping of SpecialCasing.txt where there is one (U+0130). -/
def lowerTable : Tbl (List Nat) :=
  (node (node (node (node (node lowerTable0 210 210 [242] lowerTable1) 323 323 [324] (node lowerTable2
  407 407 [616] lowerTable3)) 498 498 [499] (node (node lowerTable4 588 588 [589] lowerTable5) 994
  994 [995] (node lowerTable6 1055 1055 [1087] lowerTable7))) 1182 1182 [1183] (node (node (node
  lowerTable8 1272 1272 [1273] lowerTable9) 1346 1346 [1394] (node lowerTable10 4280 4280 [11544]
  lowerTable11)) 5052 5052 [43916] (node (node lowerTable12 5097 5097 [43961] lowerTable13) 7344
  7344 [4336] (node lowerTable14 7742 7742 [7743] lowerTable15)))) 7838 7838 [223] (node (node (node
  (node lowerTable16 7928 7928 [7929] lowerTable17) 8041 8041 [8033] (node lowerTable18 8168 8168
  [8160] lowerTable19)) 9412 9412 [9438] (node (node lowerTable20 11297 11297 [11345] lowerTable21)
  11422 11422 [11423] (node lowerTable22 42574 42574 [42575] lowerTable23))) 42816 42816 [42817]
  (node (node (node lowerTable24 42920 42920 [42921] lowerTable25) 65331 65331 [65363] (node
  lowerTable26 66597 66597 [66637] lowerTable27)) 66933 66933 [66972] (node (node lowerTable28 68751
  68751 [68815] lowerTable29) 71849 71849 [71881] (node lowerTable30 93782 93782 [93814]
  lowerTable31)))))

def casedTable0 : Tbl Unit :=
  node (node (node (node (node (node leaf 65 90 () leaf) 97 122 () leaf) 170 170 () (node leaf 181 181
  () leaf)) 186 186 () (node (node (node leaf 192 214 () leaf) 216 246 () leaf) 248 442 () (node
  leaf 444 447 () leaf))) 452 659 () (node (node (node (node leaf 661 696 () leaf) 704 705 () leaf)
  736 740 () (node leaf 837 837 () leaf)) 880 883 () (node (node (node leaf 886 887 () leaf) 890 893
  () leaf) 895 895 () (node leaf 902 902 () leaf)))) 904 906 () (node (node (node (node (node leaf
  908 908 () leaf) 910 929 () leaf) 931 1013 () (node leaf 1015 1153 () leaf)) 1162 1327 () (node
  (node (node leaf 1329 1366 () leaf) 1376 1416 () leaf) 4256 4293 () (node leaf 4295 4295 ()
  leaf))) 4301 4301 () (node (node (node (node leaf 4304 4346 () leaf) 4349 4351 () leaf) 5024 5109
  () (node leaf 5112 5117 () leaf)) 7296 7304 () (node (node leaf 7312 7354 () leaf) 7357 7359 ()
  (node leaf 7424 7615 () leaf))))
def casedTable1 : Tbl Unit :=
  node (node (node (node (node (node leaf 7960 7965 () leaf) 7968 8005 () leaf) 8008 8013 () (node
  leaf 8016 8023 () leaf)) 8025 8025 () (node (node (node leaf 8027 8027 () leaf) 8029 8029 () leaf)
  8031 8061 () (node leaf 8064 8116 () leaf))) 8118 8124 () (node (node (node (node leaf 8126 8126
  () leaf) 8130 8132 () leaf) 8134 8140 () (node leaf 8144 8147 () leaf)) 8150 8155 () (node (node
  (node leaf 8160 8172 () leaf) 8178 8180 () leaf) 8182 8188 () (node leaf 8305 8305 () leaf))))
  8319 8319 () (node (node (node (node (node leaf 8336 8348 () leaf) 8450 8450 () leaf) 8455 8455 ()
  (node leaf 8458 8467 () leaf)) 8469 8469 () (node (node (node leaf 8473 8477 () leaf) 8484 8484 ()
  leaf) 8486 8486 () (node leaf 8488 8488 () leaf))) 8490 8493 () (node (node (node (node leaf 8495
  8500 () leaf) 8505 8505 () leaf) 8508 8511 () (node leaf 8517 8521 () leaf)) 8526 8526 () (node
  (node leaf 8544 8575 () leaf) 8579 8580 () (node leaf 9398 9449 () leaf))))
def casedTable2 : Tbl Unit :=
  node (node (node (node (node (node leaf 11499 11502 () leaf) 11506 11507 () leaf) 11520 11557 ()
  (node leaf 11559 11559 () leaf)) 11565 11565 () (node (node (node leaf 42560 42605 () leaf) 42624
  42653 () leaf) 42786 42887 () (node leaf 42891 42894 () leaf))) 42896 42954 () (node (node (node
  (node leaf 42960 42961 () leaf) 42963 42963 () leaf) 42965 42969 () (node leaf 42997 42998 ()
  leaf)) 43000 43002 () (node (node (node leaf 43824 43866 () leaf) 43868 43880 () leaf) 43888 43967
  () (node leaf 64256 64262 () leaf)))) 64275 64279 () (node (node (node (node (node leaf 65313
  65338 () leaf) 65345 65370 () leaf) 66560 66639 () (node leaf 66736 66771 () leaf)) 66776 66811 ()
  (node (node (node leaf 66928 66938 () leaf) 66940 66954 () leaf) 66956 66962 () (node leaf 66964
  66965 () leaf))) 66967 66977 () (node (node (node (node leaf 66979 66993 () leaf) 66995 67001 ()
  leaf) 67003 67004 () (node leaf 67456 67456 () leaf)) 67459 67461 () (node (node leaf 67463 67504
  () leaf) 67506 67514 () (node leaf 68736 68786 () leaf))))
def casedTable3 : Tbl Unit :=
  node (node (node (node (node (node leaf 71840 71903 () leaf) 93760 93823 () leaf) 119808 119892 ()
  (node leaf 119894 119964 () leaf)) 119966 119967 () (node (node (node leaf 119970 119970 () leaf)
  119973 119974 () leaf) 119977 119980 () (node leaf 119982 119993 () leaf))) 119995 119995 () (node
  (node (node (node leaf 119997 120003 () leaf) 120005 120069 () leaf) 120071 120074 () (node leaf
  120077 120084 () leaf)) 120086 120092 () (node (node (node leaf 120094 120121 () leaf) 120123
  120126 () leaf) 120128 120132 () (node leaf 120134 120134 () leaf)))) 120138 120144 () (node (node
  (node (node (node leaf 120146 120485 () leaf) 120488 120512 () leaf) 120514 120538 () (node leaf
  120540 120570 () leaf)) 120572 120596 () (node (node (node leaf 120598 120628 () leaf) 120630
  120654 () leaf) 120656 120686 () (node leaf 120688 120712 () leaf))) 120714 120744 () (node (node
  (node (node leaf 120746 120770 () leaf) 120772 120779 () leaf) 122624 122633 () (node leaf 122635
  122654 () leaf)) 125184 125251 () (node (node leaf 127280 127305 () leaf) 127312 127337 () (node
  leaf 127344 127369 () leaf))))
/-- Code points with the Cased property of Unicode 14.0 (DerivedCoreProperties.txt), as ranges. -/
def casedTable : Tbl Unit :=
  (node (node casedTable0 7680 7957 () casedTable1) 11264 11492 () (node casedTable2 68800 68850 ()
  casedTable3))

def caseIgnorableTable0 : Tbl Unit :=
  node (node (node (node (node (node leaf 39 39 () leaf) 46 46 () (node leaf 58 58 () leaf)) 94 94 ()
  (node (node leaf 96 96 () leaf) 168 168 () leaf)) 173 173 () (node (node (node leaf 175 175 ()
  leaf) 180 180 () (node leaf 183 184 () leaf)) 688 879 () (node (node leaf 884 885 () leaf) 890 890
  () leaf))) 900 901 () (node (node (node (node leaf 903 903 () leaf) 1155 1161 () (node leaf 1369
  1369 () leaf)) 1375 1375 () (node (node leaf 1425 1469 () leaf) 1471 1471 () leaf)) 1473 1474 ()
  (node (node (node leaf 1476 1477 () leaf) 1479 1479 () leaf) 1524 1524 () (node (node leaf 1536
  1541 () leaf) 1552 1562 () leaf)))) 1564 1564 () (node (node (node (node (node leaf 1600 1600 ()
  leaf) 1611 1631 () (node leaf 1648 1648 () leaf)) 1750 1757 () (node (node leaf 1759 1768 () leaf)
  1770 1773 () leaf)) 1807 1807 () (node (node (node leaf 1809 1809 () leaf) 1840 1866 () (node leaf
  1958 1968 () leaf)) 2027 2037 () (node (node leaf 2042 2042 () leaf) 2045 2045 () leaf))) 2070
  2093 () (node (node (node (node leaf 2137 2139 () leaf) 2184 2184 () (node leaf 2192 2193 ()
  leaf)) 2200 2207 () (node (node leaf 2249 2306 () leaf) 2362 2362 () leaf)) 2364 2364 () (node
  (node (node leaf 2369 2376 () leaf) 2381 2381 () leaf) 2385 2391 () (node (node leaf 2402 2403 ()
  leaf) 2417 2417 () leaf))))
def caseIgnorableTable1 : Tbl Unit :=
  node (node (node (node (node (node leaf 2492 2492 () leaf) 2497 2500 () (node leaf 2509 2509 ()
  leaf)) 2530 2531 () (node (node leaf 2558 2558 () leaf) 2561 2562 () leaf)) 2620 2620 () (node
  (node (node leaf 2625 2626 () leaf) 2631 2632 () (node leaf 2635 2637 () leaf)) 2641 2641 () (node
  (node leaf 2672 2673 () leaf) 2677 2677 () leaf))) 2689 2690 () (node (node (node (node leaf 2748
  2748 () leaf) 2753 2757 () (node leaf 2759 2760 () leaf)) 2765 2765 () (node (node leaf 2786 2787
  () leaf) 2810 2815 () leaf)) 2817 2817 () (node (node (node leaf 2876 2876 () leaf) 2879 2879 ()
  leaf) 2881 2884 () (node (node leaf 2893 2893 () leaf) 2901 2902 () leaf)))) 2914 2915 () (node
  (node (node (node (node leaf 2946 2946 () leaf) 3008 3008 () (node leaf 3021 3021 () leaf)) 3072
  3072 () (node (node leaf 3076 3076 () leaf) 3132 3132 () leaf)) 3134 3136 () (node (node (node
  leaf 3142 3144 () leaf) 3146 3149 () leaf) 3157 3158 () (node (node leaf 3170 3171 () leaf) 3201
  3201 () leaf))) 3260 3260 () (node (node (node (node leaf 3263 3263 () leaf) 3270 3270 () (node
  leaf 3276 3277 () leaf)) 3298 3299 () (node (node leaf 3328 3329 () leaf) 3387 3388 () leaf)) 3393
  3396 () (node (node (node leaf 3405 3405 () leaf) 3426 3427 () leaf) 3457 3457 () (node (node leaf
  3530 3530 () leaf) 3538 3540 () leaf))))
def caseIgnorableTable2 : Tbl Unit :=
  node (node (node (node (node (node leaf 3633 3633 () leaf) 3636 3642 () (node leaf 3654 3662 ()
  leaf)) 3761 3761 () (node (node leaf 3764 3772 () leaf) 3782 3782 () leaf)) 3784 3789 () (node
  (node (node leaf 3864 3865 () leaf) 3893 3893 () (node leaf 3895 3895 () leaf)) 3897 3897 () (node
  (node leaf 3953 3966 () leaf) 3968 3972 () leaf))) 3974 3975 () (node (node (node (node leaf 3981
  3991 () leaf) 3993 4028 () (node leaf 4038 4038 () leaf)) 4141 4144 () (node (node leaf 4146 4151
  () leaf) 4153 4154 () leaf)) 4157 4158 () (node (node (node leaf 4184 4185 () leaf) 4190 4192 ()
  leaf) 4209 4212 () (node (node leaf 4226 4226 () leaf) 4229 4230 () leaf)))) 4237 4237 () (node
  (node (node (node (node leaf 4253 4253 () leaf) 4348 4348 () (node leaf 4957 4959 () leaf)) 5906
  5908 () (node (node leaf 5938 5939 () leaf) 5970 5971 () leaf)) 6002 6003 () (node (node (node
  leaf 6068 6069 () leaf) 6071 6077 () (node leaf 6086 6086 () leaf)) 6089 6099 () (node (node leaf
  6103 6103 () leaf) 6109 6109 () leaf))) 6155 6159 () (node (node (node (node leaf 6211 6211 ()
  leaf) 6277 6278 () (node leaf 6313 6313 () leaf)) 6432 6434 () (node (node leaf 6439 6440 () leaf)
  6450 6450 () leaf)) 6457 6459 () (node (node (node leaf 6679 6680 () leaf) 6683 6683 () leaf) 6742
  6742 () (node (node leaf 6744 6750 () leaf) 6752 6752 () leaf))))
def caseIgnorableTable3 : Tbl Unit :=
  node (node (node (node (node (node leaf 6757 6764 () leaf) 6771 6780 () (node leaf 6783 6783 ()
  leaf)) 6823 6823 () (node (node leaf 6832 6862 () leaf) 6912 6915 () leaf)) 6964 6964 () (node
  (node (node leaf 6966 6970 () leaf) 6972 6972 () (node leaf 6978 6978 () leaf)) 7019 7027 () (node
  (node leaf 7040 7041 () leaf) 7074 7077 () leaf))) 7080 7081 () (node (node (node (node leaf 7083
  7085 () leaf) 7142 7142 () (node leaf 7144 7145 () leaf)) 7149 7149 () (node (node leaf 7151 7153
  () leaf) 7212 7219 () leaf)) 7222 7223 () (node (node (node leaf 7288 7293 () leaf) 7376 7378 ()
  leaf) 7380 7392 () (node (node leaf 7394 7400 () leaf) 7405 7405 () leaf)))) 7412 7412 () (node
  (node (node (node (node leaf 7416 7417 () leaf) 7468 7530 () (node leaf 7544 7544 () leaf)) 7579
  7679 () (node (node leaf 8125 8125 () leaf) 8127 8129 () leaf)) 8141 8143 () (node (node (node
  leaf 8157 8159 () leaf) 8173 8175 () leaf) 8189 8190 () (node (node leaf 8203 8207 () leaf) 8216
  8217 () leaf))) 8228 8228 () (node (node (node (node leaf 8231 8231 () leaf) 8234 8238 () (node
  leaf 8288 8292 () leaf)) 8294 8303 () (node (node leaf 8305 8305 () leaf) 8319 8319 () leaf)) 8336
  8348 () (node (node (node leaf 8400 8432 () leaf) 11388 11389 () leaf) 11503 11505 () (node (node
  leaf 11631 11631 () leaf) 11647 11647 () leaf))))
def caseIgnorableTable4 : Tbl Unit :=
  node (node (node (node (node (node leaf 11823 11823 () leaf) 12293 12293 () (node leaf 12330 12333
  () leaf)) 12337 12341 () (node (node leaf 12347 12347 () leaf) 12441 12446 () leaf)) 12540 12542
  () (node (node (node leaf 40981 40981 () leaf) 42232 42237 () (node leaf 42508 42508 () leaf))
  42607 42610 () (node (node leaf 42612 42621 () leaf) 42623 42623 () leaf))) 42652 42655 () (node
  (node (node (node leaf 42736 42737 () leaf) 42752 42785 () (node leaf 42864 42864 () leaf)) 42888
  42890 () (node (node leaf 42994 42996 () leaf) 43000 43001 () leaf)) 43010 43010 () (node (node
  (node leaf 43014 43014 () leaf) 43019 43019 () leaf) 43045 43046 () (node (node leaf 43052 43052
  () leaf) 43204 43205 () leaf)))) 43232 43249 () (node (node (node (node (node leaf 43263 43263 ()
  leaf) 43302 43309 () (node leaf 43335 43345 () leaf)) 43392 43394 () (node (node leaf 43443 43443
  () leaf) 43446 43449 () leaf)) 43452 43453 () (node (node (node leaf 43471 43471 () leaf) 43493
  43494 () (node leaf 43561 43566 () leaf)) 43569 43570 () (node (node leaf 43573 43574 () leaf)
  43587 43587 () leaf))) 43596 43596 () (node (node (node (node leaf 43632 43632 () leaf) 43644
  43644 () (node leaf 43696 43696 () leaf)) 43698 43700 () (node (node leaf 43703 43704 () leaf)
  43710 43711 () leaf)) 43713 43713 () (node (node (node leaf 43741 43741 () leaf) 43756 43757 ()
  leaf) 43763 43764 () (node (node leaf 43766 43766 () leaf) 43867 43871 () leaf))))
def caseIgnorableTable5 : Tbl Unit :=
  node (node (node (node (node (node leaf 44005 44005 () leaf) 44008 44008 () (node leaf 44013 44013
  () leaf)) 64286 64286 () (node (node leaf 64434 64450 () leaf) 65024 65039 () leaf)) 65043 65043
  () (node (node (node leaf 65056 65071 () leaf) 65106 65106 () (node leaf 65109 65109 () leaf))
  65279 65279 () (node (node leaf 65287 65287 () leaf) 65294 65294 () leaf))) 65306 65306 () (node
  (node (node (node leaf 65342 65342 () leaf) 65344 65344 () (node leaf 65392 65392 () leaf)) 65438
  65439 () (node (node leaf 65507 65507 () leaf) 65529 65531 () leaf)) 66045 66045 () (node (node
  (node leaf 66272 66272 () leaf) 66422 66426 () leaf) 67456 67461 () (node (node leaf 67463 67504
  () leaf) 67506 67514 () leaf)))) 68097 68099 () (node (node (node (node (node leaf 68101 68102 ()
  leaf) 68108 68111 () (node leaf 68152 68154 () leaf)) 68159 68159 () (node (node leaf 68325 68326
  () leaf) 68900 68903 () leaf)) 69291 69292 () (node (node (node leaf 69446 69456 () leaf) 69506
  69509 () leaf) 69633 69633 () (node (node leaf 69688 69702 () leaf) 69744 69744 () leaf))) 69747
  69748 () (node (node (node (node leaf 69759 69761 () leaf) 69811 69814 () (node leaf 69817 69818
  () leaf)) 69821 69821 () (node (node leaf 69826 69826 () leaf) 69837 69837 () leaf)) 69888 69890
  () (node (node (node leaf 69927 69931 () leaf) 69933 69940 () leaf) 70003 70003 () (node (node
  leaf 70016 70017 () leaf) 70070 70078 () leaf))))
def caseIgnorableTable6 : Tbl Unit :=
  node (node (node (node (node (node leaf 70095 70095 () leaf) 70191 70193 () (node leaf 70196 70196
  () leaf)) 70198 70199 () (node (node leaf 70206 70206 () leaf) 70367 70367 () leaf)) 70371 70378
  () (node (node (node leaf 70400 70401 () leaf) 70459 70460 () (node leaf 70464 70464 () leaf))
  70502 70508 () (node (node leaf 70512 70516 () leaf) 70712 70719 () leaf))) 70722 70724 () (node
  (node (node (node leaf 70726 70726 () leaf) 70750 70750 () (node leaf 70835 70840 () leaf)) 70842
  70842 () (node (node leaf 70847 70848 () leaf) 70850 70851 () leaf)) 71090 71093 () (node (node
  (node leaf 71100 71101 () leaf) 71103 71104 () leaf) 71132 71133 () (node (node leaf 71219 71226
  () leaf) 71229 71229 () leaf)))) 71231 71232 () (node (node (node (node (node leaf 71339 71339 ()
  leaf) 71341 71341 () (node leaf 71344 71349 () leaf)) 71351 71351 () (node (node leaf 71453 71455
  () leaf) 71458 71461 () leaf)) 71463 71467 () (node (node (node leaf 71727 71735 () leaf) 71737
  71738 () (node leaf 71995 71996 () leaf)) 71998 71998 () (node (node leaf 72003 72003 () leaf)
  72148 72151 () leaf))) 72154 72155 () (node (node (node (node leaf 72160 72160 () leaf) 72193
  72202 () (node leaf 72243 72248 () leaf)) 72251 72254 () (node (node leaf 72263 72263 () leaf)
  72273 72278 () leaf)) 72281 72283 () (node (node (node leaf 72330 72342 () leaf) 72344 72345 ()
  leaf) 72752 72758 () (node (node leaf 72760 72765 () leaf) 72767 72767 () leaf))))
def caseIgnorableTable7 : Tbl Unit :=
  node (node (node (node (node (node leaf 72874 72880 () leaf) 72882 72883 () (node leaf 72885 72886
  () leaf)) 73009 73014 () (node (node leaf 73018 73018 () leaf) 73020 73021 () leaf)) 73023 73029
  () (node (node (node leaf 73031 73031 () leaf) 73104 73105 () (node leaf 73109 73109 () leaf))
  73111 73111 () (node (node leaf 73459 73460 () leaf) 78896 78904 () leaf))) 92912 92916 () (node
  (node (node (node leaf 92976 92982 () leaf) 92992 92995 () (node leaf 94031 94031 () leaf)) 94095
  94111 () (node (node leaf 94176 94177 () leaf) 94179 94180 () leaf)) 110576 110579 () (node (node
  (node leaf 110581 110587 () leaf) 110589 110590 () leaf) 113821 113822 () (node (node leaf 113824
  113827 () leaf) 118528 118573 () leaf)))) 118576 118598 () (node (node (node (node (node leaf
  119143 119145 () leaf) 119155 119170 () (node leaf 119173 119179 () leaf)) 119210 119213 () (node
  (node leaf 119362 119364 () leaf) 121344 121398 () leaf)) 121403 121452 () (node (node (node leaf
  121461 121461 () leaf) 121476 121476 () leaf) 121499 121503 () (node (node leaf 121505 121519 ()
  leaf) 122880 122886 () leaf))) 122888 122904 () (node (node (node (node leaf 122907 122913 ()
  leaf) 122915 122916 () (node leaf 122918 122922 () leaf)) 123184 123197 () (node (node leaf 123566
  123566 () leaf) 123628 123631 () leaf)) 125136 125142 () (node (node (node leaf 125252 125259 ()
  leaf) 127995 127999 () leaf) 917505 917505 () (node (node leaf 917536 917631 () leaf) 917760
  917999 () leaf))))
/-- Code points with the Case_Ignorable property of Unicode 14.0 (DerivedCoreProperties.txt), as
ranges. -/
def caseIgnorableTable : Tbl Unit :=
  (node (node (node caseIgnorableTable0 2433 2433 () caseIgnorableTable1) 3542 3542 () (node
  caseIgnorableTable2 6754 6754 () caseIgnorableTable3)) 11744 11775 () (node (node
  caseIgnorableTable4 43881 43883 () caseIgnorableTable5) 70089 70092 () (node caseIgnorableTable6
  72850 72871 () caseIgnorableTable7)))

/-! ## The Text Normalizer (`normalize`) -/

/-- Whether `c` is a precomposed Hangul syllable (U+AC00..U+D7A3). -/
def isHangulSyllable (c : Nat) : Bool := 0xAC00 ≤ c && c ≤ 0xD7A3

/-- The full canonical decomposition of one code point: the table, or for a Hangul syllable the
arithmetic decomposition into its jamo. -/
def decompose (c : Nat) : List Nat :=
  if isHangulSyllable c then
    let s := c - 0xAC00
    let l := 0x1100 + s / 588
    let v := 0x1161 + (s % 588) / 28
    let t := s % 28
    if t = 0 then [l, v] else [l, v, 0x11A7 + t]
  else (decompTable.find c).getD [c]

/-- The canonical combining class of a code point. -/
def ccc (c : Nat) : Nat := (cccTable.find c).getD 0

/-- Puts `c` in front of `l`, behind the leading marks of `l` whose class is lower than its own. -/
def insertMark (c : Nat) : List Nat → List Nat
  | [] => [c]
  | d :: ds => if 0 < ccc d ∧ ccc d < ccc c then d :: insertMark c ds else c :: d :: ds

/-- The canonical ordering algorithm: every run of marks is sorted by class, stably. -/
def canonicalOrder : List Nat → List Nat
  | [] => []
  | c :: cs => insertMark c (canonicalOrder cs)

/-- The code points of `s.normalize("NFD")`. -/
def nfd (l : List Nat) : List Nat := canonicalOrder (l.flatMap decompose)

/-- The character class `[\u0300-\u036f]`. -/
def isMark (c : Nat) : Bool := 0x300 ≤ c && c ≤ 0x36F

/-- The code points of `s.replace(/[\u0300-\u036f]/g, "")`. -/
def stripMarks (l : List Nat) : List Nat := l.filter (fun c => !isMark c)

/-- The character class `\s`, which is also what `trim` removes: the WhiteSpace and
LineTerminator code points of ECMAScript. -/
def isWhiteSpace (c : Nat) : Bool :=
  c = 0x9 || c = 0xA || c = 0xB || c = 0xC || c = 0xD || c = 0x20 || c = 0xA0 || c = 0x1680 ||
  (0x2000 ≤ c && c ≤ 0x200A) || c = 0x2028 || c = 0x2029 || c = 0x202F || c = 0x205F ||
  c = 0x3000 || c = 0xFEFF

/-- One pass of `replace(/\s+/g, " ")`; `inRun` says that the code point before was white space,
whose run has already been replaced. -/
def collapseFrom (inRun : Bool) : List Nat → List Nat
  | [] => []
  | c :: cs =>
    if isWhiteSpace c then
      if inRun then collapseFrom true cs else 0x20 :: collapseFrom true cs
    else c :: collapseFrom false cs

/-- The code points of `s.replace(/\s+/g, " ")`. -/
def collapseWhiteSpace (l : List Nat) : List Nat := collapseFrom false l

/-- The code points of `s.trim()`. -/
def trim (l : List Nat) : List Nat :=
  ((l.dropWhile isWhiteSpace).reverse.dropWhile isWhiteSpace).reverse

/-- The Cased property. -/
def isCased (c : Nat) : Bool := (casedTable.find c).isSome

/-- The Case_Ignorable property. -/
def isCaseIgnorable (c : Nat) : Bool := (caseIgnorableTable.find c).isSome

/-- Whether a cased letter follows, once case-ignorable code points are skipped. -/
def followedByCased : List Nat → Bool
  | [] => false
  | c :: cs => if isCaseIgnorable c then followedByCased cs else isCased c

/-- The lowercase mapping of one code point, out of context. -/
def lowerChar (c : Nat) : List Nat := (lowerTable.find c).getD [c]

/-- The lowercase mapping of a string from some position on; `before` says that a cased letter
precedes the position, once case-ignorable code points are skipped. A capital sigma (U+03A3)
becomes a final sigma (U+03C2) when a cased letter precedes and none follows (Final_Sigma),
and a small sigma (U+03C3) otherwise. -/
def toLowerFrom (before : Bool) : List Nat → List Nat
  | [] => []
  | c :: cs =>
    (if c = 0x3A3 then (if before && !followedByCased cs then [0x3C2] else [0x3C3])
     else lowerChar c) ++
    toLowerFrom (if isCaseIgnorable c then before else isCased c) cs

/-- The code points of `s.toLowerCase()`. -/
def toLowerCase (l : List Nat) : List Nat := toLowerFrom false l

/-- The code points of a string. -/
def codePoints (s : String) : List Nat := s.data.map Char.toNat

/-- The string of a list of code points. -/
def ofCodePoints (l : List Nat) : String := String.mk (l.map Char.ofNat)

/-- The body of `normalize` on code points: NFD, removal of U+0300..U+036F, collapse of white
space, trim, lowercase. -/
def normalizeCP (l : List Nat) : List Nat :=
  toLowerCase (trim (collapseWhiteSpace (stripMarks (nfd l))))

/-- The function `normalize(s)` on a string argument. -/
def normalize (s : String) : String := ofCodePoints (normalizeCP (codePoints s))

/-! ## Numbers

A number of the program is an IEEE 754 double. The embedding holds the integers among them: a
JSON number `num n` is the number that `JSON.parse` makes of the integer literal `n`, which is
`toDouble n`, and an arithmetic operation rounds its exact result with `toDouble`. -/

/-- How often `m` is halved until it is below `2 ^ 53`, with at most `fuel` halvings. -/
def exponentOf : Nat → Nat → Nat
  | 0, _ => 0
  | fuel + 1, m => if m < 2 ^ 53 then 0 else exponentOf fuel (m / 2) + 1

/-- The double nearest to a natural number, ties to the even significand; `none` is
`Infinity`. Below `2 ^ 53` every natural number is a double. -/
def roundNat (m : Nat) : Option Nat :=
  if m < 2 ^ 53 then some m
  else if 2 ^ 1024 ≤ m then none
  else
    let e := exponentOf 1024 m
    let q := m / 2 ^ e
    let r := m % 2 ^ e
    let q1 := if 2 ^ e < 2 * r ∨ (2 * r = 2 ^ e ∧ q % 2 = 1) then q + 1 else q
    if q1 * 2 ^ e < 2 ^ 1024 then some (q1 * 2 ^ e) else none

/-- The double nearest to an integer; `none` is `Infinity` or `-Infinity`. -/
def toDouble : Int → Option Int
  | .ofNat m => (roundNat m).map Int.ofNat
  | .negSucc m => (roundNat (m + 1)).map (fun v => -Int.ofNat v)

/-- The product `a * b` of a number `a` (`none`: not finite) and a positive finite number `b`. -/
def mulNumber (a : Option Int) (b : Int) : Option Int := a.bind (fun x => toDouble (x * b))

/-- The sum `a + b` of a finite number `a` and a number `b` (`none`: not finite). -/
def addNumber (a : Int) (b : Option Int) : Option Int := b.bind (fun y => toDouble (a + y))

/-- The decimal of `k` digits that is read back as the double `v`, if there is one; `v` has
`d` digits. Of two the nearer to `v` is taken, and of two equally near ones the even one. -/
def digitsOfLength (v d k : Nat) : Option Nat :=
  let p := 10 ^ (d - k)
  let f := v / p
  let lo := roundNat (f * p) == some v
  let hi := decide (f + 1 < 10 ^ k) && roundNat ((f + 1) * p) == some v
  if lo && hi then
    if v - f * p < (f + 1) * p - v then some f
    else if (f + 1) * p - v < v - f * p then some (f + 1)
    else if f % 2 = 0 then some f else some (f + 1)
  else if lo then some f
  else if hi then some (f + 1)
  else none

/-- The shortest decimal that is read back as the double `v`, tried from `k` digits on; 17
digits always do. -/
def findDigits (v d : Nat) : Nat → Nat → Nat
  | 0, _ => v
  | fuel + 1, k =>
    match digitsOfLength v d k with
    | some s => s
    | none => findDigits v d fuel (k + 1)

/-- The shortest decimal `s` that is read back as the double `v`, and the position `n` of its
decimal point: `s * 10 ^ (n - k)` for the number `k` of digits of `s`. -/
def shortestDigits (v : Nat) : Nat × Nat :=
  let d := (Nat.repr v).length
  if roundNat (10 ^ d) = some v then (1, d + 1) else (findDigits v d 17 1, d)

/-- The string of a double `v` (`Number::toString` with radix 10): below `2 ^ 53` its digits;
from there on the shortest digits, followed by zeros up to 21 digits and by an exponent
beyond. -/
def doubleToString (v : Nat) : String :=
  if v < 2 ^ 53 then Nat.repr v
  else
    let ds := (Nat.repr (shortestDigits v).1).data
    let n := (shortestDigits v).2
    if n ≤ 21 then String.mk (ds ++ List.replicate (n - ds.length) '0')
    else if ds.length = 1 then String.mk ds ++ "e+" ++ Nat.repr (n - 1)
    else String.mk (ds.take 1) ++ "." ++ String.mk (ds.drop 1) ++ "e+" ++ Nat.repr (n - 1)

/-- The string of the number of the integer literal `n`. -/
def numberToString (n : Int) : String :=
  match toDouble n with
  | none => if n < 0 then "-Infinity" else "Infinity"
  | some v => (if v < 0 then "-" else "") ++ doubleToString v.natAbs

/-! ## JavaScript values -/

/-- A parsed JSON value. A number is given by the integer of its literal, whose value is the
double `toDouble n`. An object is the list of its own properties; of two bindings of a key the
first is the property. -/
inductive JSON where
  | null : JSON
  | bool (b : Bool) : JSON
  | num (n : Int) : JSON
  | str (s : String) : JSON
  | arr (xs : List JSON) : JSON
  | obj (kvs : List (String × JSON)) : JSON

/-- A value the handler holds: a JSON value, `undefined` (an absent property) or a built-in
object inherited from a prototype. -/
inductive JSVal where
  | undefined : JSVal
  | builtin : JSVal
  | json (v : JSON) : JSVal

/-- Truthiness of a JSON value (`!!v`). -/
def JSON.truthy : JSON → Bool
  | .null => false
  | .bool b => b
  | .num n => n != 0
  | .str s => s != ""
  | .arr _ => true
  | .obj _ => true

/-- Truthiness of a value (`!!v`). -/
def JSVal.truthy : JSVal → Bool
  | .undefined => false
  | .builtin => true
  | .json v => v.truthy

mutual
/-- The abstract operation ToString on a JSON value; an object with an own `toString` property
(not callable) has no primitive value. -/
def JSON.toStr : JSON → Except String String
  | .null => .ok "null"
  | .bool b => .ok (if b then "true" else "false")
  | .num n => .ok (numberToString n)
  | .str s => .ok s
  | .arr xs => JSON.joinStr xs
  | .obj kvs =>
    if (kvs.lookup "toString").isSome then .error "Cannot convert object to primitive value"
    else .ok "[object Object]"
/-- The operation `Array.prototype.join` with the separator `,`: null elements give the empty
string. -/
def JSON.joinStr : List JSON → Except String String
  | [] => .ok ""
  | .null :: [] => .ok ""
  | x :: [] => JSON.toStr x
  | .null :: y :: ys => (JSON.joinStr (y :: ys)).map (fun r => "," ++ r)
  | x :: y :: ys => (JSON.toStr x).bind (fun a => (JSON.joinStr (y :: ys)).map (fun r => a ++ "," ++ r))
end

/-- ToString on a value, as a template literal and a property key apply it. -/
def JSVal.toStr : JSVal → Except String String
  | .undefined => .ok "undefined"
  | .builtin => .ok "function () { [native code] }"
  | .json v => v.toStr

/-- The names of the properties of `Object.prototype`, which every object inherits. -/
def objectPrototype : List String :=
  ["constructor", "__defineGetter__", "__defineSetter__", "hasOwnProperty", "__lookupGetter__",
   "__lookupSetter__", "isPrototypeOf", "propertyIsEnumerable", "toString", "valueOf",
   "__proto__", "toLocaleString"]

/-- The property read `o[k]` on an object with own properties `kvs`: the own property, else the
one inherited from `Object.prototype`, else `undefined`. -/
def getProperty (kvs : List (String × JSON)) (k : String) : JSVal :=
  match kvs.lookup k with
  | some v => .json v
  | none => if k ∈ objectPrototype then .builtin else .undefined

/-- What the code takes from its runtime and the embedding leaves open. -/
structure Runtime where
  /-- The digest `crypto.createHmac("sha256", secret).update(id).digest("hex")`, as a function
  of `secret` and `id`. -/
  hmacSha256Hex : String → String → String
  /-- The bytes of `Buffer.from(v)` for an array or an object `v`, or the message of the error it
  throws. -/
  bufferFromObject : JSON → Except String (List Nat)
  /-- The operation StringToNumber; `none` is a result that is not a finite number. -/
  stringToNumber : String → Option Int
  /-- The property read `v[k]` on an array or on a primitive other than null. -/
  getOf : JSON → String → JSVal

/-! ## The Catalog Loader (`loadCatalog`) -/

/-- The module state: the variable `CATALOG`, and how often the asset file has been read. -/
structure State where
  CATALOG : JSON
  reads : Nat

/-- The state of a fresh process: `let CATALOG = null`. -/
def State.init : State := ⟨.null, 0⟩

/-- The function `loadCatalog()`. `asset` is the outcome of
`JSON.parse(fs.readFileSync(file, "utf8"))`: the parsed value, or the message of the error that
reading or parsing throws. -/
def loadCatalog (asset : Except String JSON) (st : State) : Except String JSON × State :=
  if st.CATALOG.truthy then (.ok st.CATALOG, st)
  else
    match asset with
    | .error e => (.error e, { st with reads := st.reads + 1 })
    | .ok v => (.ok v, { CATALOG := v, reads := st.reads + 1 })

/-! ## The Signature Verifier (`verifySig`) -/

/-- The UTF-8 encoding of one code point. -/
def utf8Encode (c : Nat) : List Nat :=
  if c < 0x80 then [c]
  else if c < 0x800 then [0xC0 + c / 64, 0x80 + c % 64]
  else if c < 0x10000 then [0xE0 + c / 4096, 0x80 + c / 64 % 64, 0x80 + c % 64]
  else [0xF0 + c / 262144, 0x80 + c / 4096 % 64, 0x80 + c / 64 % 64, 0x80 + c % 64]

/-- The bytes of `Buffer.from(s)` for a string `s`. -/
def utf8 (s : String) : List Nat := (codePoints s).flatMap utf8Encode

/-- The bytes of `Buffer.from(v)`. -/
def bufferFrom (rt : Runtime) : JSVal → Except String (List Nat)
  | .json (.str s) => .ok (utf8 s)
  | .json (.arr xs) => rt.bufferFromObject (.arr xs)
  | .json (.obj kvs) => rt.bufferFromObject (.obj kvs)
  | _ => .error "The first argument must be of type string or an instance of Buffer, ArrayBuffer, or Array or an Array-like Object."

/-- The function `crypto.timingSafeEqual(a, b)`, which throws when the lengths differ. -/
def timingSafeEqual (a b : List Nat) : Except String Bool :=
  if a.length ≠ b.length then .error "Input buffers must have the same byte length"
  else .ok (a == b)

/-- The digest `crypto.createHmac("sha256", secret).update(id).digest("hex")`; `update` throws
when `id` is not a string. -/
def hmacHex (rt : Runtime) (secret : String) : JSVal → Except String String
  | .json (.str id) => .ok (rt.hmacSha256Hex secret id)
  | _ => .error "The \"data\" argument must be of type string or an instance of Buffer, TypedArray, or DataView."

/-- The function `verifySig(id, sig, secret)`. -/
def verifySig (rt : Runtime) (id sig : JSVal) (secret : String) : Except String Bool :=
  if secret = "" then .ok true
  else if !id.truthy || !sig.truthy then .ok false
  else
    match hmacHex rt secret id with
    | .error e => .error e
    | .ok h =>
      match bufferFrom rt sig with
      | .error e => .error e
      | .ok b => timingSafeEqual (utf8 h) b

/-! ## The Code Generator (`genCode`) -/

/-- The digit characters of radix 36: `0`..`9`, `a`..`z`. -/
def digit36 (d : Fin 36) : Char :=
  if d.val < 10 then Char.ofNat (48 + d.val) else Char.ofNat (87 + d.val)

/-- The string `r.toString(36)` of a number `0 <= r < 1`, given the digits of its fraction in
radix 36 as the engine prints them: `"0"` for zero, which has none, else `"0."` and the digits. -/
def toString36 (digits : List (Fin 36)) : String :=
  if digits = [] then "0" else "0." ++ String.mk (digits.map digit36)

/-- The string `s.slice(a, b)` for `0 <= a <= b`. -/
def slice (s : String) (a b : Nat) : String := String.mk ((s.data.drop a).take (b - a))

/-- The string `s.toUpperCase()` of a string of radix-36 digits. -/
def toUpperCase (s : String) : String :=
  String.mk (s.data.map (fun c => if 97 ≤ c.toNat ∧ c.toNat ≤ 122 then Char.ofNat (c.toNat - 32) else c))

/-- The suffix `Math.random().toString(36).slice(2, 8).toUpperCase()`; `random` holds the
fraction digits of the number drawn. -/
def randSuffix (random : List (Fin 36)) : String :=
  toUpperCase (slice (toString36 random) 2 8)

/-- The function `genCode(id)`; `random` holds the radix-36 fraction digits of the number that
`Math.random()` returns. -/
def genCode (id : JSVal) (random : List (Fin 36)) : Except String String :=
  let rand := randSuffix random
  id.toStr.map (fun i => "SOFKA-" ++ i ++ "-" ++ rand)

/-! ## The Request Handler (`exports.handler`) -/

/-- The field `event.body`: absent (undefined, null or the empty string), or a text, given by
the outcome of `JSON.parse` on it (the value, or the message of the SyntaxError). -/
inductive Body where
  | absent : Body
  | text (parsed : Except String JSON) : Body

/-- The event of a request. -/
structure Event where
  httpMethod : Option String
  body : Body

/-- What a call reads from outside the module: the environment variable, the catalog asset (see
`loadCatalog`), the clock `Date.now()` (a time value: an integer number of milliseconds) and
the fraction digits of `Math.random()` (see `genCode`). -/
structure Env where
  SOFKA_SECRET : Option String
  asset : Except String JSON
  now : Int
  random : List (Fin 36)

/-- The body of a response: empty, or the object that `JSON.stringify` is applied to. -/
inductive Payload where
  | empty : Payload
  | error (error : String) : Payload
  | errorDetail (error detail : String) : Payload
  | notMatched : Payload
  | matched (discount : JSVal) (code : String) (expiresAt : Option Int) : Payload

/-- A response. The headers are the same constant object in every response and are left out. -/
structure Response where
  statusCode : Nat
  body : Payload

/-- The value `JSON.parse(event.body || "{}")`. -/
def parseBody : Body → Except String JSON
  | .absent => .ok (.obj [])
  | .text parsed => parsed

/-- The destructuring `const { id, guess, sig } = body`: it throws on null; an array or a
primitive has no property of these names. -/
def destructure : JSON → Except String (JSVal × JSVal × JSVal)
  | .null => .error "Cannot destructure property id of body as it is null."
  | .obj kvs => .ok (getProperty kvs "id", getProperty kvs "guess", getProperty kvs "sig")
  | _ => .ok (.undefined, .undefined, .undefined)

/-- The property read `catalog[id]`. -/
def lookupRecord (rt : Runtime) (catalog : JSON) (id : JSVal) : Except String JSVal :=
  match catalog with
  | .null => .error "Cannot read properties of null"
  | .obj kvs => id.toStr.map (fun k => getProperty kvs k)
  | v => id.toStr.map (fun k => rt.getOf v k)

/-- The property reads `record.aroma`, `record.synonyms`, `record.validDays` and
`record.discount`; a record that is not a JSON object (a primitive, an array, a built-in) has no
property of these names. -/
def field (record : JSVal) (k : String) : JSVal :=
  match record with
  | .json (.obj kvs) => getProperty kvs k
  | _ => .undefined

/-- The call `normalize(v)`: the default `""` stands in for `undefined`, and a value that is not
a string has no method `normalize`. -/
def normalizeVal : JSVal → Except String String
  | .undefined => .ok (normalize "")
  | .json (.str s) => .ok (normalize s)
  | .json .null => .error "Cannot read properties of null (reading normalize)"
  | _ => .error "s.normalize is not a function"

/-- The call `synonyms.map(normalize)`. -/
def normalizeAll : List JSON → Except String (List String)
  | [] => .ok []
  | x :: xs =>
    match normalizeVal (.json x) with
    | .error e => .error e
    | .ok a =>
      match normalizeAll xs with
      | .error e => .error e
      | .ok as => .ok (a :: as)

/-- The comparison of lines 92 to 98: whether the guess matches the aroma or a synonym. -/
def isMatch (guess record : JSVal) : Except String Bool :=
  match normalizeVal guess with
  | .error e => .error e
  | .ok g =>
    match normalizeVal (field record "aroma") with
    | .error e => .error e
    | .ok target =>
      if g = target then .ok true
      else
        match field record "synonyms" with
        | .json (.arr xs) =>
          match normalizeAll xs with
          | .error e => .error e
          | .ok ns => .ok (ns.contains g)
        | _ => .ok false

/-- The operation ToNumber; `none` is a result that is not a finite number. -/
def toNumber (rt : Runtime) : JSVal → Except String (Option Int)
  | .undefined => .ok none
  | .builtin => .ok none
  | .json .null => .ok (some 0)
  | .json (.bool b) => .ok (some (if b then 1 else 0))
  | .json (.num n) => .ok (toDouble n)
  | .json (.str s) => .ok (rt.stringToNumber s)
  | .json v => v.toStr.map rt.stringToNumber

/-- The value `a || b`. -/
def orElse (a b : JSVal) : JSVal := if a.truthy then a else b

/-- The value `Date.now() + days * 24 * 60 * 60 * 1000` in the arithmetic of doubles, each
operation rounding its result; `none` is a result that is not a finite number, which
`JSON.stringify` prints as `null`. -/
def expiry (rt : Runtime) (now : Int) (days : JSVal) : Except String (Option Int) :=
  (toNumber rt days).map (fun d =>
    addNumber now (mulNumber (mulNumber (mulNumber (mulNumber d 24) 60) 60) 1000))

/-- Lines 108 to 122: the response to a guess that matched. -/
def issue (rt : Runtime) (env : Env) (id record : JSVal) : Except String Response :=
  match genCode id env.random with
  | .error e => .error e
  | .ok code =>
    let days := orElse (field record "validDays") (.json (.num 7))
    match expiry rt env.now days with
    | .error e => .error e
    | .ok expiresAt =>
      .ok ⟨200, .matched (orElse (field record "discount") (.json (.num 10))) code expiresAt⟩

/-- Lines 83 to 122: the response once the catalog is loaded. -/
def answer (rt : Runtime) (env : Env) (catalog : JSON) (id guess : JSVal) :
    Except String Response :=
  match lookupRecord rt catalog id with
  | .error e => .error e
  | .ok record =>
    if !record.truthy then .ok ⟨404, .error "ID no registrado"⟩
    else
      match isMatch guess record with
      | .error e => .error e
      | .ok false => .ok ⟨200, .notMatched⟩
      | .ok true => issue rt env id record

/-- The `try` block of the handler (lines 62 to 122): its response or the message of the
exception it throws, and the state it leaves. -/
def tryBlock (rt : Runtime) (env : Env) (st : State) (event : Event) :
    Except String Response × State :=
  let SECRET := env.SOFKA_SECRET.getD ""
  match parseBody event.body with
  | .error e => (.error e, st)
  | .ok body =>
    match destructure body with
    | .error e => (.error e, st)
    | .ok (id, guess, sig) =>
      if !id.truthy || !guess.truthy then
        (.ok ⟨400, .error "Faltan parámetros: id, guess"⟩, st)
      else
        match verifySig rt id sig SECRET with
        | .error e => (.error e, st)
        | .ok false => (.ok ⟨401, .error "Firma inválida"⟩, st)
        | .ok true =>
          match loadCatalog env.asset st with
          | (.error e, st1) => (.error e, st1)
          | (.ok catalog, st1) => (answer rt env catalog id guess, st1)

/-- The function `exports.handler(event)`: the response and the state it leaves. -/
def handler (rt : Runtime) (env : Env) (st : State) (event : Event) : Response × State :=
  if event.httpMethod = some "OPTIONS" then (⟨200, .empty⟩, st)
  else if event.httpMethod ≠ some "POST" then (⟨405, .error "Only POST"⟩, st)
  else
    match tryBlock rt env st event with
    | (.ok r, st1) => (r, st1)
    | (.error e, st1) => (⟨500, .errorDetail "Error interno" e⟩, st1)


/-! ## Notions of the specification and sample inputs -/

/-- A catalog record that the comparison and the issuance can read, as the data model types it:
the aroma is absent or a string, the synonyms (when an array) are strings, and the number of
valid days is no array and no object. -/
def IsCatalogRecord (record : JSVal) : Prop :=
  (field record "aroma" = .undefined ∨ ∃ a, field record "aroma" = .json (.str a)) ∧
  (∀ xs, field record "synonyms" = .json (.arr xs) → ∀ x ∈ xs, ∃ s, x = JSON.str s) ∧
  (∀ xs, field record "validDays" ≠ .json (.arr xs)) ∧
  (∀ kvs, field record "validDays" ≠ .json (.obj kvs))

/-- The aroma that the guess is compared with: `normalize(record.aroma)`. -/
def targetOf (record : JSVal) : String :=
  match field record "aroma" with
  | .json (.str a) => normalize a
  | _ => normalize ""

/-- The synonyms of a record, when it has an array of them. -/
def synonymsOf (record : JSVal) : List JSON :=
  match field record "synonyms" with
  | .json (.arr xs) => xs
  | _ => []

/-- The match of the specification: the guess normalizes to the normalized aroma or to the
normalized form of some synonym. -/
def Matches (guess : String) (record : JSVal) : Prop :=
  normalize guess = targetOf record ∨
    ∃ x, JSON.str x ∈ synonymsOf record ∧ normalize guess = normalize x

/-- A runtime whose digest is a fixed string of 64 hexadecimal digits; it stands in for the
keyed hash where a statement is evaluated at a concrete request. -/
def sampleRuntime : Runtime :=
  ⟨fun _ _ => "00000000000000000000000000000000" ++ "00000000000000000000000000000000",
   fun _ => .error "The first argument must be of type string", fun _ => none,
   fun _ _ => .undefined⟩

/-- The record of the scenario in the specification. -/
def vanillaRecord : JSON :=
  .obj [("aroma", .str "Vainilla"), ("discount", .num 15), ("validDays", .num 3)]

/-- The catalog of the scenario in the specification. -/
def sampleCatalog : JSON := .obj [("vanilla", vanillaRecord)]

/-- No secret, the sample catalog, the clock at 1700000000000 and `Math.random()` returning a
number whose fraction digits in radix 36 are `4fzyo82mvyq`. -/
def sampleEnv : Env := ⟨none, .ok sampleCatalog, 1700000000000, [4, 15, 35, 34, 24, 8, 2, 22, 31, 34, 26]⟩

/-- A POST request with the given JSON body. -/
def post (body : JSON) : Event := ⟨some "POST", .text (.ok body)⟩

/-- The body `{"id": id, "guess": guess}`. -/
def request (id guess : String) : JSON := .obj [("id", .str id), ("guess", .str guess)]

/-- The body `{"id": id, "guess": guess, "sig": sig}`. -/
def signedRequest (id guess sig : String) : JSON :=
  .obj [("id", .str id), ("guess", .str guess), ("sig", .str sig)]

/-- The character that `toUpperCase` makes of a radix-36 digit: `0`..`9`, `A`..`Z`. -/
def upperDigit36 (d : Fin 36) : Char :=
  if d.val < 10 then Char.ofNat (48 + d.val) else Char.ofNat (55 + d.val)

/-- The record that a request consults: the value `catalog[id]` of line 83, when the body
parses, the catalog loads and the key converts. -/
def consultedRecord (rt : Runtime) (env : Env) (st : State) (event : Event) : Option JSVal :=
  match parseBody event.body with
  | .error _ => none
  | .ok body =>
    match destructure body with
    | .error _ => none
    | .ok (id, _, _) =>
      match (loadCatalog env.asset st).1 with
      | .error _ => none
      | .ok catalog =>
        match lookupRecord rt catalog id with
        | .error _ => none
        | .ok record => some record

/-- A record of the sample shape whose discount and number of valid days are both 0. -/
def zeroRecord : JSON :=
  .obj [("aroma", .str "Vainilla"), ("discount", .num 0), ("validDays", .num 0)]

/-- The sample environment with `zeroRecord` as the only record of the catalog. -/
def zeroEnv : Env := { sampleEnv with asset := .ok (.obj [("vanilla", zeroRecord)]) }

/-! ## Notions for the text normalizer -/

/-- A code point that is a Unicode scalar value. -/
def isScalar (c : Nat) : Bool := c < 0xD800 || (0xDFFF < c && c < 0x110000)

/-- The check of one entry of the decomposition table: the entry is for one code point, which
is not U+034F and is no Hangul syllable, and each code point of its decomposition is a scalar
value, has no decomposition of its own and is not U+034F. -/
def decompEntryOk (e : Nat × Nat × List Nat) : Bool :=
  e.1 == e.2.1 && e.1 != 0x34F &&
  e.2.2.all (fun d => isScalar d && decompose d == [d] && d != 0x34F)

/-- The check of one entry of the lowercase table: the entry is for one code point `c`; if `c`
is fully decomposed and no mark of U+0300..U+036F, its image is one code point that is a scalar
value, is fully decomposed, has the combining class of `c`, is no mark of that range, is no
white space, has no lowercase mapping of its own and is not the capital sigma. -/
def lowerEntryOk (e : Nat × Nat × List Nat) : Bool :=
  e.1 == e.2.1 && e.2.2.all isScalar && !isWhiteSpace e.1 &&
  (decompose e.1 != [e.1] || isMark e.1 ||
    match e.2.2 with
    | [d] => decompose d == [d] && ccc d == ccc e.1 && !isMark d && !isWhiteSpace d &&
        (lowerTable.find d).isNone && d != 0x3A3
    | _ => false)

/-- The white-space code points. -/
def whiteSpaces : List Nat :=
  [0x9, 0xA, 0xB, 0xC, 0xD, 0x20, 0xA0, 0x1680, 0x2000, 0x2001, 0x2002, 0x2003, 0x2004, 0x2005,
   0x2006, 0x2007, 0x2008, 0x2009, 0x200A, 0x2028, 0x2029, 0x202F, 0x205F, 0x3000, 0xFEFF]

/-- Canonical order: no mark stands right behind a code point of a higher class. -/
def Ordered (l : List Nat) : Prop := List.Chain' (fun a b => ccc b = 0 ∨ ccc a ≤ ccc b) l

/-- The shape that the collapse of white space and the trim leave: every white space is a
U+0020, no two of them are adjacent, none leads and none trails. -/
def WsNormal (l : List Nat) : Prop :=
  (∀ c ∈ l, isWhiteSpace c = true → c = 0x20) ∧
  List.Chain' (fun a b => ¬ (isWhiteSpace a = true ∧ isWhiteSpace b = true)) l ∧
  (∀ c ∈ l.head?, isWhiteSpace c = false) ∧ (∀ c ∈ l.getLast?, isWhiteSpace c = false)

/-- The state of the collapse behind a list: whether its last code point is white space. -/
def runAfter (b : Bool) : List Nat → Bool
  | [] => b
  | c :: cs => runAfter (isWhiteSpace c) cs

/-- How the lowercase mapping relates a code point of its input to the one of its output: same
combining class, white space stays as it is, and the image is a scalar value (if the code point
is), fully decomposed, no mark of U+0300..U+036F, its own lowercase, and no capital sigma. -/
def LowerRel (c d : Nat) : Prop :=
  ccc d = ccc c ∧ isWhiteSpace d = isWhiteSpace c ∧ (isWhiteSpace c = true → d = c) ∧
  (isScalar c = true → isScalar d = true) ∧
  decompose d = [d] ∧ isMark d = false ∧ lowerChar d = [d] ∧ d ≠ 0x3A3

/-- The canonical shape of a normalized text: every code point is fully decomposed, is no mark
of U+0300..U+036F, is its own lowercase and is not the capital sigma; white space is normal. -/
def Canonical (l : List Nat) : Prop :=
  (∀ c ∈ l, decompose c = [c] ∧ isMark c = false ∧ lowerChar c = [c] ∧ c ≠ 0x3A3) ∧ WsNormal l

/-- The ASCII upper-case mapping of a code point: `a`..`z` to `A`..`Z`. -/
def upperAscii (c : Nat) : Nat := if 97 ≤ c ∧ c ≤ 122 then c - 32 else c

/-- The ASCII lower-case mapping of a code point: `A`..`Z` to `a`..`z`. -/
def lowerAscii (c : Nat) : Nat := if 65 ≤ c ∧ c ≤ 90 then c + 32 else c

/-- A string with its ASCII letters in upper case. -/
def asciiUpperCase (s : String) : String := ofCodePoints ((codePoints s).map upperAscii)

/-- A string with its ASCII letters in lower case. -/
def asciiLowerCase (s : String) : String := ofCodePoints ((codePoints s).map lowerAscii)

/-- Two code points that are equal up to the case of an ASCII letter. -/
def SameUpToCase (x y : Nat) : Prop := lowerAscii x = lowerAscii y

/-- A string of white space only. -/
def IsWhiteSpaceString (w : String) : Prop := ∀ c ∈ codePoints w, isWhiteSpace c = true
/-! ## Definitions for the cache, the signature gate and the blank guess -/

/-- The results and the final state of a run of calls of `loadCatalog()`, one for each outcome
that reading and parsing the asset would have at that call. -/
def loadCatalogs : List (Except String JSON) → State → List (Except String JSON) × State
  | [], st => ([], st)
  | asset :: assets, st =>
    let r := loadCatalog asset st
    let rest := loadCatalogs assets r.2
    (r.1 :: rest.1, rest.2)

/-- The sample environment with a secret configured. -/
def secretEnv : Env := { sampleEnv with SOFKA_SECRET := some "s3cret" }

/-- A code point that `normalize` removes: white space, or a mark of U+0300..U+036F. -/
def isBlank (c : Nat) : Bool := isWhiteSpace c || isMark c

/-- A catalog with a record without aroma, a record whose aroma is white space, and a record
with a synonym that is one combining mark. -/
def blankCatalog : JSON :=
  .obj [("plain", .obj [("discount", .num 15)]),
        ("spaces", .obj [("aroma", .str " \t")]),
        ("accent", .obj [("aroma", .str "Vainilla"), ("synonyms", .arr [.str "\u0301"])])]

/-- The sample environment with `blankCatalog` as the catalog. -/
def blankEnv : Env := { sampleEnv with asset := .ok blankCatalog }

/-- A time value, as `Date.now()` returns it: an integer number of milliseconds of magnitude at
most 8.64e15. -/
def IsTimeValue (t : Int) : Prop := -8640000000000000 ≤ t ∧ t ≤ 8640000000000000

/-- A record of the sample shape that is valid for 1000000000 days. -/
def longRecord : JSON :=
  .obj [("aroma", .str "Vainilla"), ("discount", .num 15), ("validDays", .num 1000000000)]

/-- The sample environment with `longRecord` as the only record of the catalog and the clock
at 1700000000001. -/
def longEnv : Env :=
  { sampleEnv with asset := .ok (.obj [("vanilla", longRecord)]), now := 1700000000001 }

/-- A record of the sample shape whose number of valid days is written `1e301`. -/
def hugeRecord : JSON :=
  .obj [("aroma", .str "Vainilla"), ("discount", .num 15), ("validDays", .num (10 ^ 301))]

/-- The sample environment with `hugeRecord` as the only record of the catalog. -/
def hugeEnv : Env := { sampleEnv with asset := .ok (.obj [("vanilla", hugeRecord)]) }

/-- A catalog with records that are not of the sample shape: an aroma that is `null`, a
synonym that is `null`, and a number of valid days that is an object with a property
`toString`. -/
def untypedCatalog : JSON :=
  .obj [("nullAroma", .obj [("aroma", .null)]),
        ("nullSynonym", .obj [("aroma", .str "Vainilla"), ("synonyms", .arr [.null])]),
        ("objectDays", .obj [("aroma", .str "Vainilla"),
          ("validDays", .obj [("toString", .num 1)])])]

/-- The sample environment with `untypedCatalog` as the catalog. -/
def untypedEnv : Env := { sampleEnv with asset := .ok untypedCatalog }

/-! ## The arithmetic of doubles on integers -/

theorem exponentOf_spec (fuel m : Nat) (h : m < 2 ^ (53 + fuel)) :
    m / 2 ^ exponentOf fuel m < 2 ^ 53 ∧
      (exponentOf fuel m = 0 ∨ 2 ^ 52 ≤ m / 2 ^ exponentOf fuel m) := by
  induction fuel generalizing m with
  | zero =>
    rw [exponentOf, Nat.pow_zero, Nat.div_one]
    exact ⟨h, Or.inl rfl⟩
  | succ fuel ih =>
    by_cases hm : m < 2 ^ 53
    · rw [exponentOf, if_pos hm, Nat.pow_zero, Nat.div_one]
      exact ⟨hm, Or.inl rfl⟩
    · have h2 : m / 2 < 2 ^ (53 + fuel) := by
        rw [Nat.div_lt_iff_lt_mul (by decide)]
        calc m < 2 ^ (53 + (fuel + 1)) := h
          _ = 2 ^ (53 + fuel) * 2 := by rw [← Nat.add_assoc, Nat.pow_succ]
      obtain ⟨h3, h4⟩ := ih (m / 2) h2
      have e : m / 2 ^ (exponentOf fuel (m / 2) + 1) = m / 2 / 2 ^ exponentOf fuel (m / 2) := by
        rw [Nat.pow_succ, Nat.mul_comm, Nat.div_div_eq_div_mul]
      rw [exponentOf, if_neg hm, e]
      refine ⟨h3, Or.inr ?_⟩
      rcases h4 with h4 | h4
      · rw [h4, Nat.pow_zero, Nat.div_one]
        have : (2 : Nat) ^ 53 = 2 ^ 52 * 2 := rfl
        omega
      · exact h4

/-- Every natural number below `2 ^ 53` is a double. -/
theorem roundNat_exact (m : Nat) (h : m < 2 ^ 53) : roundNat m = some m := by
  rw [roundNat, if_pos h]

set_option exponentiation.threshold 1100 in
theorem roundNat_of_large (m : Nat) (hm : ¬ m < 2 ^ 53) (hbig : ¬ 2 ^ 1024 ≤ m) :
    ∃ e q1, m / 2 ^ e < 2 ^ 53 ∧ (e = 0 ∨ 2 ^ 52 ≤ m / 2 ^ e) ∧ m / 2 ^ e ≤ q1 ∧
      q1 ≤ m / 2 ^ e + 1 ∧ (q1 = m / 2 ^ e + 1 → m % 2 ^ e ≠ 0) ∧
      roundNat m = if q1 * 2 ^ e < 2 ^ 1024 then some (q1 * 2 ^ e) else none := by
  have hlt : m < 2 ^ (53 + 1024) :=
    lt_of_lt_of_le (Nat.lt_of_not_le hbig) (Nat.pow_le_pow_right (by decide) (Nat.le_add_left _ _))
  obtain ⟨h1, h2⟩ := exponentOf_spec 1024 m hlt
  refine ⟨exponentOf 1024 m, _, h1, h2, ?_, ?_, ?_, by rw [roundNat, if_neg hm, if_neg hbig]⟩
  · split
    · exact Nat.le_succ _
    · exact Nat.le_refl _
  · split
    · exact Nat.le_refl _
    · exact Nat.le_succ _
  · intro heq
    split at heq
    · rename_i hc
      intro h0
      rw [h0] at hc
      have : 0 < 2 ^ exponentOf 1024 m := Nat.two_pow_pos _
      omega
    · omega

/-- Rounding is exact below `2 ^ 53` and stays at or above `2 ^ 53` from there on. -/
theorem roundNat_ge (m v : Nat) (h : roundNat m = some v) :
    (m < 2 ^ 53 ∧ v = m) ∨ 2 ^ 53 ≤ v := by
  by_cases hm : m < 2 ^ 53
  · rw [roundNat_exact m hm] at h
    exact Or.inl ⟨hm, (Option.some.inj h).symm⟩
  · right
    by_cases hbig : 2 ^ 1024 ≤ m
    · rw [roundNat, if_neg hm, if_pos hbig] at h
      cases h
    · obtain ⟨e, q1, h1, h2, h3, -, -, hr⟩ := roundNat_of_large m hm hbig
      rw [hr] at h
      split at h
      swap
      · cases h
      · rw [← Option.some.inj h]
        have hq : 2 ^ 53 ≤ m / 2 ^ e * 2 ^ e := by
          rcases h2 with h2 | h2
          · subst h2
            rw [Nat.pow_zero, Nat.div_one, Nat.mul_one]
            exact Nat.le_of_not_lt hm
          · have he : e ≠ 0 := by
              rintro rfl
              rw [Nat.pow_zero, Nat.div_one] at h1
              exact hm h1
            have h3 : 2 ^ 1 ≤ 2 ^ e := Nat.pow_le_pow_right (by decide) (by omega)
            exact Nat.mul_le_mul h2 h3
        exact le_trans hq (Nat.mul_le_mul_right _ h3)

set_option exponentiation.threshold 1100 in
/-- A natural number of at most `2 ^ k`, for `k` up to 1023, rounds to a finite double of at
most `2 ^ k`. -/
theorem roundNat_le_pow (m k : Nat) (hk2 : k ≤ 1023) (h : m ≤ 2 ^ k) :
    ∃ v, roundNat m = some v ∧ v ≤ 2 ^ k := by
  by_cases hm : m < 2 ^ 53
  · exact ⟨m, roundNat_exact m hm, h⟩
  have hk3 : (2 : Nat) ^ k < 2 ^ 1024 := Nat.pow_lt_pow_right (by decide) (Nat.lt_succ_of_le hk2)
  have hbig : ¬ 2 ^ 1024 ≤ m := Nat.not_le_of_lt (lt_of_le_of_lt h hk3)
  obtain ⟨e, q1, h1, h2, -, hq1, hr, hround⟩ := roundNat_of_large m hm hbig
  have hq : q1 * 2 ^ e ≤ 2 ^ k := by
    rcases Nat.lt_or_ge q1 (m / 2 ^ e + 1) with hlt1 | hge1
    · calc q1 * 2 ^ e ≤ m / 2 ^ e * 2 ^ e := Nat.mul_le_mul_right _ (by omega)
        _ ≤ m := Nat.div_mul_le_self m _
        _ ≤ 2 ^ k := h
    · have hr0 := hr (by omega)
      have he0 : e ≠ 0 := by
        rintro rfl
        rw [Nat.pow_zero, Nat.mod_one] at hr0
        exact hr0 rfl
      have h2 : 2 ^ 52 ≤ m / 2 ^ e := by
        rcases h2 with h2 | h2
        · exact absurd h2 he0
        · exact h2
      have h7 : 2 ^ (e + 52) ≤ m := by
        calc 2 ^ (e + 52) = 2 ^ 52 * 2 ^ e := by rw [← Nat.pow_add, Nat.add_comm]
          _ ≤ m / 2 ^ e * 2 ^ e := Nat.mul_le_mul_right _ h2
          _ ≤ m := Nat.div_mul_le_self m _
      have hek : e + 52 ≤ k := by
        by_contra hne
        have : 2 ^ k < 2 ^ (e + 52) := Nat.pow_lt_pow_right (by decide) (by omega)
        omega
      have hek2 : e + 53 ≤ k := by
        rcases Nat.lt_or_ge (e + 52) k with h8 | h8
        · omega
        · exfalso
          have hke : k = e + 52 := by omega
          have hmeq : m = 2 ^ k := by
            rw [hke]
            rw [hke] at h
            omega
          apply hr0
          rw [hmeq]
          exact Nat.mod_eq_zero_of_dvd (Nat.pow_dvd_pow 2 (by omega))
      calc q1 * 2 ^ e ≤ 2 ^ 53 * 2 ^ e := Nat.mul_le_mul_right _ (by omega)
        _ = 2 ^ (e + 53) := by rw [← Nat.pow_add, Nat.add_comm]
        _ ≤ 2 ^ k := Nat.pow_le_pow_right (by decide) hek2
  rw [hround, if_pos (lt_of_le_of_lt hq hk3)]
  exact ⟨_, rfl, hq⟩

/-- Every integer between `-2 ^ 53` and `2 ^ 53` is a double. -/
theorem toDouble_exact (n : Int) (h1 : -2 ^ 53 < n) (h2 : n < 2 ^ 53) : toDouble n = some n := by
  cases n with
  | ofNat m =>
    have hm : m < 2 ^ 53 := by
      have : (m : Int) < 2 ^ 53 := h2
      exact_mod_cast this
    simp only [toDouble, roundNat_exact m hm, Option.map_some']
  | negSucc m =>
    have hm : m + 1 < 2 ^ 53 := by
      have : -2 ^ 53 < Int.negSucc m := h1
      rw [Int.negSucc_eq] at this
      have h3 : ((m : Int) + 1) < 2 ^ 53 := by linarith
      exact_mod_cast h3
    simp only [toDouble, roundNat_exact (m + 1) hm, Option.map_some']
    rfl

/-- Rounding does not go below a bound that is a double between `-2 ^ 53` and `2 ^ 53`. -/
theorem toDouble_ge (n v c : Int) (hc1 : -2 ^ 53 < c) (hc2 : c ≤ 2 ^ 53) (hn : c ≤ n)
    (h : toDouble n = some v) : c ≤ v := by
  by_cases hs : n < 2 ^ 53
  · rw [toDouble_exact n (by linarith) hs] at h
    cases h
    exact hn
  · cases n with
    | ofNat m =>
      simp only [toDouble, Option.map_eq_some'] at h
      obtain ⟨w, hw, rfl⟩ := h
      rcases roundNat_ge m w hw with ⟨h3, -⟩ | h3
      · exfalso
        apply hs
        have : (m : Int) < 2 ^ 53 := by exact_mod_cast h3
        exact this
      · have : (2 : Int) ^ 53 ≤ (w : Int) := by exact_mod_cast h3
        exact le_trans hc2 this
    | negSucc m =>
      exfalso
      apply hs
      have : Int.negSucc m < 0 := Int.negSucc_lt_zero m
      have h5 : (0 : Int) < 2 ^ 53 := by positivity
      linarith

/-- An integer from 0 to `2 ^ k`, for `k` up to 1023, rounds to a finite double in that range. -/
theorem toDouble_le_pow (n : Int) (k : Nat) (hk : k ≤ 1023) (h0 : 0 ≤ n) (h : n ≤ 2 ^ k) :
    ∃ v, toDouble n = some v ∧ 0 ≤ v ∧ v ≤ 2 ^ k := by
  cases n with
  | ofNat m =>
    have hm : m ≤ 2 ^ k := by
      have : (m : Int) ≤ 2 ^ k := h
      exact_mod_cast this
    obtain ⟨w, hw, hwk⟩ := roundNat_le_pow m k hk hm
    refine ⟨w, by simp only [toDouble, hw, Option.map_some']; rfl, Int.ofNat_nonneg w, ?_⟩
    exact_mod_cast hwk
  | negSucc m => exact absurd h0 (not_le.mpr (Int.negSucc_lt_zero m))

/-- The value of `now + days * 24 * 60 * 60 * 1000` for a number of days that is finite. -/
theorem expiry_num (rt : Runtime) (now n : Int) :
    expiry rt now (.json (.num n)) =
      .ok (addNumber now (mulNumber (mulNumber (mulNumber (mulNumber (toDouble n) 24) 60) 60)
        1000)) := by
  unfold expiry toNumber
  rfl

/-- Where no operation rounds, the sum is the exact one. -/
theorem expiry_exact (now n : Int) (h : |now| + |n| * 86400000 < 2 ^ 53) :
    addNumber now (mulNumber (mulNumber (mulNumber (mulNumber (toDouble n) 24) 60) 60) 1000) =
      some (now + n * 86400000) := by
  have h53 : (2 : Int) ^ 53 = 9007199254740992 := by norm_num
  rw [h53] at h
  have exact : ∀ x : Int, -9007199254740992 < x → x < 9007199254740992 →
      toDouble x = some x := by
    intro x h1 h2
    exact toDouble_exact x (by rw [h53]; exact h1) (by rw [h53]; exact h2)
  rcases abs_cases now with ⟨ha, ha2⟩ | ⟨ha, ha2⟩ <;>
      rcases abs_cases n with ⟨hb, hb2⟩ | ⟨hb, hb2⟩ <;>
  · have e0 := exact n (by omega) (by omega)
    have e1 := exact (n * 24) (by omega) (by omega)
    have e2 := exact (n * 24 * 60) (by omega) (by omega)
    have e3 := exact (n * 24 * 60 * 60) (by omega) (by omega)
    have e4 := exact (n * 24 * 60 * 60 * 1000) (by omega) (by omega)
    have e5 := exact (now + n * 24 * 60 * 60 * 1000) (by omega) (by omega)
    simp only [mulNumber, addNumber, e0, e1, e2, e3, e4, e5, Option.some_bind]
    congr 1
    omega

theorem mulNumber_ge (a : Option Int) (b c v : Int) (hb : 0 ≤ b) (hc : 0 ≤ c)
    (hcb : c * b ≤ 2 ^ 53) (ha : ∀ y, a = some y → c ≤ y) (h : mulNumber a b = some v) :
    c * b ≤ v := by
  cases a with
  | none => simp [mulNumber] at h
  | some y =>
    simp only [mulNumber, Option.some_bind] at h
    have h1 : c * b ≤ y * b := mul_le_mul_of_nonneg_right (ha y rfl) hb
    have h2 : (-2 : Int) ^ 53 < 0 := by norm_num
    have h3 : 0 ≤ c * b := mul_nonneg hc hb
    exact toDouble_ge (y * b) v (c * b) (by
      have : -(2 : Int) ^ 53 < 0 := by norm_num
      linarith) hcb h1 h

theorem mulNumber_le_pow (y b : Int) (k j : Nat) (hy0 : 0 ≤ y) (hy : y ≤ 2 ^ k) (hb0 : 0 ≤ b)
    (hb : b ≤ 2 ^ j) (hkj : k + j ≤ 1023) :
    ∃ v, mulNumber (some y) b = some v ∧ 0 ≤ v ∧ v ≤ 2 ^ (k + j) := by
  have h1 : y * b ≤ 2 ^ (k + j) := by
    rw [pow_add]
    exact mul_le_mul hy hb hb0 (by positivity)
  exact toDouble_le_pow (y * b) (k + j) hkj (mul_nonneg hy0 hb0) h1

/-- The expiry of a positive number of days is at least one day after a clock time. -/
theorem expiry_ge (now n x : Int) (ht : IsTimeValue now) (hn : 1 ≤ n)
    (h : addNumber now (mulNumber (mulNumber (mulNumber (mulNumber (toDouble n) 24) 60) 60)
      1000) = some x) : now + 86400000 ≤ x := by
  have h53 : (2 : Int) ^ 53 = 9007199254740992 := by norm_num
  obtain ⟨t1, t2⟩ := ht
  cases h4 : mulNumber (mulNumber (mulNumber (mulNumber (toDouble n) 24) 60) 60) 1000 with
  | none => simp [h4, addNumber] at h
  | some v4 =>
    have g0 : ∀ y, toDouble n = some y → 1 ≤ y := fun y hy =>
      toDouble_ge n y 1 (by rw [h53]; decide) (by rw [h53]; decide) hn hy
    have g1 : ∀ y, mulNumber (toDouble n) 24 = some y → 24 ≤ y := fun y hy =>
      mulNumber_ge _ 24 1 y (by decide) (by decide) (by rw [h53]; decide) g0 hy
    have g2 : ∀ y, mulNumber (mulNumber (toDouble n) 24) 60 = some y → 1440 ≤ y := fun y hy =>
      mulNumber_ge _ 60 24 y (by decide) (by decide) (by rw [h53]; decide) g1 hy
    have g3 : ∀ y, mulNumber (mulNumber (mulNumber (toDouble n) 24) 60) 60 = some y →
        86400 ≤ y := fun y hy =>
      mulNumber_ge _ 60 1440 y (by decide) (by decide) (by rw [h53]; decide) g2 hy
    have g4 : 86400000 ≤ v4 :=
      mulNumber_ge _ 1000 86400 v4 (by decide) (by decide) (by rw [h53]; decide) g3 h4
    rw [h4] at h
    simp only [addNumber, Option.some_bind] at h
    exact toDouble_ge (now + v4) x (now + 86400000) (by rw [h53]; omega) (by rw [h53]; omega)
      (by omega) h

/-- The expiry of a number of days from 1 to `10 ^ 295` is a finite number. -/
theorem expiry_finite (now n : Int) (ht : IsTimeValue now) (hn : 1 ≤ n) (hn2 : n ≤ 10 ^ 295) :
    ∃ x, addNumber now (mulNumber (mulNumber (mulNumber (mulNumber (toDouble n) 24) 60) 60)
      1000) = some x := by
  have h53 : (2 : Int) ^ 53 = 9007199254740992 := by norm_num
  obtain ⟨t1, t2⟩ := ht
  have hp : (10 : Int) ^ 295 ≤ 2 ^ 980 := by norm_num
  obtain ⟨v0, e0, p0, q0⟩ := toDouble_le_pow n 980 (by decide) (by omega) (le_trans hn2 hp)
  obtain ⟨v1, e1, p1, q1⟩ := mulNumber_le_pow v0 24 980 5 p0 q0 (by decide) (by decide)
    (by decide)
  obtain ⟨v2, e2, p2, q2⟩ := mulNumber_le_pow v1 60 985 6 p1 q1 (by decide) (by decide)
    (by decide)
  obtain ⟨v3, e3, p3, q3⟩ := mulNumber_le_pow v2 60 991 6 p2 q2 (by decide) (by decide)
    (by decide)
  obtain ⟨v4, e4, p4, q4⟩ := mulNumber_le_pow v3 1000 997 10 p3 q3 (by decide) (by decide)
    (by decide)
  rw [e0, e1, e2, e3, e4]
  simp only [addNumber, Option.some_bind]
  by_cases hneg : now + v4 < 0
  · exact ⟨_, toDouble_exact _ (by rw [h53]; omega) (by rw [h53]; omega)⟩
  · have h5 : now + v4 ≤ 2 ^ 1008 := by
      have h6 : (8640000000000000 : Int) ≤ 2 ^ 1007 := by
        calc (8640000000000000 : Int) ≤ 2 ^ 53 := by rw [h53]; decide
          _ ≤ 2 ^ 1007 := pow_le_pow_right₀ (by decide) (by decide)
      have h7 : (2 : Int) ^ 1008 = 2 ^ 1007 + 2 ^ 1007 := by
        rw [pow_succ]
        ring
      rw [h7]
      exact add_le_add (le_trans t2 h6) q4
    obtain ⟨x, hx, -, -⟩ := toDouble_le_pow (now + v4) 1008 (by decide) (by omega) h5
    exact ⟨x, hx⟩

set_option maxRecDepth 100000 in
/-- The strings of some numbers, as `String(n)` gives them: the digits below `2 ^ 53`, the
shortest digits of the nearest double from there on, with zeros up to 21 digits and with an
exponent beyond, and `Infinity`. -/
theorem numberToString_samples :
    numberToString 5 = "5" ∧ numberToString (-5) = "-5" ∧
    numberToString 9007199254740993 = "9007199254740992" ∧
    numberToString 1152921504606846976 = "1152921504606847000" ∧
    numberToString 123456789012345678901 = "123456789012345680000" ∧
    numberToString (10 ^ 21) = "1e+21" ∧
    numberToString 123456789012345678901234 = "1.2345678901234569e+23" ∧
    numberToString (-(2 ^ 70)) = "-1.1805916207174113e+21" ∧
    numberToString (10 ^ 400) = "Infinity" := by decide!


/-! ## The handler -/

theorem normalizeVal_str (s : String) : normalizeVal (.json (.str s)) = .ok (normalize s) := rfl

theorem normalizeAll_strs (xs : List JSON) (h : ∀ x ∈ xs, ∃ s, x = JSON.str s) :
    ∃ ns, normalizeAll xs = .ok ns ∧
      ∀ g, g ∈ ns ↔ ∃ s, JSON.str s ∈ xs ∧ g = normalize s := by
  induction xs with
  | nil => exact ⟨[], rfl, by simp⟩
  | cons x xs ih =>
    obtain ⟨s, rfl⟩ := h x (by simp)
    obtain ⟨ns, hns, hmem⟩ := ih (fun y hy => h y (by simp [hy]))
    refine ⟨normalize s :: ns, by simp [normalizeAll, normalizeVal, hns], ?_⟩
    intro g
    simp only [List.mem_cons, hmem, JSON.str.injEq]
    constructor
    · rintro (h1 | ⟨t, ht, h1⟩)
      · exact ⟨s, Or.inl rfl, h1⟩
      · exact ⟨t, Or.inr ht, h1⟩
    · rintro ⟨t, ht | ht, h1⟩
      · exact Or.inl (ht ▸ h1)
      · exact Or.inr ⟨t, ht, h1⟩

theorem isMatch_of_record (guess : String) (record : JSVal) (h : IsCatalogRecord record) :
    ∃ b, isMatch (.json (.str guess)) record = .ok b ∧ (b = true ↔ Matches guess record) := by
  obtain ⟨ha, hs, -, -⟩ := h
  have htarget : normalizeVal (field record "aroma") = .ok (targetOf record) := by
    rcases ha with ha | ⟨a, ha⟩ <;> simp [targetOf, ha, normalizeVal]
  unfold isMatch
  rw [normalizeVal_str, htarget]
  by_cases hg : normalize guess = targetOf record
  · exact ⟨true, by simp [hg], by simp [Matches, hg]⟩
  · by_cases harr : ∃ xs, field record "synonyms" = .json (.arr xs)
    · obtain ⟨xs, hxs⟩ := harr
      obtain ⟨ns, hns, hmem⟩ := normalizeAll_strs xs (hs xs hxs)
      refine ⟨ns.contains (normalize guess), by simp [hg, hxs, hns], ?_⟩
      simp only [Matches, hg, synonymsOf, hxs, false_or, List.contains, List.elem_eq_mem,
        decide_eq_true_eq, hmem]
    · refine ⟨false, ?_, ?_⟩
      · simp only [hg, if_false]
        split
        · rename_i xs hxs
          exact absurd ⟨xs, hxs⟩ harr
        · rfl
      · have : synonymsOf record = [] := by
          unfold synonymsOf
          split
          · rename_i xs hxs
            exact absurd ⟨xs, hxs⟩ harr
          · rfl
        simp [Matches, hg, this]

theorem lookupRecord_key (rt : Runtime) (catalog : JSON) (id record : JSVal)
    (h : lookupRecord rt catalog id = .ok record) : ∃ k, id.toStr = .ok k := by
  unfold lookupRecord at h
  cases hk : id.toStr with
  | ok k => exact ⟨k, rfl⟩
  | error e =>
    rw [hk] at h
    split at h <;> simp [Except.map] at h

theorem toNumber_of_record (rt : Runtime) (record : JSVal) (h : IsCatalogRecord record) :
    ∃ n, toNumber rt (orElse (field record "validDays") (.json (.num 7))) = .ok n := by
  obtain ⟨-, -, h1, h2⟩ := h
  unfold orElse
  split
  · cases hf : field record "validDays" with
    | undefined => exact ⟨_, rfl⟩
    | builtin => exact ⟨_, rfl⟩
    | json v =>
      cases v with
      | null => exact ⟨_, rfl⟩
      | bool b => exact ⟨_, rfl⟩
      | num n => exact ⟨_, rfl⟩
      | str s => exact ⟨_, rfl⟩
      | arr xs => exact absurd hf (h1 xs)
      | obj kvs => exact absurd hf (h2 kvs)
  · exact ⟨_, rfl⟩

theorem issue_of_record (rt : Runtime) (env : Env) (id record : JSVal) (k : String)
    (hk : id.toStr = .ok k) (h : IsCatalogRecord record) :
    ∃ e, issue rt env id record = .ok ⟨200, .matched (orElse (field record "discount")
      (.json (.num 10))) ("SOFKA-" ++ k ++ "-" ++ randSuffix env.random) e⟩ := by
  obtain ⟨n, hn⟩ := toNumber_of_record rt record h
  unfold issue genCode
  rw [hk]
  simp [Except.map, expiry, hn]

theorem handler_of_record (rt : Runtime) (env : Env) (st : State) (event : Event)
    (kvs : List (String × JSON)) (guess : String) (catalog : JSON) (record : JSVal)
    (hpost : event.httpMethod = some "POST")
    (hbody : parseBody event.body = .ok (.obj kvs))
    (hid : (getProperty kvs "id").truthy = true)
    (hguess : getProperty kvs "guess" = .json (.str guess)) (hne : guess ≠ "")
    (hsig : verifySig rt (getProperty kvs "id") (getProperty kvs "sig")
      (env.SOFKA_SECRET.getD "") = .ok true)
    (hcat : (loadCatalog env.asset st).1 = .ok catalog)
    (hrec : lookupRecord rt catalog (getProperty kvs "id") = .ok record)
    (htruthy : record.truthy = true) :
    (handler rt env st event).1 =
      match isMatch (.json (.str guess)) record with
      | .error e => ⟨500, .errorDetail "Error interno" e⟩
      | .ok false => ⟨200, .notMatched⟩
      | .ok true =>
        match issue rt env (getProperty kvs "id") record with
        | .error e => ⟨500, .errorDetail "Error interno" e⟩
        | .ok r => r := by
  rcases hl : loadCatalog env.asset st with ⟨r, st1⟩
  rw [hl] at hcat
  simp only at hcat
  subst hcat
  have hgt : (JSVal.json (.str guess)).truthy = true := by
    simpa [JSVal.truthy, JSON.truthy] using hne
  simp only [handler, hpost, tryBlock, hbody, destructure, hid, hguess, hgt, hsig, hl, answer,
    hrec, htruthy]
  simp
  cases hm : isMatch (.json (.str guess)) record with
  | error e => simp
  | ok b =>
    cases b with
    | false => simp
    | true =>
      simp
      cases issue rt env (getProperty kvs "id") record <;> simp

/-- Claim C1, counterexample. Four POST requests whose body parses to an object with a
non-empty (truthy) id and guess, whose signature check passes (no secret is configured) and
whose id has a record in the catalog, and which are answered with status 500, not 200: a
guess that is the number 5, a record whose aroma is `null`, a record with a synonym that is
`null` (on a guess that is not the aroma), and a matched record whose validDays is an object
with a property `toString`. In each of them a method call or a conversion throws and the
`catch` block answers. -/
theorem C1_counterexample :
    ((JSVal.json (.num 5)).truthy = true ∧
      consultedRecord sampleRuntime sampleEnv State.init
        (post (.obj [("id", .str "vanilla"), ("guess", .num 5)])) = some (.json vanillaRecord) ∧
      (handler sampleRuntime sampleEnv State.init
        (post (.obj [("id", .str "vanilla"), ("guess", .num 5)]))).1 =
        ⟨500, .errorDetail "Error interno" "s.normalize is not a function"⟩) ∧
    (consultedRecord sampleRuntime untypedEnv State.init (post (request "nullAroma" "vainilla")) =
        some (.json (.obj [("aroma", .null)])) ∧
      (handler sampleRuntime untypedEnv State.init
        (post (request "nullAroma" "vainilla"))).1.statusCode = 500) ∧
    (consultedRecord sampleRuntime untypedEnv State.init (post (request "nullSynonym" "canela")) =
        some (.json (.obj [("aroma", .str "Vainilla"), ("synonyms", .arr [.null])])) ∧
      (handler sampleRuntime untypedEnv State.init
        (post (request "nullSynonym" "canela"))).1.statusCode = 500) ∧
    (consultedRecord sampleRuntime untypedEnv State.init (post (request "objectDays" "vainilla")) =
        some (.json (.obj [("aroma", .str "Vainilla"),
          ("validDays", .obj [("toString", .num 1)])])) ∧
      (handler sampleRuntime untypedEnv State.init
        (post (request "objectDays" "vainilla"))).1.statusCode = 500) :=
  ⟨⟨rfl, rfl, rfl⟩, ⟨rfl, rfl⟩, ⟨rfl, rfl⟩, ⟨rfl, rfl⟩⟩

/-- Claim C1, amended. For every POST request whose body parses to an object with a truthy id
and a non-empty string guess, whose signature check passes and whose id has a record in the
catalog (a truthy `catalog[id]` whose aroma is absent or a string, whose synonyms, when an
array, are strings, and whose validDays is no array and no object), the handler answers status
200; the body has `ok: true` if and only if `normalize(guess)` equals
`normalize(record.aroma)` or `normalize(x)` for some entry `x` of `record.synonyms`; in every
other case the body is `{ok: false}`. -/
theorem C1_match_iff_normalized_equal (rt : Runtime) (env : Env) (st : State) (event : Event)
    (kvs : List (String × JSON)) (guess : String) (catalog : JSON) (record : JSVal)
    (hpost : event.httpMethod = some "POST")
    (hbody : parseBody event.body = .ok (.obj kvs))
    (hid : (getProperty kvs "id").truthy = true)
    (hguess : getProperty kvs "guess" = .json (.str guess)) (hne : guess ≠ "")
    (hsig : verifySig rt (getProperty kvs "id") (getProperty kvs "sig")
      (env.SOFKA_SECRET.getD "") = .ok true)
    (hcat : (loadCatalog env.asset st).1 = .ok catalog)
    (hrec : lookupRecord rt catalog (getProperty kvs "id") = .ok record)
    (htruthy : record.truthy = true) (htyped : IsCatalogRecord record) :
    (handler rt env st event).1.statusCode = 200 ∧
    ((∃ d c e, (handler rt env st event).1.body = .matched d c e) ↔ Matches guess record) ∧
    (¬ Matches guess record → (handler rt env st event).1.body = .notMatched) := by
  rw [handler_of_record rt env st event kvs guess catalog record hpost hbody hid hguess hne hsig
    hcat hrec htruthy]
  obtain ⟨k, hk⟩ := lookupRecord_key rt catalog _ record hrec
  obtain ⟨b, hb, hiff⟩ := isMatch_of_record guess record htyped
  obtain ⟨e, he⟩ := issue_of_record rt env _ record k hk htyped
  rw [hb, he]
  cases b with
  | false =>
    have hno : ¬ Matches guess record := fun h => by simpa using hiff.mpr h
    simp [hno]
  | true =>
    have hyes : Matches guess record := hiff.mp rfl
    simp [hyes]

theorem vanillaRecord_typed : IsCatalogRecord (.json vanillaRecord) := by
  have h1 : field (.json vanillaRecord) "synonyms" = .undefined := rfl
  have h2 : field (.json vanillaRecord) "validDays" = .json (.num 3) := rfl
  refine ⟨Or.inr ⟨"Vainilla", rfl⟩, ?_, ?_, ?_⟩
  · intro xs h
    rw [h1] at h
    cases h
  · intro xs h
    rw [h2] at h
    cases h
  · intro kvs h
    rw [h2] at h
    cases h

/-- Claim C1, witness: the theorem at a concrete input. -/
theorem C1_witness :
    (handler sampleRuntime sampleEnv State.init (post (request "vanilla" "VAINILLA "))).1.statusCode
      = 200 ∧
    ((∃ d c e, (handler sampleRuntime sampleEnv State.init
        (post (request "vanilla" "VAINILLA "))).1.body = .matched d c e) ↔
      Matches "VAINILLA " (.json vanillaRecord)) ∧
    (¬ Matches "VAINILLA " (.json vanillaRecord) →
      (handler sampleRuntime sampleEnv State.init
        (post (request "vanilla" "VAINILLA "))).1.body = .notMatched) :=
  C1_match_iff_normalized_equal sampleRuntime sampleEnv State.init
    (post (request "vanilla" "VAINILLA ")) [("id", .str "vanilla"), ("guess", .str "VAINILLA ")]
    "VAINILLA " sampleCatalog (.json vanillaRecord) rfl rfl rfl rfl (by decide) rfl rfl rfl rfl
    vanillaRecord_typed

theorem getProperty_cons_self (k : String) (v : JSON) (kvs : List (String × JSON)) :
    getProperty ((k, v) :: kvs) k = .json v := by
  simp [getProperty, List.lookup]

theorem getProperty_cons_ne (k k1 : String) (v : JSON) (kvs : List (String × JSON))
    (h : k ≠ k1) : getProperty ((k1, v) :: kvs) k = getProperty kvs k := by
  have : (k == k1) = false := by simpa using h
  simp [getProperty, List.lookup, this]

/-- Claim C2, the code at the failing input. With a secret configured, a POST request with
non-empty string id and guess whose sig is a non-empty string of another byte length than the
digest is not answered with 401: `crypto.timingSafeEqual` throws and the handler answers 500. -/
theorem C2_sig_of_other_length_is_500 (rt : Runtime) (env : Env) (st : State)
    (secret id guess sig : String) (hsecret : env.SOFKA_SECRET = some secret)
    (hs : secret ≠ "") (hid : id ≠ "") (hguess : guess ≠ "") (hsig : sig ≠ "")
    (hlen : (utf8 sig).length ≠ (utf8 (rt.hmacSha256Hex secret id)).length) :
    handler rt env st (post (signedRequest id guess sig)) =
      (⟨500, .errorDetail "Error interno" "Input buffers must have the same byte length"⟩, st) := by
  have h1 : getProperty [("id", JSON.str id), ("guess", .str guess), ("sig", .str sig)] "id"
      = .json (.str id) := getProperty_cons_self _ _ _
  have h2 : getProperty [("id", JSON.str id), ("guess", .str guess), ("sig", .str sig)] "guess"
      = .json (.str guess) := by
    rw [getProperty_cons_ne _ _ _ _ (by decide)]; exact getProperty_cons_self _ _ _
  have h3 : getProperty [("id", JSON.str id), ("guess", .str guess), ("sig", .str sig)] "sig"
      = .json (.str sig) := by
    rw [getProperty_cons_ne _ _ _ _ (by decide), getProperty_cons_ne _ _ _ _ (by decide)]
    exact getProperty_cons_self _ _ _
  have hlen2 : (utf8 (rt.hmacSha256Hex secret id)).length ≠ (utf8 sig).length := fun h => hlen h.symm
  simp [handler, post, signedRequest, tryBlock, parseBody, destructure, h1, h2, h3, hsecret,
    JSVal.truthy, JSON.truthy, hid, hguess, hsig, hs, verifySig, hmacHex, bufferFrom,
    timingSafeEqual, hlen2]

/-- Claim C2, witness: the theorem at a concrete input. -/
theorem C2_witness :
    handler sampleRuntime { sampleEnv with SOFKA_SECRET := some "s3cret" } State.init
        (post (signedRequest "vanilla" "vainilla" "abc")) =
      (⟨500, .errorDetail "Error interno" "Input buffers must have the same byte length"⟩,
        State.init) :=
  C2_sig_of_other_length_is_500 sampleRuntime _ State.init "s3cret" "vanilla" "vainilla" "abc" rfl
    (by decide) (by decide) (by decide) (by decide) (by decide)

/-- Claim C3, the code at the failing input. When `Math.random()` returns 0.5, which radix 36
prints as `0.i`, the code issued has a suffix of one character, and when it returns 0, printed
as `0`, the suffix is empty: the suffix is not always 6 characters long. -/
theorem C3_suffix_shorter_than_six (rt : Runtime) :
    genCode (.json (.str "vanilla")) [18] = .ok "SOFKA-vanilla-I" ∧
    genCode (.json (.str "vanilla")) [] = .ok "SOFKA-vanilla-" ∧
    (handler rt { sampleEnv with random := [18] } State.init
        (post (request "vanilla" "vainilla"))).1 =
      ⟨200, .matched (.json (.num 15)) "SOFKA-vanilla-I" (some 1700259200000)⟩ :=
  ⟨rfl, rfl, rfl⟩

/-- When radix 36 prints at least six fraction digits, the suffix is the first six of them in
upper case: six characters, each of `0`..`9`, `A`..`Z`. -/
theorem randSuffix_of_six_digits (d1 d2 d3 d4 d5 d6 : Fin 36) (ds : List (Fin 36)) :
    randSuffix (d1 :: d2 :: d3 :: d4 :: d5 :: d6 :: ds) =
      String.mk [upperDigit36 d1, upperDigit36 d2, upperDigit36 d3, upperDigit36 d4,
        upperDigit36 d5, upperDigit36 d6] := by
  have h : ∀ d : Fin 36, (if 97 ≤ (digit36 d).toNat ∧ (digit36 d).toNat ≤ 122
      then Char.ofNat ((digit36 d).toNat - 32) else digit36 d) = upperDigit36 d := by decide
  simp [randSuffix, toString36, slice, toUpperCase, String.append, h]

/-- The code issued has the form `SOFKA-<id>-<suffix>`, and the suffix has six characters of
`0`..`9`, `A`..`Z` when radix 36 prints at least six fraction digits. -/
theorem genCode_of_six_digits (id : String) (d1 d2 d3 d4 d5 d6 : Fin 36) (ds : List (Fin 36)) :
    genCode (.json (.str id)) (d1 :: d2 :: d3 :: d4 :: d5 :: d6 :: ds) =
      .ok ("SOFKA-" ++ id ++ "-" ++ String.mk [upperDigit36 d1, upperDigit36 d2, upperDigit36 d3,
        upperDigit36 d4, upperDigit36 d5, upperDigit36 d6]) := by
  simp only [genCode, randSuffix_of_six_digits]
  rfl

/-- A response with `ok: true` comes from `issue` on the consulted record. -/
theorem matched_inv (rt : Runtime) (env : Env) (st : State) (event : Event)
    (d : JSVal) (c : String) (e : Option Int)
    (h : (handler rt env st event).1.body = .matched d c e) :
    ∃ id record, consultedRecord rt env st event = some record ∧
      issue rt env id record = .ok ⟨200, .matched d c e⟩ := by
  by_cases h1 : event.httpMethod = some "OPTIONS"
  · simp [handler, h1] at h
  by_cases h2 : event.httpMethod = some "POST"
  swap
  · simp [handler, h1, h2] at h
  cases hb : parseBody event.body with
  | error m => simp [handler, h1, h2, tryBlock, hb] at h
  | ok body =>
  cases hd : destructure body with
  | error m => simp [handler, h1, h2, tryBlock, hb, hd] at h
  | ok t =>
  obtain ⟨id, guess, sig⟩ := t
  cases ht : (!id.truthy || !guess.truthy) with
  | true => simp [handler, h1, h2, tryBlock, hb, hd, ht] at h
  | false =>
  cases hv : verifySig rt id sig (env.SOFKA_SECRET.getD "") with
  | error m => simp [handler, h1, h2, tryBlock, hb, hd, ht, hv] at h
  | ok b =>
  cases b with
  | false => simp [handler, h1, h2, tryBlock, hb, hd, ht, hv] at h
  | true =>
  rcases hl : loadCatalog env.asset st with ⟨r, st1⟩
  cases r with
  | error m => simp [handler, h1, h2, tryBlock, hb, hd, ht, hv, hl] at h
  | ok catalog =>
  cases hr : lookupRecord rt catalog id with
  | error m => simp [handler, h1, h2, tryBlock, hb, hd, ht, hv, hl, answer, hr] at h
  | ok record =>
  cases htr : record.truthy with
  | false => simp [handler, h1, h2, tryBlock, hb, hd, ht, hv, hl, answer, hr, htr] at h
  | true =>
  cases hm : isMatch guess record with
  | error m => simp [handler, h1, h2, tryBlock, hb, hd, ht, hv, hl, answer, hr, htr, hm] at h
  | ok b =>
  cases b with
  | false => simp [handler, h1, h2, tryBlock, hb, hd, ht, hv, hl, answer, hr, htr, hm] at h
  | true =>
  refine ⟨id, record, by simp [consultedRecord, hb, hd, hl, hr], ?_⟩
  cases hg : genCode id env.random with
  | error m =>
    simp [handler, h1, h2, tryBlock, hb, hd, ht, hv, hl, answer, hr, htr, hm, issue, hg] at h
  | ok code =>
  cases hx : expiry rt env.now (orElse (field record "validDays") (.json (.num 7))) with
  | error m =>
    simp [handler, h1, h2, tryBlock, hb, hd, ht, hv, hl, answer, hr, htr, hm, issue, hg, hx] at h
  | ok x =>
    simp [handler, h1, h2, tryBlock, hb, hd, ht, hv, hl, answer, hr, htr, hm, issue, hg, hx] at h
    simp [issue, hg, hx, h]

theorem issue_inv (rt : Runtime) (env : Env) (id record d : JSVal) (c : String) (e : Option Int)
    (h : issue rt env id record = .ok ⟨200, .matched d c e⟩) :
    d = orElse (field record "discount") (.json (.num 10)) ∧
    expiry rt env.now (orElse (field record "validDays") (.json (.num 7))) = .ok e := by
  cases hg : genCode id env.random with
  | error m => simp [issue, hg] at h
  | ok code =>
  cases hx : expiry rt env.now (orElse (field record "validDays") (.json (.num 7))) with
  | error m => simp [issue, hg, hx] at h
  | ok x =>
    simp [issue, hg, hx] at h
    exact ⟨h.1.symm, by rw [h.2.2]⟩

/-- The response to a matched guess on a record whose `validDays || 7` is a number. -/
theorem issue_num (rt : Runtime) (env : Env) (id record : JSVal) (k : String) (n : Int)
    (hk : id.toStr = .ok k)
    (hdays : orElse (field record "validDays") (.json (.num 7)) = .json (.num n)) :
    issue rt env id record = .ok ⟨200, .matched (orElse (field record "discount")
      (.json (.num 10))) ("SOFKA-" ++ k ++ "-" ++ randSuffix env.random)
      (addNumber env.now (mulNumber (mulNumber (mulNumber (mulNumber (toDouble n) 24) 60)
        60) 1000))⟩ := by
  simp only [issue, genCode, hk, hdays, Except.map, expiry_num]

theorem long_expiry :
    addNumber 1700000000001 (mulNumber (mulNumber (mulNumber (mulNumber
      (toDouble 1000000000) 24) 60) 60) 1000) = some 86401700000000000 := by decide!

/-- Claim C4, counterexample. A record with `validDays: 0` is matched at clock time
1700000000000 and the code expires 7 days later, not 0 days later. A record with
`validDays: 1000000000` is matched at clock time 1700000000001 and `expiresAt` is
86401700000000000, the double nearest to the exact sum 86401700000000001, so that the
difference to the clock time is not `1000000000 * 86400000`. -/
theorem C4_counterexample :
    (consultedRecord sampleRuntime zeroEnv State.init (post (request "vanilla" "vainilla")) =
      some (.json zeroRecord) ∧
    field (.json zeroRecord) "validDays" = .json (.num 0) ∧
    (handler sampleRuntime zeroEnv State.init (post (request "vanilla" "vainilla"))).1.body =
      .matched (.json (.num 10)) "SOFKA-vanilla-4FZYO8" (some 1700604800000) ∧
    (1700604800000 : Int) - zeroEnv.now ≠ 0 * 86400000) ∧
    (consultedRecord sampleRuntime longEnv State.init (post (request "vanilla" "vainilla")) =
      some (.json longRecord) ∧
    field (.json longRecord) "validDays" = .json (.num 1000000000) ∧
    (handler sampleRuntime longEnv State.init (post (request "vanilla" "vainilla"))).1 =
      ⟨200, .matched (.json (.num 15)) "SOFKA-vanilla-4FZYO8" (some 86401700000000000)⟩ ∧
    (86401700000000000 : Int) - longEnv.now ≠ 1000000000 * 86400000) := by
  refine ⟨⟨rfl, rfl, rfl, by decide⟩, rfl, rfl, ?_, by decide⟩
  rw [handler_of_record sampleRuntime longEnv State.init (post (request "vanilla" "vainilla"))
    [("id", .str "vanilla"), ("guess", .str "vainilla")] "vainilla"
    (.obj [("vanilla", longRecord)]) (.json longRecord) rfl rfl rfl rfl (by decide) rfl rfl rfl
    rfl]
  have hm : isMatch (.json (.str "vainilla")) (.json longRecord) = .ok true := rfl
  have hi := issue_num sampleRuntime longEnv (.json (.str "vanilla")) (.json longRecord)
    "vanilla" 1000000000 rfl rfl
  have hp : getProperty [("id", JSON.str "vanilla"), ("guess", JSON.str "vainilla")] "id" =
      .json (.str "vanilla") := rfl
  rw [hm, hp, hi]
  show (⟨200, .matched _ _ (addNumber 1700000000001 _)⟩ : Response) = _
  rw [long_expiry]
  rfl

/-- Claim C4, amended. For every successful match issued at clock time `t`, `expiresAt - t` is
`d * 86400000`, where `d` is `record.validDays` when that is an integer other than 0, and 7
when the field is absent or is 0, as long as `|t| + |d| * 86400000` is below `2 ^ 53`, where
the arithmetic of doubles is exact. -/
theorem C4_expiry_arithmetic (rt : Runtime) (env : Env) (st : State) (event : Event)
    (record d : JSVal) (c : String) (e : Option Int)
    (hok : (handler rt env st event).1.body = .matched d c e)
    (hrec : consultedRecord rt env st event = some record) :
    (∀ n, field record "validDays" = .json (.num n) → n ≠ 0 →
      |env.now| + |n| * 86400000 < 2 ^ 53 →
      ∃ x, e = some x ∧ x - env.now = n * 86400000) ∧
    (field record "validDays" = .undefined ∨ field record "validDays" = .json (.num 0) →
      |env.now| + 7 * 86400000 < 2 ^ 53 →
      ∃ x, e = some x ∧ x - env.now = 7 * 86400000) := by
  obtain ⟨id, record1, hrec1, hissue⟩ := matched_inv rt env st event d c e hok
  rw [hrec] at hrec1
  cases hrec1
  obtain ⟨-, hexp⟩ := issue_inv rt env id record d c e hissue
  constructor
  · intro n hn hn0 hrange
    have : orElse (field record "validDays") (.json (.num 7)) = .json (.num n) := by
      simp [orElse, hn, JSVal.truthy, JSON.truthy, hn0]
    rw [this, expiry_num, expiry_exact env.now n hrange] at hexp
    cases hexp
    exact ⟨_, rfl, by ring⟩
  · intro h hrange
    have : orElse (field record "validDays") (.json (.num 7)) = .json (.num 7) := by
      rcases h with h | h <;> simp [orElse, h, JSVal.truthy, JSON.truthy]
    rw [this, expiry_num, expiry_exact env.now 7 (by simpa using hrange)] at hexp
    cases hexp
    exact ⟨_, rfl, by ring⟩

/-- Claim C4, witness: the theorem at a concrete input. -/
theorem C4_witness :
    (∀ n, field (.json vanillaRecord) "validDays" = .json (.num n) → n ≠ 0 →
      |sampleEnv.now| + |n| * 86400000 < 2 ^ 53 →
      ∃ x, some (1700259200000 : Int) = some x ∧ x - sampleEnv.now = n * 86400000) ∧
    (field (.json vanillaRecord) "validDays" = .undefined ∨
        field (.json vanillaRecord) "validDays" = .json (.num 0) →
      |sampleEnv.now| + 7 * 86400000 < 2 ^ 53 →
      ∃ x, some (1700259200000 : Int) = some x ∧ x - sampleEnv.now = 7 * 86400000) :=
  C4_expiry_arithmetic sampleRuntime sampleEnv State.init (post (request "vanilla" "vainilla"))
    (.json vanillaRecord) (.json (.num 15)) "SOFKA-vanilla-4FZYO8" (some 1700259200000) rfl rfl

/-- Claim C5, counterexample. A record with `discount: 0` is matched and the response carries
the discount 10, not 0. -/
theorem C5_counterexample :
    consultedRecord sampleRuntime zeroEnv State.init (post (request "vanilla" "vainilla")) =
      some (.json zeroRecord) ∧
    field (.json zeroRecord) "discount" = .json (.num 0) ∧
    (handler sampleRuntime zeroEnv State.init (post (request "vanilla" "vainilla"))).1.body =
      .matched (.json (.num 10)) "SOFKA-vanilla-4FZYO8" (some 1700604800000) :=
  ⟨rfl, rfl, rfl⟩

/-- Claim C5, amended. For every successful match, the discount in the response body is
`record.discount` when that is a number other than 0, and 10 when the field is absent or
is 0. -/
theorem C5_discount_default (rt : Runtime) (env : Env) (st : State) (event : Event)
    (record d : JSVal) (c : String) (e : Option Int)
    (hok : (handler rt env st event).1.body = .matched d c e)
    (hrec : consultedRecord rt env st event = some record) :
    (∀ n, field record "discount" = .json (.num n) → n ≠ 0 → d = .json (.num n)) ∧
    (field record "discount" = .undefined ∨ field record "discount" = .json (.num 0) →
      d = .json (.num 10)) := by
  obtain ⟨id, record1, hrec1, hissue⟩ := matched_inv rt env st event d c e hok
  rw [hrec] at hrec1
  cases hrec1
  obtain ⟨hd, -⟩ := issue_inv rt env id record d c e hissue
  subst hd
  constructor
  · intro n hn hn0
    simp [orElse, hn, JSVal.truthy, JSON.truthy, hn0]
  · intro h
    rcases h with h | h <;> simp [orElse, h, JSVal.truthy, JSON.truthy]

/-- Claim C5, witness: the theorem at a concrete input. -/
theorem C5_witness :
    (∀ n, field (.json vanillaRecord) "discount" = .json (.num n) → n ≠ 0 →
      JSVal.json (.num 15) = .json (.num n)) ∧
    (field (.json vanillaRecord) "discount" = .undefined ∨
        field (.json vanillaRecord) "discount" = .json (.num 0) →
      JSVal.json (.num 15) = .json (.num 10)) :=
  C5_discount_default sampleRuntime sampleEnv State.init (post (request "vanilla" "vainilla"))
    (.json vanillaRecord) (.json (.num 15)) "SOFKA-vanilla-4FZYO8" (some 1700259200000) rfl rfl

/-- Claim C8, the code at the failing input. The body text `null` is valid JSON in which id and
guess are missing, and the handler answers 500, not 400: the destructuring of line 64 throws,
whatever the secret, the catalog and the state. -/
theorem C8_null_body_is_500 (rt : Runtime) (env : Env) (st : State) :
    handler rt env st (post .null) =
      (⟨500, .errorDetail "Error interno" "Cannot destructure property id of body as it is null."⟩,
        st) := rfl

/-- For a POST request whose body is absent, or is valid JSON other than `null`, and in which id
or guess is missing (or falsy), the handler answers 400 and leaves the state as it is, whatever
the secret, the sig and the catalog are. -/
theorem missing_parameter_is_400 (rt : Runtime) (env : Env) (st : State) (event : Event)
    (body : JSON) (id guess sig : JSVal)
    (hpost : event.httpMethod = some "POST")
    (hbody : parseBody event.body = .ok body)
    (hfields : destructure body = .ok (id, guess, sig))
    (hmissing : id.truthy = false ∨ guess.truthy = false) :
    handler rt env st event = (⟨400, .error "Faltan parámetros: id, guess"⟩, st) := by
  have : (!id.truthy || !guess.truthy) = true := by
    rcases hmissing with h | h <;> simp [h]
  simp [handler, hpost, tryBlock, hbody, hfields, this]

/-- An absent body is read as `{}` and answered with 400. -/
theorem absent_body_is_400 (rt : Runtime) (env : Env) (st : State) :
    handler rt env st ⟨some "POST", .absent⟩ = (⟨400, .error "Faltan parámetros: id, guess"⟩, st) :=
  rfl

/-- Every JSON value but `null` can be destructured. -/
theorem destructure_ok (body : JSON) (h : body ≠ .null) : ∃ t, destructure body = .ok t := by
  cases body <;> simp [destructure] at h ⊢

/-- Claim C9, the code at the failing input. The sample catalog has no record named
`constructor`, yet a request for that id is not answered with 404: `catalog[id]` finds the
property inherited from `Object.prototype`, the guess is compared with the empty aroma, and the
answer is 200, with `ok: false` for the guess `vainilla` and with a code for the guess made of
one space. -/
theorem C9_inherited_name_is_not_404 (rt : Runtime) :
    List.lookup "constructor" [("vanilla", vanillaRecord)] = none ∧
    (handler rt sampleEnv State.init (post (request "constructor" "vainilla"))).1 =
      ⟨200, .notMatched⟩ ∧
    (handler rt sampleEnv State.init (post (request "constructor" " "))).1 =
      ⟨200, .matched (.json (.num 10)) "SOFKA-constructor-4FZYO8" (some 1700604800000)⟩ :=
  ⟨rfl, rfl, rfl⟩

/-- When the signature check passes and `catalog[id]` is falsy (the catalog has no property of
that name, own or inherited, or a falsy one), the handler answers 404. -/
theorem unregistered_is_404 (rt : Runtime) (env : Env) (st : State) (event : Event)
    (body catalog : JSON) (id guess sig record : JSVal)
    (hpost : event.httpMethod = some "POST")
    (hbody : parseBody event.body = .ok body)
    (hfields : destructure body = .ok (id, guess, sig))
    (hid : id.truthy = true) (hguess : guess.truthy = true)
    (hsig : verifySig rt id sig (env.SOFKA_SECRET.getD "") = .ok true)
    (hcat : (loadCatalog env.asset st).1 = .ok catalog)
    (hrec : lookupRecord rt catalog id = .ok record) (hfalsy : record.truthy = false) :
    (handler rt env st event).1 = ⟨404, .error "ID no registrado"⟩ := by
  rcases hl : loadCatalog env.asset st with ⟨r, st1⟩
  rw [hl] at hcat
  simp only at hcat
  subst hcat
  simp [handler, hpost, tryBlock, hbody, hfields, hid, hguess, hsig, hl, answer, hrec, hfalsy]

theorem issue_status (rt : Runtime) (env : Env) (id record : JSVal) (r : Response)
    (h : issue rt env id record = .ok r) : r.statusCode = 200 := by
  cases hg : genCode id env.random with
  | error m => simp [issue, hg] at h
  | ok code =>
  cases hx : expiry rt env.now (orElse (field record "validDays") (.json (.num 7))) with
  | error m => simp [issue, hg, hx] at h
  | ok x =>
    simp [issue, hg, hx] at h
    rw [← h]

theorem answer_status (rt : Runtime) (env : Env) (catalog : JSON) (id guess : JSVal)
    (r : Response) (h : answer rt env catalog id guess = .ok r) :
    (r.statusCode = 404 ∧ ∃ record, lookupRecord rt catalog id = .ok record ∧
      record.truthy = false) ∨ r.statusCode = 200 := by
  cases hr : lookupRecord rt catalog id with
  | error m => simp [answer, hr] at h
  | ok record =>
  cases htr : record.truthy with
  | false =>
    simp [answer, hr, htr] at h
    exact Or.inl ⟨by rw [← h], record, rfl, htr⟩
  | true =>
  cases hm : isMatch guess record with
  | error m => simp [answer, hr, htr, hm] at h
  | ok b =>
  cases b with
  | false =>
    simp [answer, hr, htr, hm] at h
    exact Or.inr (by rw [← h])
  | true =>
    simp [answer, hr, htr, hm] at h
    exact Or.inr (issue_status rt env id record r h)

theorem tryBlock_status (rt : Runtime) (env : Env) (st : State) (event : Event) (r : Response)
    (h : (tryBlock rt env st event).1 = .ok r) :
    r.statusCode = 200 ∨ r.statusCode = 400 ∨ r.statusCode = 401 ∨ r.statusCode = 404 := by
  cases hb : parseBody event.body with
  | error m => simp [tryBlock, hb] at h
  | ok body =>
  cases hd : destructure body with
  | error m => simp [tryBlock, hb, hd] at h
  | ok t =>
  obtain ⟨id, guess, sig⟩ := t
  cases ht : (!id.truthy || !guess.truthy) with
  | true =>
    simp [tryBlock, hb, hd, ht] at h
    exact Or.inr (Or.inl (by rw [← h]))
  | false =>
  cases hv : verifySig rt id sig (env.SOFKA_SECRET.getD "") with
  | error m => simp [tryBlock, hb, hd, ht, hv] at h
  | ok b =>
  cases b with
  | false =>
    simp [tryBlock, hb, hd, ht, hv] at h
    exact Or.inr (Or.inr (Or.inl (by rw [← h])))
  | true =>
  rcases hl : loadCatalog env.asset st with ⟨c, st1⟩
  cases c with
  | error m => simp [tryBlock, hb, hd, ht, hv, hl] at h
  | ok catalog =>
    simp [tryBlock, hb, hd, ht, hv, hl] at h
    rcases answer_status rt env catalog id guess r h with h1 | h1
    · exact Or.inr (Or.inr (Or.inr h1.1))
    · exact Or.inl h1

/-- Claim C10. The handler returns a response for every event, runtime, environment and state;
its status is one of 200, 400, 401, 404, 405 and 500; and for a POST request every exception
thrown in the `try` block (by the body parse, the signature comparison, the catalog load, the
normalization or anything else) is answered with status 500 and the body
`{error: "Error interno", detail: <message>}`. -/
theorem C10_total (rt : Runtime) (env : Env) (st : State) (event : Event) :
    (handler rt env st event).1.statusCode ∈ [200, 400, 401, 404, 405, 500] ∧
    (event.httpMethod = some "POST" → ∀ e, (tryBlock rt env st event).1 = .error e →
      (handler rt env st event).1 = ⟨500, .errorDetail "Error interno" e⟩) := by
  constructor
  · by_cases h1 : event.httpMethod = some "OPTIONS"
    · simp [handler, h1]
    by_cases h2 : event.httpMethod = some "POST"
    swap
    · simp [handler, h1, h2]
    rcases ht : tryBlock rt env st event with ⟨r, st1⟩
    cases r with
    | error m => simp [handler, h1, h2, ht]
    | ok r =>
      have := tryBlock_status rt env st event r (by rw [ht])
      simp [handler, h1, h2, ht]
      omega
  · intro hpost e he
    rcases ht : tryBlock rt env st event with ⟨r, st1⟩
    rw [ht] at he
    simp only at he
    subst he
    simp [handler, hpost, ht]

/-- Claim C10, witness: the theorem at a concrete input. -/
theorem C10_witness :
    (handler sampleRuntime sampleEnv State.init
        ⟨some "POST", .text (.error "Unexpected end of JSON input")⟩).1 =
      ⟨500, .errorDetail "Error interno" "Unexpected end of JSON input"⟩ :=
  (C10_total sampleRuntime sampleEnv State.init
    ⟨some "POST", .text (.error "Unexpected end of JSON input")⟩).2 rfl _ rfl

/-- The sources of failure that the specification names, each answered with 500: a body that
does not parse, a body that is `null`, a signature of the wrong length, a catalog asset that
cannot be loaded, and a guess that is not a string. -/
theorem failures_are_500 (rt : Runtime) (m : String) :
    (handler rt sampleEnv State.init ⟨some "POST", .text (.error m)⟩).1 =
      ⟨500, .errorDetail "Error interno" m⟩ ∧
    (handler sampleRuntime { sampleEnv with SOFKA_SECRET := some "s3cret" } State.init
        (post (signedRequest "vanilla" "vainilla" "abc"))).1 =
      ⟨500, .errorDetail "Error interno" "Input buffers must have the same byte length"⟩ ∧
    (handler rt { sampleEnv with asset := .error m } State.init
        (post (request "vanilla" "vainilla"))).1 =
      ⟨500, .errorDetail "Error interno" m⟩ ∧
    (handler rt sampleEnv State.init
        (post (.obj [("id", .str "vanilla"), ("guess", .num 5)]))).1 =
      ⟨500, .errorDetail "Error interno" "s.normalize is not a function"⟩ :=
  ⟨rfl, rfl, rfl, rfl⟩

/-- When `catalog[id]` is truthy, the handler does not answer 404. -/
theorem registered_is_not_404 (rt : Runtime) (env : Env) (st : State) (event : Event)
    (record : JSVal) (hrec : consultedRecord rt env st event = some record)
    (htruthy : record.truthy = true) :
    (handler rt env st event).1.statusCode ≠ 404 := by
  intro h404
  by_cases h1 : event.httpMethod = some "OPTIONS"
  · simp [handler, h1] at h404
  by_cases h2 : event.httpMethod = some "POST"
  swap
  · simp [handler, h1, h2] at h404
  cases hb : parseBody event.body with
  | error m => simp [handler, h1, h2, tryBlock, hb] at h404
  | ok body =>
  cases hd : destructure body with
  | error m => simp [handler, h1, h2, tryBlock, hb, hd] at h404
  | ok t =>
  obtain ⟨id, guess, sig⟩ := t
  cases ht : (!id.truthy || !guess.truthy) with
  | true => simp [handler, h1, h2, tryBlock, hb, hd, ht] at h404
  | false =>
  cases hv : verifySig rt id sig (env.SOFKA_SECRET.getD "") with
  | error m => simp [handler, h1, h2, tryBlock, hb, hd, ht, hv] at h404
  | ok b =>
  cases b with
  | false => simp [handler, h1, h2, tryBlock, hb, hd, ht, hv] at h404
  | true =>
  rcases hl : loadCatalog env.asset st with ⟨c, st1⟩
  cases c with
  | error m => simp [handler, h1, h2, tryBlock, hb, hd, ht, hv, hl] at h404
  | ok catalog =>
  simp [consultedRecord, hb, hd, hl] at hrec
  cases hr : lookupRecord rt catalog id with
  | error m => simp [hr] at hrec
  | ok record1 =>
  simp [hr] at hrec
  subst hrec
  cases ha : answer rt env catalog id guess with
  | error m => simp [handler, h1, h2, tryBlock, hb, hd, ht, hv, hl, ha] at h404
  | ok r =>
    simp [handler, h1, h2, tryBlock, hb, hd, ht, hv, hl, ha] at h404
    rcases answer_status rt env catalog id guess r ha with ⟨-, rec2, hr2, hf⟩ | h200
    · rw [hr] at hr2
      cases hr2
      rw [htruthy] at hf
      cases hf
    · omega

/-! ## The text normalizer -/

/-- What `find` returns is the value of a range of the table that holds the code point. -/
theorem Tbl.find_mem {α : Type} (t : Tbl α) (c : Nat) (v : α) (h : t.find c = some v) :
    ∃ lo hi, (lo, hi, v) ∈ t.entries ∧ lo ≤ c ∧ c ≤ hi := by
  induction t with
  | leaf => simp [Tbl.find] at h
  | node l lo hi w r ihl ihr =>
    simp only [Tbl.find] at h
    cases h1 : Nat.ble lo c with
    | false =>
      rw [h1, cond_false] at h
      obtain ⟨a, b, hm, hab⟩ := ihl h
      exact ⟨a, b, by simp [Tbl.entries, hm], hab⟩
    | true =>
      rw [h1, cond_true] at h
      cases h2 : Nat.ble c hi with
      | false =>
        rw [h2, cond_false] at h
        obtain ⟨a, b, hm, hab⟩ := ihr h
        exact ⟨a, b, by simp [Tbl.entries, hm], hab⟩
      | true =>
        rw [h2, cond_true] at h
        cases h
        exact ⟨lo, hi, by simp [Tbl.entries], Nat.le_of_ble_eq_true h1, Nat.le_of_ble_eq_true h2⟩

theorem decompTable_ok : decompTable.entries.all decompEntryOk = true := by decide!

theorem lowerTable_ok : lowerTable.entries.all lowerEntryOk = true := by decide!

theorem mem_whiteSpaces (c : Nat) (h : isWhiteSpace c = true) : c ∈ whiteSpaces := by
  simp only [isWhiteSpace, Bool.or_eq_true, decide_eq_true_eq, Bool.and_eq_true, or_assoc] at h
  simp only [whiteSpaces, List.mem_cons, List.mem_singleton, List.not_mem_nil, or_false]
  omega

theorem whiteSpaces_ok : whiteSpaces.all (fun c => isWhiteSpace c && ccc c == 0 && !isMark c &&
    isScalar c && (lowerTable.find c).isNone && c != 0x3A3 && c != 0x34F &&
    match decompose c with
    | [d] => isWhiteSpace d
    | _ => false) = true := by decide!

theorem jamo_ok : ∀ n < 195, decompose (0x1100 + n) = [0x1100 + n] ∧
    isScalar (0x1100 + n) = true := by decide!

theorem marks_ok : ∀ n < 112, 0x300 + n ≠ 0x34F → ccc (0x300 + n) ≠ 0 := by decide!

theorem sigma_ok : [0x3C2, 0x3C3].all (fun d => decompose d == [d] && ccc d == 0 && !isMark d &&
    !isWhiteSpace d && (lowerTable.find d).isNone && isScalar d) = true ∧
    decompose 0x3A3 = [0x3A3] ∧ ccc 0x3A3 = 0 ∧ (lowerTable.find 0x3A3).isSome = true ∧
    isCased 0x3A3 = true ∧ isCaseIgnorable 0x3A3 = false := by decide!

theorem ascii_letters_ok : ∀ n < 26,
    decompose (65 + n) = [65 + n] ∧ decompose (97 + n) = [97 + n] ∧
    ccc (65 + n) = 0 ∧ ccc (97 + n) = 0 ∧
    lowerChar (65 + n) = [97 + n] ∧ lowerChar (97 + n) = [97 + n] ∧
    isCased (65 + n) = true ∧ isCased (97 + n) = true ∧
    isCaseIgnorable (65 + n) = false ∧ isCaseIgnorable (97 + n) = false := by decide!

/-! ### Facts about single code points -/

theorem decompose_of_not_hangul (c : Nat) (h : isHangulSyllable c = false) :
    decompose c = (decompTable.find c).getD [c] := by
  simp [decompose, h]

theorem decompEntry_of_find (c : Nat) (out : List Nat) (h : decompTable.find c = some out) :
    c ≠ 0x34F ∧ ∀ d ∈ out, isScalar d = true ∧ decompose d = [d] ∧ d ≠ 0x34F := by
  obtain ⟨lo, hi, hm, h1, h2⟩ := Tbl.find_mem _ _ _ h
  have := List.all_eq_true.mp decompTable_ok _ hm
  simp only [decompEntryOk, Bool.and_eq_true, beq_iff_eq, bne_iff_ne, ne_eq, List.all_eq_true] at this
  obtain ⟨⟨h3, h4⟩, h5⟩ := this
  have hc : c = lo := by omega
  subst hc
  exact ⟨h4, fun d hd => ⟨(h5 d hd).1.1, (h5 d hd).1.2, (h5 d hd).2⟩⟩

theorem hangul_parts (c : Nat) (h : isHangulSyllable c = true) (d : Nat) (hd : d ∈ decompose c) :
    ∃ n, n < 195 ∧ d = 0x1100 + n := by
  simp only [isHangulSyllable, Bool.and_eq_true, decide_eq_true_eq] at h
  simp only [decompose, isHangulSyllable, h.1, h.2, decide_True, Bool.and_self, if_true] at hd
  split at hd
  · simp only [List.mem_cons, List.mem_singleton, List.not_mem_nil, or_false] at hd
    rcases hd with hd | hd
    · exact ⟨(c - 0xAC00) / 588, by omega, hd⟩
    · exact ⟨0x61 + (c - 0xAC00) % 588 / 28, by omega, by omega⟩
  · simp only [List.mem_cons, List.mem_singleton, List.not_mem_nil, or_false] at hd
    rcases hd with hd | hd | hd
    · exact ⟨(c - 0xAC00) / 588, by omega, hd⟩
    · exact ⟨0x61 + (c - 0xAC00) % 588 / 28, by omega, by omega⟩
    · exact ⟨0xA7 + (c - 0xAC00) % 28, by omega, by omega⟩

/-- Every code point of a decomposition is fully decomposed. -/
theorem decompose_decomposed (c d : Nat) (hd : d ∈ decompose c) : decompose d = [d] := by
  cases hh : isHangulSyllable c with
  | true =>
    obtain ⟨n, hn, rfl⟩ := hangul_parts c hh d hd
    exact (jamo_ok n hn).1
  | false =>
    rw [decompose_of_not_hangul c hh] at hd
    cases hf : decompTable.find c with
    | none =>
      simp [hf] at hd
      subst hd
      simp [decompose_of_not_hangul, hh, hf]
    | some out =>
      simp [hf] at hd
      exact ((decompEntry_of_find c out hf).2 d hd).2.1

/-- The decomposition of a scalar value consists of scalar values. -/
theorem decompose_scalar (c d : Nat) (hc : isScalar c = true) (hd : d ∈ decompose c) :
    isScalar d = true := by
  cases hh : isHangulSyllable c with
  | true =>
    obtain ⟨n, hn, rfl⟩ := hangul_parts c hh d hd
    exact (jamo_ok n hn).2
  | false =>
    rw [decompose_of_not_hangul c hh] at hd
    cases hf : decompTable.find c with
    | none =>
      simp [hf] at hd
      subst hd
      exact hc
    | some out =>
      simp [hf] at hd
      exact ((decompEntry_of_find c out hf).2 d hd).1

/-- No decomposition brings in U+034F. -/
theorem decompose_ne_cgj (c d : Nat) (hc : c ≠ 0x34F) (hd : d ∈ decompose c) : d ≠ 0x34F := by
  cases hh : isHangulSyllable c with
  | true =>
    obtain ⟨n, hn, rfl⟩ := hangul_parts c hh d hd
    omega
  | false =>
    rw [decompose_of_not_hangul c hh] at hd
    cases hf : decompTable.find c with
    | none =>
      simp [hf] at hd
      subst hd
      exact hc
    | some out =>
      simp [hf] at hd
      exact ((decompEntry_of_find c out hf).2 d hd).2.2

theorem whiteSpace_facts (c : Nat) (h : isWhiteSpace c = true) :
    ccc c = 0 ∧ isMark c = false ∧ isScalar c = true ∧ lowerTable.find c = none ∧ c ≠ 0x3A3 ∧
    c ≠ 0x34F ∧ ∃ d, decompose c = [d] ∧ isWhiteSpace d = true := by
  have := List.all_eq_true.mp whiteSpaces_ok c (mem_whiteSpaces c h)
  simp only [Bool.and_eq_true, beq_iff_eq, bne_iff_ne, ne_eq, Bool.not_eq_true',
    Option.isNone_iff_eq_none] at this
  obtain ⟨⟨⟨⟨⟨⟨⟨-, h1⟩, h2⟩, h3⟩, h4⟩, h5⟩, h6⟩, h7⟩ := this
  refine ⟨h1, h2, h3, h4, h5, h6, ?_⟩
  split at h7
  · rename_i d hd
    exact ⟨d, hd, h7⟩
  · cases h7

theorem mark_ccc (c : Nat) (h : isMark c = true) (hc : c ≠ 0x34F) : ccc c ≠ 0 := by
  simp only [isMark, Bool.and_eq_true, decide_eq_true_eq] at h
  have := marks_ok (c - 0x300) (by omega)
  rw [show 0x300 + (c - 0x300) = c by omega] at this
  exact this hc

/-- What the lowercase mapping makes of a fully decomposed code point outside U+0300..U+036F
other than the capital sigma. -/
theorem lowerChar_facts (c : Nat) (hd : decompose c = [c]) (hm : isMark c = false)
    (hs : c ≠ 0x3A3) :
    ∃ d, lowerChar c = [d] ∧ decompose d = [d] ∧ ccc d = ccc c ∧ isMark d = false ∧
      isWhiteSpace d = isWhiteSpace c ∧ (isWhiteSpace c = true → d = c) ∧
      lowerChar d = [d] ∧ d ≠ 0x3A3 ∧ (isScalar c = true → isScalar d = true) := by
  cases hf : lowerTable.find c with
  | none =>
    exact ⟨c, by simp [lowerChar, hf], hd, rfl, hm, rfl, fun _ => rfl, by simp [lowerChar, hf], hs,
      fun h => h⟩
  | some out =>
    obtain ⟨lo, hi, hmem, h1, h2⟩ := Tbl.find_mem _ _ _ hf
    have := List.all_eq_true.mp lowerTable_ok _ hmem
    simp only [lowerEntryOk, Bool.and_eq_true, beq_iff_eq, Bool.or_eq_true, bne_iff_ne, ne_eq,
      List.all_eq_true, Bool.not_eq_true'] at this
    obtain ⟨⟨⟨h3, h4⟩, h5⟩, h6⟩ := this
    have hc : c = lo := by omega
    subst hc
    rcases h6 with (h6 | h6) | h6
    · exact absurd hd h6
    · rw [hm] at h6; cases h6
    · split at h6
      · rename_i d
        simp only [Bool.and_eq_true, beq_iff_eq, Bool.not_eq_true', bne_iff_ne, ne_eq,
          Option.isNone_iff_eq_none] at h6
        obtain ⟨⟨⟨⟨⟨g1, g2⟩, g3⟩, g4⟩, g5⟩, g6⟩ := h6
        refine ⟨d, by simp [lowerChar, hf], g1, g2, g3, by rw [g4, h5], ?_, by simp [lowerChar, g5],
          g6, fun _ => h4 d (by simp)⟩
        intro hw
        rw [h5] at hw
        cases hw
      · cases h6

/-! ### The canonical ordering -/

theorem insertMark_head (c : Nat) (l : List Nat) :
    (insertMark c l).head? = some c ∨
      ∃ d, l.head? = some d ∧ (insertMark c l).head? = some d ∧ ccc d < ccc c := by
  cases l with
  | nil => simp [insertMark]
  | cons d ds =>
    by_cases h : 0 < ccc d ∧ ccc d < ccc c
    · right
      exact ⟨d, rfl, by simp [insertMark, h], h.2⟩
    · left
      simp [insertMark, h]

theorem ordered_insertMark (c : Nat) (l : List Nat) (h : Ordered l) : Ordered (insertMark c l) := by
  induction l with
  | nil => simp [insertMark, Ordered]
  | cons d ds ih =>
    unfold Ordered at h ih ⊢
    rw [List.chain'_cons'] at h
    by_cases hc : 0 < ccc d ∧ ccc d < ccc c
    · simp only [insertMark, hc, and_self, if_true]
      rw [List.chain'_cons']
      refine ⟨?_, ih h.2⟩
      intro y hy
      rcases insertMark_head c ds with h1 | ⟨e, h1, h2, -⟩
      · rw [h1] at hy
        cases hy
        right
        omega
      · rw [h2] at hy
        cases hy
        exact h.1 y h1
    · simp only [insertMark, hc, if_false]
      rw [List.chain'_cons']
      refine ⟨?_, List.chain'_cons'.mpr h⟩
      intro y hy
      cases hy
      omega

theorem ordered_canonicalOrder (l : List Nat) : Ordered (canonicalOrder l) := by
  induction l with
  | nil => simp [canonicalOrder, Ordered]
  | cons c cs ih => exact ordered_insertMark c _ ih

/-- The canonical ordering leaves a list in canonical order as it is. -/
theorem canonicalOrder_of_ordered (l : List Nat) (h : Ordered l) : canonicalOrder l = l := by
  induction l with
  | nil => rfl
  | cons c cs ih =>
    unfold Ordered at h ih
    rw [List.chain'_cons'] at h
    rw [canonicalOrder, ih h.2]
    cases cs with
    | nil => rfl
    | cons d ds =>
      have := h.1 d rfl
      have hc : ¬ (0 < ccc d ∧ ccc d < ccc c) := by omega
      simp [insertMark, hc]

theorem mem_insertMark (x c : Nat) (l : List Nat) : x ∈ insertMark c l ↔ x = c ∨ x ∈ l := by
  induction l with
  | nil => simp [insertMark]
  | cons d ds ih =>
    by_cases hc : 0 < ccc d ∧ ccc d < ccc c
    · simp only [insertMark, hc, and_self, if_true, List.mem_cons, ih]
      tauto
    · simp [insertMark, hc]

theorem mem_canonicalOrder (x : Nat) (l : List Nat) : x ∈ canonicalOrder l ↔ x ∈ l := by
  induction l with
  | nil => simp [canonicalOrder]
  | cons c cs ih => simp [canonicalOrder, mem_insertMark, ih]

theorem insertMark_append_starter (c y : Nat) (a z : List Nat) (hy : ccc y = 0) :
    insertMark c (a ++ y :: z) = insertMark c a ++ y :: z := by
  induction a with
  | nil =>
    have : ¬ (0 < ccc y ∧ ccc y < ccc c) := by omega
    simp [insertMark, this]
  | cons d ds ih =>
    by_cases hc : 0 < ccc d ∧ ccc d < ccc c
    · simp [insertMark, hc, ih]
    · simp [insertMark, hc]

theorem canonicalOrder_starter (y : Nat) (z : List Nat) (hy : ccc y = 0) :
    canonicalOrder (y :: z) = y :: canonicalOrder z := by
  rw [canonicalOrder]
  cases canonicalOrder z with
  | nil => rfl
  | cons d ds =>
    have : ¬ (0 < ccc d ∧ ccc d < ccc y) := by omega
    simp [insertMark, this]

/-- The canonical ordering does not move a code point across a starter. -/
theorem canonicalOrder_append_starter (a z : List Nat) (y : Nat) (hy : ccc y = 0) :
    canonicalOrder (a ++ y :: z) = canonicalOrder a ++ y :: canonicalOrder z := by
  induction a with
  | nil => simpa using canonicalOrder_starter y z hy
  | cons c cs ih =>
    rw [List.cons_append, canonicalOrder, ih, insertMark_append_starter c y _ _ hy]
    rfl

theorem canonicalOrder_starters (w z : List Nat) (hw : ∀ x ∈ w, ccc x = 0) :
    canonicalOrder (w ++ z) = w ++ canonicalOrder z := by
  induction w with
  | nil => rfl
  | cons y ys ih =>
    rw [List.cons_append, canonicalOrder_starter y _ (hw y (by simp)),
      ih (fun x hx => hw x (by simp [hx]))]
    rfl

/-- A list of fully decomposed code points in canonical order is its own NFD. -/
theorem nfd_of_ordered (l : List Nat) (hd : ∀ c ∈ l, decompose c = [c]) (ho : Ordered l) :
    nfd l = l := by
  have : ∀ l : List Nat, (∀ c ∈ l, decompose c = [c]) → l.flatMap decompose = l := by
    intro l
    induction l with
    | nil => intro _; rfl
    | cons c cs ih =>
      intro hd
      rw [List.flatMap_cons, hd c (by simp), ih (fun x hx => hd x (by simp [hx]))]
      rfl
  rw [nfd, this l hd, canonicalOrder_of_ordered l ho]

theorem mem_nfd (x : Nat) (l : List Nat) : x ∈ nfd l ↔ ∃ c ∈ l, x ∈ decompose c := by
  simp [nfd, mem_canonicalOrder, List.mem_flatMap]

theorem ordered_nfd (l : List Nat) : Ordered (nfd l) := ordered_canonicalOrder _

theorem nfd_decomposed (l : List Nat) (x : Nat) (hx : x ∈ nfd l) : decompose x = [x] := by
  obtain ⟨c, -, hc⟩ := (mem_nfd x l).mp hx
  exact decompose_decomposed c x hc

/-! ### The removal of marks -/

theorem chain_skip (a x : Nat) (l : List Nat) (hax : ccc x = 0 ∨ ccc a ≤ ccc x) (hx : ccc x ≠ 0)
    (h : List.Chain (fun a b => ccc b = 0 ∨ ccc a ≤ ccc b) x l) :
    List.Chain (fun a b => ccc b = 0 ∨ ccc a ≤ ccc b) a l := by
  cases l with
  | nil => exact List.Chain.nil
  | cons y ys =>
    rw [List.chain_cons] at h ⊢
    refine ⟨?_, h.2⟩
    have := h.1
    omega

theorem chain_filter (p : Nat → Bool) (l : List Nat) (a : Nat)
    (hp : ∀ x ∈ l, p x = false → ccc x ≠ 0)
    (h : List.Chain (fun a b => ccc b = 0 ∨ ccc a ≤ ccc b) a l) :
    List.Chain (fun a b => ccc b = 0 ∨ ccc a ≤ ccc b) a (l.filter p) := by
  induction l generalizing a with
  | nil => exact List.Chain.nil
  | cons x xs ih =>
    rw [List.chain_cons] at h
    have hp2 : ∀ y ∈ xs, p y = false → ccc y ≠ 0 := fun y hy => hp y (by simp [hy])
    cases hpx : p x with
    | true =>
      rw [List.filter_cons_of_pos (by simpa using hpx), List.chain_cons]
      exact ⟨h.1, ih x hp2 h.2⟩
    | false =>
      rw [List.filter_cons_of_neg (by simp [hpx])]
      exact ih a hp2 (chain_skip a x xs h.1 (hp x (by simp) hpx) h.2)

/-- Canonical order survives the removal of marks that are not starters. -/
theorem ordered_filter (p : Nat → Bool) (l : List Nat)
    (hp : ∀ x ∈ l, p x = false → ccc x ≠ 0) (h : Ordered l) : Ordered (l.filter p) := by
  induction l with
  | nil => simp [Ordered]
  | cons x xs ih =>
    have hp2 : ∀ y ∈ xs, p y = false → ccc y ≠ 0 := fun y hy => hp y (by simp [hy])
    unfold Ordered at h ih ⊢
    cases hpx : p x with
    | true =>
      rw [List.filter_cons_of_pos (by simpa using hpx)]
      exact chain_filter p xs x hp2 h
    | false =>
      rw [List.filter_cons_of_neg (by simp [hpx])]
      exact ih hp2 (List.Chain'.tail h)

theorem ordered_stripMarks (l : List Nat) (hcgj : 0x34F ∉ l) (h : Ordered l) :
    Ordered (stripMarks l) := by
  apply ordered_filter _ _ _ h
  intro x hx hm
  exact mark_ccc x (by simpa using hm) (fun h => hcgj (h ▸ hx))

theorem mem_stripMarks (x : Nat) (l : List Nat) :
    x ∈ stripMarks l ↔ x ∈ l ∧ isMark x = false := by
  simp [stripMarks]

theorem stripMarks_of_no_mark (l : List Nat) (h : ∀ c ∈ l, isMark c = false) :
    stripMarks l = l := by
  simp only [stripMarks, List.filter_eq_self]
  intro c hc
  simp [h c hc]

/-! ### The collapse of white space -/

theorem mem_collapseFrom (x : Nat) (b : Bool) (l : List Nat) (h : x ∈ collapseFrom b l) :
    x = 0x20 ∨ (x ∈ l ∧ isWhiteSpace x = false) := by
  induction l generalizing b with
  | nil => simp [collapseFrom] at h
  | cons c cs ih =>
    cases hc : isWhiteSpace c with
    | true =>
      cases b with
      | true =>
        simp only [collapseFrom, hc, if_true] at h
        rcases ih _ h with h | h
        · exact Or.inl h
        · exact Or.inr ⟨by simp [h.1], h.2⟩
      | false =>
        simp only [collapseFrom, hc, if_true, Bool.false_eq_true, if_false, List.mem_cons] at h
        rcases h with h | h
        · exact Or.inl h
        · rcases ih _ h with h | h
          · exact Or.inl h
          · exact Or.inr ⟨by simp [h.1], h.2⟩
    | false =>
      simp only [collapseFrom, hc, Bool.false_eq_true, if_false, List.mem_cons] at h
      rcases h with h | h
      · exact Or.inr ⟨by simp [h], h ▸ hc⟩
      · rcases ih _ h with h | h
        · exact Or.inl h
        · exact Or.inr ⟨by simp [h.1], h.2⟩

theorem collapseFrom_true_head (l : List Nat) :
    ∀ c ∈ (collapseFrom true l).head?, isWhiteSpace c = false := by
  induction l with
  | nil => simp [collapseFrom]
  | cons x xs ih =>
    cases hx : isWhiteSpace x with
    | true => simpa [collapseFrom, hx] using ih
    | false => simp [collapseFrom, hx]

theorem collapseFrom_chain (b : Bool) (l : List Nat) :
    List.Chain' (fun a b => ¬ (isWhiteSpace a = true ∧ isWhiteSpace b = true))
      (collapseFrom b l) := by
  induction l generalizing b with
  | nil => simp [collapseFrom]
  | cons x xs ih =>
    cases hx : isWhiteSpace x with
    | true =>
      cases b with
      | true => simpa [collapseFrom, hx] using ih true
      | false =>
        simp only [collapseFrom, hx, if_true, Bool.false_eq_true, if_false]
        rw [List.chain'_cons']
        refine ⟨?_, ih true⟩
        intro y hy
        simp [collapseFrom_true_head xs y hy]
    | false =>
      simp only [collapseFrom, hx, Bool.false_eq_true, if_false]
      rw [List.chain'_cons']
      exact ⟨fun y _ => by simp [hx], ih false⟩

theorem chain_of_starter (a : Nat) (l : List Nat) (ha : ccc a = 0) (h : Ordered l) :
    List.Chain (fun a b => ccc b = 0 ∨ ccc a ≤ ccc b) a l := by
  cases l with
  | nil => exact List.Chain.nil
  | cons y ys =>
    rw [List.chain_cons]
    exact ⟨by omega, h⟩

theorem chain_collapseFrom (l : List Nat) (b : Bool) (a : Nat)
    (h : List.Chain (fun a b => ccc b = 0 ∨ ccc a ≤ ccc b) a l) (hb : b = true → ccc a = 0) :
    List.Chain (fun a b => ccc b = 0 ∨ ccc a ≤ ccc b) a (collapseFrom b l) := by
  induction l generalizing a b with
  | nil => exact List.Chain.nil
  | cons x xs ih =>
    rw [List.chain_cons] at h
    have htail : Ordered xs := List.Chain'.tail (l := x :: xs) h.2
    cases hx : isWhiteSpace x with
    | true =>
      cases b with
      | true =>
        simp only [collapseFrom, hx, if_true]
        exact ih true a (chain_of_starter a xs (hb rfl) htail) hb
      | false =>
        simp only [collapseFrom, hx, if_true, Bool.false_eq_true, if_false]
        have h20 : ccc 0x20 = 0 := (whiteSpace_facts 0x20 (by decide)).1
        rw [List.chain_cons]
        exact ⟨Or.inl h20, ih true 0x20 (chain_of_starter _ xs h20 htail) (fun _ => h20)⟩
    | false =>
      simp only [collapseFrom, hx, Bool.false_eq_true, if_false]
      rw [List.chain_cons]
      exact ⟨h.1, ih false x h.2 (by simp)⟩

/-- The collapse of white space keeps canonical order. -/
theorem ordered_collapseWhiteSpace (l : List Nat) (h : Ordered l) :
    Ordered (collapseWhiteSpace l) := by
  cases l with
  | nil => simp [collapseWhiteSpace, collapseFrom, Ordered]
  | cons x xs =>
    have htail : Ordered xs := List.Chain'.tail h
    cases hx : isWhiteSpace x with
    | true =>
      simp only [collapseWhiteSpace, collapseFrom, hx, if_true, Bool.false_eq_true, if_false]
      have h20 : ccc 0x20 = 0 := (whiteSpace_facts 0x20 (by decide)).1
      exact chain_collapseFrom xs true 0x20 (chain_of_starter _ xs h20 htail) (fun _ => h20)
    | false =>
      simp only [collapseWhiteSpace, collapseFrom, hx, Bool.false_eq_true, if_false]
      exact chain_collapseFrom xs false x h (by simp)

theorem collapseFrom_of_normal (l : List Nat) (b : Bool)
    (h1 : ∀ c ∈ l, isWhiteSpace c = true → c = 0x20)
    (h2 : List.Chain' (fun a b => ¬ (isWhiteSpace a = true ∧ isWhiteSpace b = true)) l)
    (h3 : b = true → ∀ c ∈ l.head?, isWhiteSpace c = false) :
    collapseFrom b l = l := by
  induction l generalizing b with
  | nil => rfl
  | cons x xs ih =>
    rw [List.chain'_cons'] at h2
    have h1t : ∀ c ∈ xs, isWhiteSpace c = true → c = 0x20 := fun c hc => h1 c (by simp [hc])
    cases hx : isWhiteSpace x with
    | true =>
      cases b with
      | true =>
        have := h3 rfl x rfl
        rw [hx] at this
        cases this
      | false =>
        simp only [collapseFrom, hx, if_true, Bool.false_eq_true, if_false]
        rw [ih true h1t h2.2, h1 x (by simp) hx]
        intro _ c hc
        have := h2.1 c hc
        simpa [hx] using this
    | false =>
      simp only [collapseFrom, hx, Bool.false_eq_true, if_false]
      rw [ih false h1t h2.2 (by simp)]

theorem collapseFrom_append (b : Bool) (p r : List Nat) :
    collapseFrom b (p ++ r) = collapseFrom b p ++ collapseFrom (runAfter b p) r := by
  induction p generalizing b with
  | nil => rfl
  | cons x xs ih =>
    cases hx : isWhiteSpace x with
    | true =>
      cases b with
      | true => simp [collapseFrom, hx, runAfter, ih]
      | false => simp [collapseFrom, hx, runAfter, ih]
    | false => simp [collapseFrom, hx, runAfter, ih]

theorem collapseFrom_true_whiteSpace (w q : List Nat) (hw : ∀ c ∈ w, isWhiteSpace c = true) :
    collapseFrom true (w ++ q) = collapseFrom true q := by
  induction w with
  | nil => rfl
  | cons x xs ih =>
    simp [collapseFrom, hw x (by simp), ih (fun c hc => hw c (by simp [hc]))]

theorem collapseFrom_whiteSpace (b : Bool) (w : List Nat) (hw : ∀ c ∈ w, isWhiteSpace c = true) :
    ∀ c ∈ collapseFrom b w, isWhiteSpace c = true := by
  intro c hc
  rcases mem_collapseFrom c b w hc with h | h
  · subst h; decide
  · exact hw c h.1

/-! ### The trim -/

theorem trim_within (l : List Nat) : trim l <:+: l := by
  have h1 : trim l <+: l.dropWhile isWhiteSpace := List.rdropWhile_prefix _ _
  exact (h1.isInfix).trans (List.dropWhile_suffix _).isInfix

theorem mem_trim (x : Nat) (l : List Nat) (h : x ∈ trim l) : x ∈ l :=
  (trim_within l).subset h

theorem ordered_trim (l : List Nat) (h : Ordered l) : Ordered (trim l) :=
  List.Chain'.infix h (trim_within l)

theorem dropWhile_of_head (p : Nat → Bool) (l : List Nat) (h : ∀ c ∈ l.head?, p c = false) :
    l.dropWhile p = l := by
  cases l with
  | nil => rfl
  | cons x xs => simp [List.dropWhile, h x rfl]

theorem trim_of_ends (l : List Nat) (h1 : ∀ c ∈ l.head?, isWhiteSpace c = false)
    (h2 : ∀ c ∈ l.getLast?, isWhiteSpace c = false) : trim l = l := by
  rw [trim, dropWhile_of_head _ l h1, dropWhile_of_head _ l.reverse (by simpa using h2),
    List.reverse_reverse]

theorem trim_head (l : List Nat) : ∀ c ∈ (trim l).head?, isWhiteSpace c = false := by
  intro c hc
  have h1 : trim l <+: l.dropWhile isWhiteSpace := List.rdropWhile_prefix _ _
  obtain ⟨t, ht⟩ := h1
  cases htl : trim l with
  | nil => simp [htl] at hc
  | cons y ys =>
    rw [htl] at hc ht
    simp at hc
    subst hc
    have := List.head?_dropWhile_not isWhiteSpace l
    rw [← ht] at this
    simpa using this

theorem trim_last (l : List Nat) : ∀ c ∈ (trim l).getLast?, isWhiteSpace c = false := by
  intro c hc
  have hne : List.rdropWhile isWhiteSpace (l.dropWhile isWhiteSpace) ≠ [] := by
    intro h
    have : trim l = [] := h
    simp [this] at hc
  have := List.rdropWhile_last_not isWhiteSpace (l.dropWhile isWhiteSpace) hne
  have h2 : (trim l).getLast? = some ((List.rdropWhile isWhiteSpace
      (l.dropWhile isWhiteSpace)).getLast hne) := List.getLast?_eq_getLast _ hne
  rw [h2] at hc
  simp at hc
  subst hc
  simpa using this

/-- What the collapse and the trim leave has the normal shape. -/
theorem wsNormal_trim_collapse (l : List Nat) : WsNormal (trim (collapseWhiteSpace l)) := by
  refine ⟨?_, ?_, trim_head _, trim_last _⟩
  · intro c hc hw
    rcases mem_collapseFrom c false l (mem_trim c _ hc) with h | h
    · exact h
    · rw [h.2] at hw; cases hw
  · exact List.Chain'.infix (collapseFrom_chain false l) (trim_within _)

/-- The collapse and the trim leave a list of the normal shape as it is. -/
theorem trim_collapse_of_normal (l : List Nat) (h : WsNormal l) :
    trim (collapseWhiteSpace l) = l := by
  obtain ⟨h1, h2, h3, h4⟩ := h
  rw [collapseWhiteSpace, collapseFrom_of_normal l false h1 h2 (by simp), trim_of_ends l h3 h4]

theorem dropWhile_collapseFrom (q : List Nat) :
    (collapseFrom true q).dropWhile isWhiteSpace = (collapseFrom false q).dropWhile isWhiteSpace := by
  cases q with
  | nil => rfl
  | cons x xs =>
    cases hx : isWhiteSpace x with
    | true =>
      have : isWhiteSpace 0x20 = true := by decide
      simp [collapseFrom, hx, List.dropWhile, this]
    | false => simp [collapseFrom, hx]

theorem trim_append_whiteSpace (l w : List Nat) (hw : ∀ c ∈ w, isWhiteSpace c = true) :
    trim (l ++ w) = trim l := by
  induction w using List.reverseRecOn with
  | nil => simp
  | append_singleton ws x ih =>
    have hx : isWhiteSpace x = true := hw x (by simp)
    have hws : ∀ c ∈ ws, isWhiteSpace c = true := fun c hc => hw c (by simp [hc])
    rw [← ih hws]
    unfold trim
    congr 1
    by_cases hall : ∀ c ∈ l ++ ws, isWhiteSpace c = true
    · have h1 : (l ++ ws).dropWhile isWhiteSpace = [] := List.dropWhile_eq_nil_iff.mpr hall
      have h2 : (l ++ (ws ++ [x])).dropWhile isWhiteSpace = [] := by
        apply List.dropWhile_eq_nil_iff.mpr
        intro c hc
        simp only [List.mem_append, List.mem_singleton] at hc
        rcases hc with hc | hc | hc
        · exact hall c (by simp [hc])
        · exact hall c (by simp [hc])
        · exact hc ▸ hx
      rw [h1, h2]
    · have h2 : (l ++ (ws ++ [x])).dropWhile isWhiteSpace =
          (l ++ ws).dropWhile isWhiteSpace ++ [x] := by
        rw [← List.append_assoc]
        generalize l ++ ws = m at hall
        induction m with
        | nil => simp at hall
        | cons y ys ihm =>
          cases hy : isWhiteSpace y with
          | true =>
            simp only [List.cons_append, List.dropWhile, hy]
            apply ihm
            intro hc
            apply hall
            intro c hcm
            simp only [List.mem_cons] at hcm
            rcases hcm with hcm | hcm
            · exact hcm ▸ hy
            · exact hc c hcm
          | false => simp [List.dropWhile, hy]
      rw [h2, List.reverse_append]
      simp [List.dropWhile, hx]

/-! ### The lowercase mapping -/

theorem lowerRel_sigma (d : Nat) (h : d = 0x3C2 ∨ d = 0x3C3) : LowerRel 0x3A3 d := by
  have h1 := sigma_ok.1
  simp only [List.all_cons, List.all_nil, Bool.and_true, Bool.and_eq_true, beq_iff_eq,
    Bool.not_eq_true', Option.isNone_iff_eq_none] at h1
  have hw : isWhiteSpace 0x3A3 = false := by decide
  rcases h with h | h <;> subst h
  · obtain ⟨⟨⟨⟨⟨⟨a1, a2⟩, a3⟩, a4⟩, a5⟩, a6⟩, -⟩ := h1
    exact ⟨by rw [a2, sigma_ok.2.2.1], by rw [a4, hw], by simp [hw], fun _ => a6, a1, a3,
      by simp [lowerChar, a5], by decide⟩
  · obtain ⟨-, ⟨⟨⟨⟨⟨a1, a2⟩, a3⟩, a4⟩, a5⟩, a6⟩⟩ := h1
    exact ⟨by rw [a2, sigma_ok.2.2.1], by rw [a4, hw], by simp [hw], fun _ => a6, a1, a3,
      by simp [lowerChar, a5], by decide⟩

/-- The lowercase mapping sends a list of fully decomposed code points outside U+0300..U+036F
to a list of the same length, code point by code point. -/
theorem toLowerFrom_rel (l : List Nat) (b : Bool)
    (h : ∀ c ∈ l, decompose c = [c] ∧ isMark c = false) :
    List.Forall₂ LowerRel l (toLowerFrom b l) := by
  induction l generalizing b with
  | nil => exact List.Forall₂.nil
  | cons c cs ih =>
    have ht := ih (b := if isCaseIgnorable c then b else isCased c)
      (fun x hx => h x (by simp [hx]))
    by_cases hc : c = 0x3A3
    · subst hc
      by_cases hf : (b && !followedByCased cs) = true
      · simp only [toLowerFrom, if_true, hf, List.singleton_append]
        exact List.Forall₂.cons (lowerRel_sigma _ (Or.inl rfl)) ht
      · simp only [toLowerFrom, if_true, hf, List.singleton_append, if_false]
        exact List.Forall₂.cons (lowerRel_sigma _ (Or.inr rfl)) ht
    · obtain ⟨d, h1, h2, h3, h4, h5, h6, h7, h8, h9⟩ :=
        lowerChar_facts c (h c (by simp)).1 (h c (by simp)).2 hc
      simp only [toLowerFrom, hc, if_false, h1, List.singleton_append]
      exact List.Forall₂.cons ⟨h3, h5, h6, h9, h2, h4, h7, h8⟩ ht

/-- The lowercase mapping leaves a list as it is when every code point is its own lowercase
and none is the capital sigma. -/
theorem toLowerFrom_of_lower (l : List Nat) (b : Bool)
    (h : ∀ c ∈ l, lowerChar c = [c] ∧ c ≠ 0x3A3) : toLowerFrom b l = l := by
  induction l generalizing b with
  | nil => rfl
  | cons c cs ih =>
    simp only [toLowerFrom, (h c (by simp)).2, if_false, (h c (by simp)).1, List.singleton_append]
    rw [ih _ (fun x hx => h x (by simp [hx]))]

theorem forall₂_chain' {S R : Nat → Nat → Prop}
    (hR : ∀ a b c d, S a c → S b d → R a b → R c d) (x y : List Nat)
    (h : List.Forall₂ S x y) (hx : List.Chain' R x) : List.Chain' R y := by
  induction h with
  | nil => exact List.chain'_nil
  | @cons a c xs ys hab hrest ih =>
    rw [List.chain'_cons'] at hx ⊢
    refine ⟨?_, ih hx.2⟩
    intro d hd
    cases ys with
    | nil => simp at hd
    | cons d1 ys1 =>
      simp at hd
      subst hd
      obtain ⟨b, xs1, hbd, -, rfl⟩ := List.forall₂_cons_right_iff.mp hrest
      exact hR a b c d1 hab hbd (hx.1 b rfl)

theorem forall₂_head {S : Nat → Nat → Prop} (x y : List Nat) (h : List.Forall₂ S x y)
    (d : Nat) (hd : d ∈ y.head?) : ∃ c ∈ x.head?, S c d := by
  cases h with
  | nil => simp at hd
  | cons hab _ =>
    simp at hd
    subst hd
    exact ⟨_, rfl, hab⟩

theorem forall₂_mem {S : Nat → Nat → Prop} (x y : List Nat) (h : List.Forall₂ S x y)
    (d : Nat) (hd : d ∈ y) : ∃ c ∈ x, S c d := by
  induction h with
  | nil => simp at hd
  | cons hab _ ih =>
    simp only [List.mem_cons] at hd
    rcases hd with hd | hd
    · subst hd
      exact ⟨_, by simp, hab⟩
    · obtain ⟨c, hc, hs⟩ := ih hd
      exact ⟨c, by simp [hc], hs⟩

theorem ordered_of_lowerRel (x y : List Nat) (h : List.Forall₂ LowerRel x y) (hx : Ordered x) :
    Ordered y := by
  apply forall₂_chain' (S := LowerRel) _ x y h hx
  intro a b c d hac hbd hab
  rw [hac.1, hbd.1]
  exact hab

theorem wsNormal_of_lowerRel (x y : List Nat) (h : List.Forall₂ LowerRel x y)
    (hx : WsNormal x) : WsNormal y := by
  obtain ⟨h1, h2, h3, h4⟩ := hx
  refine ⟨?_, ?_, ?_, ?_⟩
  · intro d hd hw
    obtain ⟨c, hc, hs⟩ := forall₂_mem x y h d hd
    have hcw : isWhiteSpace c = true := by rw [← hs.2.1, hw]
    rw [hs.2.2.1 hcw]
    exact h1 c hc hcw
  · apply forall₂_chain' (S := LowerRel) _ x y h h2
    intro a b c d hac hbd hab
    rw [hac.2.1, hbd.2.1]
    exact hab
  · intro d hd
    obtain ⟨c, hc, hs⟩ := forall₂_head x y h d hd
    rw [hs.2.1]
    exact h3 c hc
  · intro d hd
    rw [← List.head?_reverse] at hd
    obtain ⟨c, hc, hs⟩ := forall₂_head x.reverse y.reverse (List.forall₂_reverse_iff.mpr h) d hd
    rw [hs.2.1]
    exact h4 c (by simpa using hc)

/-! ### The canonical shape of the result -/

theorem mem_beforeLower (l : List Nat) (c : Nat)
    (hc : c ∈ trim (collapseWhiteSpace (stripMarks (nfd l)))) :
    c = 0x20 ∨ (c ∈ nfd l ∧ isMark c = false) := by
  rcases mem_collapseFrom c false _ (mem_trim c _ hc) with h | h
  · exact Or.inl h
  · exact Or.inr ((mem_stripMarks c _).mp h.1)

theorem beforeLower_facts (l : List Nat) (c : Nat)
    (hc : c ∈ trim (collapseWhiteSpace (stripMarks (nfd l)))) :
    decompose c = [c] ∧ isMark c = false := by
  rcases mem_beforeLower l c hc with h | h
  · subst h
    obtain ⟨-, h2, -, -, -, -, d, h7, -⟩ := whiteSpace_facts 0x20 (by decide)
    exact ⟨by decide!, h2⟩
  · exact ⟨nfd_decomposed l c h.1, h.2⟩

/-- The relation between the text before the lowercase mapping and the result. -/
theorem normalizeCP_rel (l : List Nat) :
    List.Forall₂ LowerRel (trim (collapseWhiteSpace (stripMarks (nfd l)))) (normalizeCP l) :=
  toLowerFrom_rel _ false (beforeLower_facts l)

/-- The result of `normalize` has the canonical shape. -/
theorem canonical_normalizeCP (l : List Nat) : Canonical (normalizeCP l) := by
  have hrel := normalizeCP_rel l
  refine ⟨?_, wsNormal_of_lowerRel _ _ hrel (wsNormal_trim_collapse _)⟩
  intro d hd
  obtain ⟨c, -, hs⟩ := forall₂_mem _ _ hrel d hd
  exact ⟨hs.2.2.2.2.1, hs.2.2.2.2.2.1, hs.2.2.2.2.2.2.1, hs.2.2.2.2.2.2.2⟩

/-- The result of `normalize` is in canonical order when the text has no U+034F. -/
theorem ordered_normalizeCP (l : List Nat) (h : 0x34F ∉ l) : Ordered (normalizeCP l) := by
  have hn : 0x34F ∉ nfd l := by
    intro hm
    obtain ⟨c, hc, hd⟩ := (mem_nfd _ _).mp hm
    exact decompose_ne_cgj c _ (fun hcc => h (hcc ▸ hc)) hd rfl
  exact ordered_of_lowerRel _ _ (normalizeCP_rel l)
    (ordered_trim _ (ordered_collapseWhiteSpace _ (ordered_stripMarks _ hn (ordered_nfd l))))

/-- The function `normalize` leaves a text of canonical shape in canonical order as it is. -/
theorem normalizeCP_of_canonical (l : List Nat) (h : Canonical l) (ho : Ordered l) :
    normalizeCP l = l := by
  obtain ⟨h1, h2⟩ := h
  rw [normalizeCP, nfd_of_ordered l (fun c hc => (h1 c hc).1) ho,
    stripMarks_of_no_mark l (fun c hc => (h1 c hc).2.1), trim_collapse_of_normal l h2,
    toLowerCase, toLowerFrom_of_lower l false (fun c hc => (h1 c hc).2.2)]

/-- On code points: `normalize` is idempotent on every text without U+034F. -/
theorem normalizeCP_idempotent (l : List Nat) (h : 0x34F ∉ l) :
    normalizeCP (normalizeCP l) = normalizeCP l :=
  normalizeCP_of_canonical _ (canonical_normalizeCP l) (ordered_normalizeCP l h)

theorem scalar_normalizeCP (l : List Nat) (h : ∀ c ∈ l, isScalar c = true) :
    ∀ d ∈ normalizeCP l, isScalar d = true := by
  intro d hd
  obtain ⟨c, hc, hs⟩ := forall₂_mem _ _ (normalizeCP_rel l) d hd
  apply hs.2.2.2.1
  rcases mem_beforeLower l c hc with h1 | h1
  · subst h1; decide
  · obtain ⟨e, he, hce⟩ := (mem_nfd _ _).mp h1.1
    exact decompose_scalar e c (h e he) hce

/-! ### Strings and code points -/

theorem isScalar_toNat (c : Char) : isScalar c.toNat = true := by
  have := c.valid
  simp only [UInt32.isValidChar, Nat.isValidChar] at this
  simp only [isScalar, Char.toNat, Bool.or_eq_true, decide_eq_true_eq, Bool.and_eq_true]
  omega

theorem toNat_ofNat (n : Nat) (h : isScalar n = true) : (Char.ofNat n).toNat = n := by
  simp only [isScalar, Bool.or_eq_true, decide_eq_true_eq, Bool.and_eq_true] at h
  have hv : n.isValidChar := by
    simp only [Nat.isValidChar]
    omega
  simp [Char.ofNat, hv, Char.ofNatAux, Char.toNat]
  rfl

theorem codePoints_ofCodePoints (l : List Nat) (h : ∀ c ∈ l, isScalar c = true) :
    codePoints (ofCodePoints l) = l := by
  induction l with
  | nil => rfl
  | cons c cs ih =>
    have := ih (fun x hx => h x (by simp [hx]))
    simp only [codePoints, ofCodePoints, List.map_cons, List.cons.injEq] at this ⊢
    exact ⟨toNat_ofNat c (h c (by simp)), this⟩

theorem scalar_codePoints (s : String) : ∀ c ∈ codePoints s, isScalar c = true := by
  intro c hc
  simp only [codePoints, List.mem_map] at hc
  obtain ⟨x, -, rfl⟩ := hc
  exact isScalar_toNat x

theorem codePoints_normalize (s : String) :
    codePoints (normalize s) = normalizeCP (codePoints s) :=
  codePoints_ofCodePoints _ (scalar_normalizeCP _ (scalar_codePoints s))

theorem codePoints_append (a b : String) : codePoints (a ++ b) = codePoints a ++ codePoints b := by
  simp [codePoints]

/-- The function `normalize` is idempotent on every string without U+034F. -/
theorem normalize_idempotent (s : String) (h : 0x34F ∉ codePoints s) :
    normalize (normalize s) = normalize s := by
  rw [normalize, codePoints_normalize, normalizeCP_idempotent _ h]
  rfl

/-! ### Extra white space -/

theorem flatMap_decompose_whiteSpace (w : List Nat) (hw : ∀ c ∈ w, isWhiteSpace c = true) :
    (∀ d ∈ w.flatMap decompose, isWhiteSpace d = true) ∧ (w ≠ [] → w.flatMap decompose ≠ []) := by
  induction w with
  | nil => simp
  | cons c cs ih =>
    obtain ⟨-, -, -, -, -, -, d, hd, hdw⟩ := whiteSpace_facts c (hw c (by simp))
    have := ih (fun x hx => hw x (by simp [hx]))
    constructor
    · intro e he
      simp only [List.flatMap_cons, hd, List.singleton_append, List.mem_cons] at he
      rcases he with he | he
      · exact he ▸ hdw
      · exact this.1 e he
    · intro _
      simp [List.flatMap_cons, hd]

theorem whiteSpace_starter (w : List Nat) (hw : ∀ c ∈ w, isWhiteSpace c = true) :
    ∀ c ∈ w, ccc c = 0 := fun c hc => (whiteSpace_facts c (hw c hc)).1

theorem stripMarks_whiteSpace (w : List Nat) (hw : ∀ c ∈ w, isWhiteSpace c = true) :
    stripMarks w = w :=
  stripMarks_of_no_mark w (fun c hc => (whiteSpace_facts c (hw c hc)).2.1)

theorem stripMarks_append (a b : List Nat) : stripMarks (a ++ b) = stripMarks a ++ stripMarks b := by
  simp [stripMarks]

/-- The text behind NFD and the removal of marks, when a run of white space stands between two
parts: the parts are treated apart. -/
theorem strip_nfd_run (a w b : List Nat) (hw : ∀ c ∈ w, isWhiteSpace c = true) (hne : w ≠ []) :
    stripMarks (nfd (a ++ w ++ b)) =
      stripMarks (nfd a) ++ w.flatMap decompose ++ stripMarks (nfd b) := by
  obtain ⟨h1, h2⟩ := flatMap_decompose_whiteSpace w hw
  have h3 := whiteSpace_starter _ h1
  cases hW : w.flatMap decompose with
  | nil => exact absurd hW (h2 hne)
  | cons y ys =>
    rw [hW] at h1 h3
    have : nfd (a ++ w ++ b) = nfd a ++ (y :: ys) ++ nfd b := by
      simp only [nfd, List.flatMap_append, hW, List.append_assoc, List.cons_append]
      rw [canonicalOrder_append_starter _ _ y (h3 y (by simp)),
        canonicalOrder_starters ys _ (fun x hx => h3 x (by simp [hx]))]
    rw [this, stripMarks_append, stripMarks_append, stripMarks_whiteSpace _ h1]

theorem collapseFrom_run (b : Bool) (w q : List Nat) (hw : ∀ c ∈ w, isWhiteSpace c = true)
    (hne : w ≠ []) :
    collapseFrom b (w ++ q) = (if b then [] else [0x20]) ++ collapseFrom true q := by
  cases w with
  | nil => exact absurd rfl hne
  | cons x xs =>
    have hx := hw x (by simp)
    have hxs := collapseFrom_true_whiteSpace xs q (fun c hc => hw c (by simp [hc]))
    cases b <;> simp [collapseFrom, hx, hxs]

/-- A run of white space inside a text may be replaced by any other run: the result of
`normalize` is the same. -/
theorem normalizeCP_run (a b w1 w2 : List Nat) (h1 : ∀ c ∈ w1, isWhiteSpace c = true)
    (h2 : ∀ c ∈ w2, isWhiteSpace c = true) (hne1 : w1 ≠ []) (hne2 : w2 ≠ []) :
    normalizeCP (a ++ w1 ++ b) = normalizeCP (a ++ w2 ++ b) := by
  have key : ∀ w : List Nat, (∀ c ∈ w, isWhiteSpace c = true) → w ≠ [] →
      collapseWhiteSpace (stripMarks (nfd (a ++ w ++ b))) =
        collapseFrom false (stripMarks (nfd a)) ++
          ((if runAfter false (stripMarks (nfd a)) then [] else [0x20]) ++
            collapseFrom true (stripMarks (nfd b))) := by
    intro w hw hne
    obtain ⟨g1, g2⟩ := flatMap_decompose_whiteSpace w hw
    rw [strip_nfd_run a w b hw hne, collapseWhiteSpace, List.append_assoc, collapseFrom_append,
      collapseFrom_run _ _ _ g1 (g2 hne)]
  simp only [normalizeCP, key w1 h1 hne1, key w2 h2 hne2]

/-- Leading white space does not change the result of `normalize`. -/
theorem normalizeCP_leading (w l : List Nat) (hw : ∀ c ∈ w, isWhiteSpace c = true) :
    normalizeCP (w ++ l) = normalizeCP l := by
  by_cases hne : w = []
  · simp [hne]
  obtain ⟨g1, g2⟩ := flatMap_decompose_whiteSpace w hw
  have h := strip_nfd_run [] w l hw hne
  have hnil : stripMarks (nfd []) = [] := rfl
  rw [List.nil_append, hnil, List.nil_append] at h
  have hc : trim (collapseWhiteSpace (stripMarks (nfd (w ++ l)))) =
      trim (collapseWhiteSpace (stripMarks (nfd l))) := by
    rw [h, collapseWhiteSpace, collapseFrom_run _ _ _ g1 (g2 hne)]
    simp only [Bool.false_eq_true, if_false, List.singleton_append]
    unfold trim
    have : isWhiteSpace 0x20 = true := by decide
    rw [List.dropWhile_cons_of_pos this, dropWhile_collapseFrom]
    rfl
  rw [normalizeCP, hc]
  rfl

/-- Trailing white space does not change the result of `normalize`. -/
theorem normalizeCP_trailing (l w : List Nat) (hw : ∀ c ∈ w, isWhiteSpace c = true) :
    normalizeCP (l ++ w) = normalizeCP l := by
  by_cases hne : w = []
  · simp [hne]
  obtain ⟨g1, g2⟩ := flatMap_decompose_whiteSpace w hw
  have h := strip_nfd_run l w [] hw hne
  have hnil : stripMarks (nfd []) = [] := rfl
  rw [List.append_nil, hnil, List.append_nil] at h
  have hc : trim (collapseWhiteSpace (stripMarks (nfd (l ++ w)))) =
      trim (collapseWhiteSpace (stripMarks (nfd l))) := by
    rw [h, collapseWhiteSpace, collapseFrom_append]
    exact trim_append_whiteSpace _ _ (collapseFrom_whiteSpace _ _ g1)
  rw [normalizeCP, hc]
  rfl

/-! ### The case of ASCII letters -/

theorem sameUpToCase_cases (x y : Nat) (h : SameUpToCase x y) :
    x = y ∨ ∃ n, n < 26 ∧ ((x = 65 + n ∧ y = 97 + n) ∨ (x = 97 + n ∧ y = 65 + n)) := by
  unfold SameUpToCase lowerAscii at h
  split at h <;> split at h
  · left; omega
  · right; exact ⟨x - 65, by omega, Or.inl ⟨by omega, by omega⟩⟩
  · right; exact ⟨y - 65, by omega, Or.inr ⟨by omega, by omega⟩⟩
  · left; exact h

theorem letter_facts (n : Nat) (hn : n < 26) :
    isMark (65 + n) = false ∧ isMark (97 + n) = false ∧
    isWhiteSpace (65 + n) = false ∧ isWhiteSpace (97 + n) = false ∧
    65 + n ≠ 0x3A3 ∧ 97 + n ≠ 0x3A3 := by
  refine ⟨?_, ?_, ?_, ?_, by omega, by omega⟩
  · simp only [isMark, Bool.and_eq_false_iff, decide_eq_false_iff_not]; omega
  · simp only [isMark, Bool.and_eq_false_iff, decide_eq_false_iff_not]; omega
  · simp only [isWhiteSpace, Bool.or_eq_false_iff, decide_eq_false_iff_not,
      Bool.and_eq_false_iff]; omega
  · simp only [isWhiteSpace, Bool.or_eq_false_iff, decide_eq_false_iff_not,
      Bool.and_eq_false_iff]; omega

/-- Two code points that are equal up to ASCII case are treated alike by every step of
`normalize`. -/
theorem sameUpToCase_facts (x y : Nat) (h : SameUpToCase x y) :
    List.Forall₂ SameUpToCase (decompose x) (decompose y) ∧ ccc x = ccc y ∧
    isMark x = isMark y ∧ isWhiteSpace x = isWhiteSpace y ∧ (x = 0x3A3 ↔ y = 0x3A3) ∧
    lowerChar x = lowerChar y ∧ isCased x = isCased y ∧
    isCaseIgnorable x = isCaseIgnorable y := by
  rcases sameUpToCase_cases x y h with rfl | ⟨n, hn, ⟨rfl, rfl⟩ | ⟨rfl, rfl⟩⟩
  · exact ⟨List.forall₂_same.mpr (fun _ _ => rfl), rfl, rfl, rfl, Iff.rfl, rfl, rfl, rfl⟩
  · obtain ⟨a1, a2, a3, a4, a5, a6, a7, a8, a9, a10⟩ := ascii_letters_ok n hn
    obtain ⟨b1, b2, b3, b4, b5, b6⟩ := letter_facts n hn
    rw [a1, a2, a3, a4, a5, a6, a7, a8, a9, a10, b1, b2, b3, b4]
    exact ⟨List.Forall₂.cons h List.Forall₂.nil, rfl, rfl, rfl, by simp [b5, b6], rfl, rfl, rfl⟩
  · obtain ⟨a1, a2, a3, a4, a5, a6, a7, a8, a9, a10⟩ := ascii_letters_ok n hn
    obtain ⟨b1, b2, b3, b4, b5, b6⟩ := letter_facts n hn
    rw [a1, a2, a3, a4, a5, a6, a7, a8, a9, a10, b1, b2, b3, b4]
    exact ⟨List.Forall₂.cons h List.Forall₂.nil, rfl, rfl, rfl, by simp [b5, b6], rfl, rfl, rfl⟩

theorem insertMark_rel (c d : Nat) (l m : List Nat) (hcd : SameUpToCase c d)
    (h : List.Forall₂ SameUpToCase l m) :
    List.Forall₂ SameUpToCase (insertMark c l) (insertMark d m) := by
  induction h with
  | nil => exact List.Forall₂.cons hcd List.Forall₂.nil
  | @cons a b xs ys hab hrest ih =>
    have e1 := (sameUpToCase_facts a b hab).2.1
    have e2 := (sameUpToCase_facts c d hcd).2.1
    simp only [insertMark, e1, e2]
    split
    · exact List.Forall₂.cons hab ih
    · exact List.Forall₂.cons hcd (List.Forall₂.cons hab hrest)

theorem canonicalOrder_rel (l m : List Nat) (h : List.Forall₂ SameUpToCase l m) :
    List.Forall₂ SameUpToCase (canonicalOrder l) (canonicalOrder m) := by
  induction h with
  | nil => exact List.Forall₂.nil
  | cons hab _ ih => exact insertMark_rel _ _ _ _ hab ih

theorem nfd_rel (l m : List Nat) (h : List.Forall₂ SameUpToCase l m) :
    List.Forall₂ SameUpToCase (nfd l) (nfd m) := by
  apply canonicalOrder_rel
  induction h with
  | nil => exact List.Forall₂.nil
  | cons hab _ ih =>
    rw [List.flatMap_cons, List.flatMap_cons]
    exact List.rel_append (sameUpToCase_facts _ _ hab).1 ih

theorem stripMarks_rel (l m : List Nat) (h : List.Forall₂ SameUpToCase l m) :
    List.Forall₂ SameUpToCase (stripMarks l) (stripMarks m) := by
  induction h with
  | nil => exact List.Forall₂.nil
  | @cons a b xs ys hab _ ih =>
    have e := (sameUpToCase_facts a b hab).2.2.1
    simp only [stripMarks, List.filter_cons, e] at ih ⊢
    split
    · exact List.Forall₂.cons hab ih
    · exact ih

theorem collapseFrom_rel (b : Bool) (l m : List Nat) (h : List.Forall₂ SameUpToCase l m) :
    List.Forall₂ SameUpToCase (collapseFrom b l) (collapseFrom b m) := by
  induction h generalizing b with
  | nil => exact List.Forall₂.nil
  | @cons x y xs ys hab _ ih =>
    have e := (sameUpToCase_facts x y hab).2.2.2.1
    simp only [collapseFrom, e]
    split
    · split
      · exact ih true
      · exact List.Forall₂.cons (rfl : SameUpToCase 0x20 0x20) (ih true)
    · exact List.Forall₂.cons hab (ih false)

theorem dropWhile_rel (l m : List Nat) (h : List.Forall₂ SameUpToCase l m) :
    List.Forall₂ SameUpToCase (l.dropWhile isWhiteSpace) (m.dropWhile isWhiteSpace) := by
  induction h with
  | nil => exact List.Forall₂.nil
  | @cons x y xs ys hab hrest ih =>
    have e := (sameUpToCase_facts x y hab).2.2.2.1
    simp only [List.dropWhile, e]
    split
    · exact ih
    · exact List.Forall₂.cons hab hrest

theorem trim_rel (l m : List Nat) (h : List.Forall₂ SameUpToCase l m) :
    List.Forall₂ SameUpToCase (trim l) (trim m) := by
  unfold trim
  exact List.forall₂_reverse_iff.mpr
    (dropWhile_rel _ _ (List.forall₂_reverse_iff.mpr (dropWhile_rel _ _ h)))

theorem followedByCased_rel (l m : List Nat) (h : List.Forall₂ SameUpToCase l m) :
    followedByCased l = followedByCased m := by
  induction h with
  | nil => rfl
  | cons hab _ ih =>
    obtain ⟨-, -, -, -, -, -, e1, e2⟩ := sameUpToCase_facts _ _ hab
    simp only [followedByCased, e1, e2, ih]

theorem toLowerFrom_rel_eq (b : Bool) (l m : List Nat) (h : List.Forall₂ SameUpToCase l m) :
    toLowerFrom b l = toLowerFrom b m := by
  induction h generalizing b with
  | nil => rfl
  | @cons x y xs ys hab hrest ih =>
    obtain ⟨-, -, -, -, e0, e1, e2, e3⟩ := sameUpToCase_facts x y hab
    have e4 := followedByCased_rel _ _ hrest
    by_cases hx : x = 0x3A3
    · have hy := e0.mp hx
      subst hx
      subst hy
      simp only [toLowerFrom, if_true, e4, ih]
    · have hy : ¬ y = 0x3A3 := fun hy => hx (e0.mpr hy)
      simp only [toLowerFrom, hx, hy, if_false, e1, e2, e3, ih]

theorem normalizeCP_rel_eq (l m : List Nat) (h : List.Forall₂ SameUpToCase l m) :
    normalizeCP l = normalizeCP m :=
  toLowerFrom_rel_eq false _ _
    (trim_rel _ _ (collapseFrom_rel false _ _ (stripMarks_rel _ _ (nfd_rel _ _ h))))

theorem normalizeCP_upperAscii (l : List Nat) :
    normalizeCP (l.map upperAscii) = normalizeCP l := by
  apply normalizeCP_rel_eq
  rw [List.forall₂_map_left_iff, List.forall₂_same]
  intro x _
  unfold SameUpToCase lowerAscii upperAscii
  split_ifs <;> first | rfl | omega

theorem normalizeCP_lowerAscii (l : List Nat) :
    normalizeCP (l.map lowerAscii) = normalizeCP l := by
  apply normalizeCP_rel_eq
  rw [List.forall₂_map_left_iff, List.forall₂_same]
  intro x _
  unfold SameUpToCase lowerAscii
  split_ifs <;> first | rfl | omega

theorem normalize_eq_of_codePoints (s t : String)
    (h : normalizeCP (codePoints s) = normalizeCP (codePoints t)) : normalize s = normalize t := by
  simp only [normalize, h]

theorem codePoints_asciiUpperCase (s : String) :
    codePoints (asciiUpperCase s) = (codePoints s).map upperAscii := by
  apply codePoints_ofCodePoints
  intro c hc
  obtain ⟨x, hx, rfl⟩ := List.mem_map.mp hc
  have := scalar_codePoints s x hx
  simp only [isScalar, Bool.or_eq_true, decide_eq_true_eq, Bool.and_eq_true, upperAscii] at this ⊢
  split <;> omega

theorem codePoints_asciiLowerCase (s : String) :
    codePoints (asciiLowerCase s) = (codePoints s).map lowerAscii := by
  apply codePoints_ofCodePoints
  intro c hc
  obtain ⟨x, hx, rfl⟩ := List.mem_map.mp hc
  have := scalar_codePoints s x hx
  simp only [isScalar, Bool.or_eq_true, decide_eq_true_eq, Bool.and_eq_true, lowerAscii] at this ⊢
  split <;> omega

theorem codePoints_ne_nil (w : String) (h : w ≠ "") : codePoints w ≠ [] := by
  intro hc
  apply h
  cases w with
  | mk d =>
    simp only [codePoints, List.map_eq_nil_iff] at hc
    subst hc
    rfl

/-- Claim C6, counterexample. The string U+0591 U+034F U+05B0 (two Hebrew marks held apart by a
combining grapheme joiner) is normalized to U+0591 U+05B0, and that to U+05B0 U+0591: the
removal of U+034F, a starter of the range U+0300..U+036F, leaves the marks out of canonical
order, and the second NFD reorders them. -/
theorem C6_counterexample :
    normalize "\u0591\u034f\u05b0" = "\u0591\u05b0" ∧
    normalize (normalize "\u0591\u034f\u05b0") = "\u05b0\u0591" ∧
    normalize (normalize "\u0591\u034f\u05b0") ≠ normalize "\u0591\u034f\u05b0" := by decide!

/-- Claim C6, amended. The function `normalize` (NFD, removal of U+0300..U+036F, collapse of
white space, trim, lowercase, in that order) is idempotent on every string that does not
contain U+034F: `normalize(normalize(s))` equals `normalize(s)`. -/
theorem C6_normalize_idempotent (s : String) (h : 0x34F ∉ codePoints s) :
    normalize (normalize s) = normalize s := normalize_idempotent s h

/-- Claim C6, witness: the theorem at a concrete input. -/
theorem C6_witness : normalize (normalize "  Canela  y CAFÉ ") = normalize "  Canela  y CAFÉ " :=
  C6_normalize_idempotent "  Canela  y CAFÉ " (by decide!)

theorem ordered_of_fixed (y : List Nat) (hy : normalizeCP y = y) (hcan : Canonical y) :
    Ordered y := by
  have hrel := normalizeCP_rel y
  rw [hy] at hrel
  refine ordered_of_lowerRel _ _ hrel (ordered_trim _ (ordered_collapseWhiteSpace _ ?_))
  rw [stripMarks_of_no_mark]
  · exact ordered_nfd _
  · intro c hc
    obtain ⟨e, he, hce⟩ := (mem_nfd _ _).mp hc
    have hde := (hcan.1 e he).1
    rw [hde] at hce
    have hceq : c = e := List.mem_singleton.mp hce
    rw [hceq]
    exact (hcan.1 e he).2.1

/-- In general `normalize` is idempotent on a string exactly when its result is in canonical
order. -/
theorem normalize_idempotent_iff (s : String) :
    normalize (normalize s) = normalize s ↔ Ordered (normalizeCP (codePoints s)) := by
  constructor
  · intro h
    have h2 := congrArg codePoints h
    rw [codePoints_normalize (normalize s), codePoints_normalize s] at h2
    exact ordered_of_fixed _ h2 (canonical_normalizeCP _)
  · intro h
    have := normalizeCP_of_canonical _ (canonical_normalizeCP (codePoints s)) h
    unfold normalize
    rw [codePoints_ofCodePoints _ (scalar_normalizeCP _ (scalar_codePoints s)), this]

/-- Claim C7. The function `normalize` sends `Café`, `cafe` and `CAFÉ ` (with a trailing space)
to `cafe`; and for every string it gives the same result on the string, on the string with its
ASCII letters in upper case or in lower case, on the string with leading or trailing white
space added, and on the string with a run of white space in it replaced by another run. -/
theorem C7_normalize_insensitive :
    (normalize "Café" = "cafe" ∧ normalize "cafe" = "cafe" ∧ normalize "CAFÉ " = "cafe") ∧
    (∀ s : String, normalize (asciiUpperCase s) = normalize s ∧
      normalize (asciiLowerCase s) = normalize s) ∧
    (∀ s w : String, IsWhiteSpaceString w →
      normalize (w ++ s) = normalize s ∧ normalize (s ++ w) = normalize s) ∧
    (∀ a b w1 w2 : String, IsWhiteSpaceString w1 → IsWhiteSpaceString w2 → w1 ≠ "" → w2 ≠ "" →
      normalize (a ++ w1 ++ b) = normalize (a ++ w2 ++ b)) := by
  refine ⟨by decide!, ?_, ?_, ?_⟩
  · intro s
    constructor
    · apply normalize_eq_of_codePoints
      rw [codePoints_asciiUpperCase, normalizeCP_upperAscii]
    · apply normalize_eq_of_codePoints
      rw [codePoints_asciiLowerCase, normalizeCP_lowerAscii]
  · intro s w hw
    constructor
    · apply normalize_eq_of_codePoints
      rw [codePoints_append, normalizeCP_leading _ _ hw]
    · apply normalize_eq_of_codePoints
      rw [codePoints_append, normalizeCP_trailing _ _ hw]
  · intro a b w1 w2 h1 h2 hne1 hne2
    apply normalize_eq_of_codePoints
    simp only [codePoints_append]
    exact normalizeCP_run _ _ _ _ h1 h2 (codePoints_ne_nil _ hne1) (codePoints_ne_nil _ hne2)

/-- Claim C7, witness: the theorem at a concrete input. -/
theorem C7_witness :
    normalize ("Vainilla" ++ " \t\n " ++ "dulce") = normalize ("Vainilla" ++ " " ++ "dulce") :=
  C7_normalize_insensitive.2.2.2 "Vainilla" "dulce" " \t\n " " "
    (by unfold IsWhiteSpaceString; decide!) (by unfold IsWhiteSpaceString; decide!)
    (by decide) (by decide)

/-! ### The signature gate on strings -/

theorem utf8Encode_append_inj (c d : Nat) (r1 r2 : List Nat) (hc : c < 0x110000)
    (hd : d < 0x110000) (h : utf8Encode c ++ r1 = utf8Encode d ++ r2) : c = d ∧ r1 = r2 := by
  unfold utf8Encode at h
  split_ifs at h <;>
    simp only [List.cons_append, List.nil_append, List.cons.injEq] at h <;>
    first
    | (exfalso; have := h.1; omega)
    | (obtain ⟨h1, h2⟩ := h; exact ⟨by omega, h2⟩)
    | (obtain ⟨h1, h2, h3⟩ := h; exact ⟨by omega, h3⟩)
    | (obtain ⟨h1, h2, h3, h4⟩ := h; exact ⟨by omega, h4⟩)
    | (obtain ⟨h1, h2, h3, h4, h5⟩ := h; exact ⟨by omega, h5⟩)

theorem utf8_inj (l m : List Nat) (hl : ∀ c ∈ l, c < 0x110000) (hm : ∀ c ∈ m, c < 0x110000)
    (h : l.flatMap utf8Encode = m.flatMap utf8Encode) : l = m := by
  induction l generalizing m with
  | nil =>
    cases m with
    | nil => rfl
    | cons d ds =>
      exfalso
      simp only [List.flatMap_nil, List.flatMap_cons] at h
      have := congrArg List.length h
      unfold utf8Encode at this
      split_ifs at this <;> simp at this
  | cons c cs ih =>
    cases m with
    | nil =>
      exfalso
      simp only [List.flatMap_nil, List.flatMap_cons] at h
      have := congrArg List.length h
      unfold utf8Encode at this
      split_ifs at this <;> simp at this
    | cons d ds =>
      simp only [List.flatMap_cons] at h
      obtain ⟨h1, h2⟩ := utf8Encode_append_inj c d _ _ (hl c (by simp)) (hm d (by simp)) h
      rw [h1, ih ds (fun x hx => hl x (by simp [hx])) (fun x hx => hm x (by simp [hx])) h2]

theorem codePoints_inj (a b : String) (h : codePoints a = codePoints b) : a = b := by
  have : a.data = b.data := by
    apply List.map_injective_iff.mpr _ h
    intro x y hxy
    rw [← Char.ofNat_toNat x, ← Char.ofNat_toNat y, hxy]
  cases a; cases b; simp_all

theorem utf8_eq_iff (a b : String) : utf8 a = utf8 b ↔ a = b := by
  constructor
  · intro h
    apply codePoints_inj
    apply utf8_inj _ _ _ _ h
    · intro c hc
      have := scalar_codePoints a c hc
      simp only [isScalar, Bool.or_eq_true, decide_eq_true_eq, Bool.and_eq_true] at this
      omega
    · intro c hc
      have := scalar_codePoints b c hc
      simp only [isScalar, Bool.or_eq_true, decide_eq_true_eq, Bool.and_eq_true] at this
      omega
  · rintro rfl; rfl

/-- With a secret configured, `verifySig` on a non-empty string id and a non-empty string sig of
the byte length of the digest returns whether the sig is the digest. -/
theorem verifySig_of_same_length (rt : Runtime) (secret id sig : String) (hs : secret ≠ "")
    (hid : id ≠ "") (hsig : sig ≠ "")
    (hlen : (utf8 sig).length = (utf8 (rt.hmacSha256Hex secret id)).length) :
    verifySig rt (.json (.str id)) (.json (.str sig)) secret =
      .ok (decide (sig = rt.hmacSha256Hex secret id)) := by
  have e : (utf8 (rt.hmacSha256Hex secret id) == utf8 sig) =
      decide (sig = rt.hmacSha256Hex secret id) := by
    by_cases h : sig = rt.hmacSha256Hex secret id
    · simp [h]
    · have : utf8 (rt.hmacSha256Hex secret id) ≠ utf8 sig :=
        fun hu => h ((utf8_eq_iff _ _).mp hu).symm
      simp [h, this]
  simp [verifySig, hs, JSVal.truthy, JSON.truthy, hid, hsig, hmacHex, bufferFrom, timingSafeEqual,
    hlen, e]

/-- With a secret configured, a POST request with non-empty string id and guess and a
non-empty string sig of the byte length of the digest is answered with 401 if and only if the
sig is not the digest. -/
theorem sig_of_same_length_401_iff (rt : Runtime) (env : Env) (st : State)
    (secret id guess sig : String) (hsecret : env.SOFKA_SECRET = some secret)
    (hs : secret ≠ "") (hid : id ≠ "") (hguess : guess ≠ "") (hsig : sig ≠ "")
    (hlen : (utf8 sig).length = (utf8 (rt.hmacSha256Hex secret id)).length) :
    (handler rt env st (post (signedRequest id guess sig))).1.statusCode = 401 ↔
      sig ≠ rt.hmacSha256Hex secret id := by
  have h1 : getProperty [("id", JSON.str id), ("guess", .str guess), ("sig", .str sig)] "id"
      = .json (.str id) := getProperty_cons_self _ _ _
  have h2 : getProperty [("id", JSON.str id), ("guess", .str guess), ("sig", .str sig)] "guess"
      = .json (.str guess) := by
    rw [getProperty_cons_ne _ _ _ _ (by decide)]; exact getProperty_cons_self _ _ _
  have h3 : getProperty [("id", JSON.str id), ("guess", .str guess), ("sig", .str sig)] "sig"
      = .json (.str sig) := by
    rw [getProperty_cons_ne _ _ _ _ (by decide), getProperty_cons_ne _ _ _ _ (by decide)]
    exact getProperty_cons_self _ _ _
  have hv := verifySig_of_same_length rt secret id sig hs hid hsig hlen
  have hi : (JSVal.json (.str id)).truthy = true := by simpa [JSVal.truthy, JSON.truthy] using hid
  have hg : (JSVal.json (.str guess)).truthy = true := by
    simpa [JSVal.truthy, JSON.truthy] using hguess
  by_cases h : sig = rt.hmacSha256Hex secret id
  · rw [decide_eq_true h] at hv
    have hne : (handler rt env st (post (signedRequest id guess sig))).1.statusCode ≠ 401 := by
      rcases hl : loadCatalog env.asset st with ⟨c, st1⟩
      cases c with
      | error m =>
        simp [handler, post, signedRequest, tryBlock, parseBody, destructure, h1, h2, h3, hsecret,
          hi, hg, hv, hl]
      | ok catalog =>
        cases ha : answer rt env catalog (.json (.str id)) (.json (.str guess)) with
        | error m =>
          simp [handler, post, signedRequest, tryBlock, parseBody, destructure, h1, h2, h3,
            hsecret, hi, hg, hv, hl, ha]
        | ok r =>
          simp [handler, post, signedRequest, tryBlock, parseBody, destructure, h1, h2, h3,
            hsecret, hi, hg, hv, hl, ha]
          rcases answer_status rt env catalog _ _ r ha with h404 | h200 <;> omega
    exact ⟨fun h401 => absurd h401 hne, fun hn => absurd h hn⟩
  · rw [decide_eq_false h] at hv
    simp [handler, post, signedRequest, tryBlock, parseBody, destructure, h1, h2, h3, hsecret,
      hi, hg, hv, h]

/-! ## The gates, the cache and the shape of a normalized string -/

/-! ### C11: no secret configured -/

/-- Without a secret `verifySig` returns true, whatever the id, the sig and the runtime are. -/
theorem verifySig_no_secret (rt : Runtime) (id sig : JSVal) :
    verifySig rt id sig "" = .ok true := by
  simp [verifySig]

theorem tryBlock_no_secret_status (rt : Runtime) (env : Env) (st : State) (event : Event)
    (hs : env.SOFKA_SECRET.getD "" = "") (r : Response)
    (h : (tryBlock rt env st event).1 = .ok r) : r.statusCode ≠ 401 := by
  cases hb : parseBody event.body with
  | error m => simp [tryBlock, hb] at h
  | ok body =>
  cases hd : destructure body with
  | error m => simp [tryBlock, hb, hd] at h
  | ok t =>
  obtain ⟨id, guess, sig⟩ := t
  cases ht : (!id.truthy || !guess.truthy) with
  | true =>
    simp [tryBlock, hb, hd, ht] at h
    rw [← h]
    decide
  | false =>
  rcases hl : loadCatalog env.asset st with ⟨c, st1⟩
  cases c with
  | error m => simp [tryBlock, hb, hd, ht, hs, verifySig_no_secret, hl] at h
  | ok catalog =>
    simp [tryBlock, hb, hd, ht, hs, verifySig_no_secret, hl] at h
    rcases answer_status rt env catalog id guess r h with h1 | h1 <;> omega

/-- Claim C11. When no secret is configured (the environment variable is absent or empty, so
that the secret is the empty string), `verifySig(id, sig, secret)` returns true for every id and
every sig, an absent one included, whatever the hash function is; and the handler never answers
401. -/
theorem C11_no_secret_never_401 (rt : Runtime) (env : Env) (st : State) (event : Event)
    (hs : env.SOFKA_SECRET = none ∨ env.SOFKA_SECRET = some "") :
    (∀ id sig : JSVal, verifySig rt id sig (env.SOFKA_SECRET.getD "") = .ok true) ∧
    (handler rt env st event).1.statusCode ≠ 401 := by
  have hs2 : env.SOFKA_SECRET.getD "" = "" := by
    rcases hs with h | h <;> simp [h]
  refine ⟨fun id sig => by rw [hs2]; exact verifySig_no_secret rt id sig, ?_⟩
  by_cases h1 : event.httpMethod = some "OPTIONS"
  · simp [handler, h1]
  by_cases h2 : event.httpMethod = some "POST"
  swap
  · simp [handler, h1, h2]
  rcases ht : tryBlock rt env st event with ⟨r, st1⟩
  cases r with
  | error m => simp [handler, h1, h2, ht]
  | ok r =>
    have := tryBlock_no_secret_status rt env st event hs2 r (by rw [ht])
    simpa [handler, h1, h2, ht] using this

/-- Claim C11, witness: the theorem at a concrete input, a request without sig. -/
theorem C11_witness :
    (∀ id sig : JSVal, verifySig sampleRuntime id sig (sampleEnv.SOFKA_SECRET.getD "") = .ok true) ∧
    (handler sampleRuntime sampleEnv State.init
      (post (request "vanilla" "chocolate"))).1.statusCode ≠ 401 :=
  C11_no_secret_never_401 sampleRuntime sampleEnv State.init (post (request "vanilla" "chocolate"))
    (Or.inl rfl)

/-! ### C12: the method gate -/

/-- Claim C12. For every event with httpMethod `OPTIONS` the handler answers 200 with an empty
body, and for every event whose httpMethod is neither `OPTIONS` nor `POST` (or is absent) it
answers 405 with the body `{error: "Only POST"}`; in both cases whatever the body (malformed
JSON included), the secret, the catalog and the state are, and the state is left as it is: the
body is not parsed and the catalog is not loaded. -/
theorem C12_method_gate (rt : Runtime) (env : Env) (st : State) (event : Event) :
    (event.httpMethod = some "OPTIONS" → handler rt env st event = (⟨200, .empty⟩, st)) ∧
    (event.httpMethod ≠ some "OPTIONS" → event.httpMethod ≠ some "POST" →
      handler rt env st event = (⟨405, .error "Only POST"⟩, st)) := by
  constructor
  · intro h
    simp [handler, h]
  · intro h1 h2
    simp [handler, h1, h2]

/-- Claim C12, witness: the theorem at concrete inputs, an OPTIONS and a GET request with a
malformed body and a catalog asset that cannot be loaded. -/
theorem C12_witness :
    handler sampleRuntime { sampleEnv with asset := .error "ENOENT" } State.init
        ⟨some "OPTIONS", .text (.error "Unexpected token")⟩ = (⟨200, .empty⟩, State.init) ∧
    handler sampleRuntime { sampleEnv with asset := .error "ENOENT" } State.init
        ⟨some "GET", .text (.error "Unexpected token")⟩ =
      (⟨405, .error "Only POST"⟩, State.init) :=
  ⟨(C12_method_gate sampleRuntime _ State.init ⟨some "OPTIONS", .text (.error "Unexpected token")⟩).1
      rfl,
   (C12_method_gate sampleRuntime _ State.init ⟨some "GET", .text (.error "Unexpected token")⟩).2
      (by decide) (by decide)⟩

/-! ### C13: the catalog cache -/

/-- Claim C13, counterexample. An asset whose content is the JSON text `null` is loaded without
an exception, yet the cache stays falsy: the next call reads and parses the asset again, and the
read count goes from 1 to 2. The same holds for the contents `0`, `false` and `""`. -/
theorem C13_counterexample :
    loadCatalog (.ok .null) State.init = (.ok .null, ⟨.null, 1⟩) ∧
    loadCatalog (.ok .null) ⟨.null, 1⟩ = (.ok .null, ⟨.null, 2⟩) ∧
    (loadCatalog (.ok (.num 0)) (loadCatalog (.ok (.num 0)) State.init).2).2.reads = 2 ∧
    (loadCatalog (.ok (.bool false)) (loadCatalog (.ok (.bool false)) State.init).2).2.reads = 2 ∧
    (loadCatalog (.ok (.str "")) (loadCatalog (.ok (.str "")) State.init).2).2.reads = 2 :=
  ⟨rfl, rfl, rfl, rfl, rfl⟩

/-- After a call that returned a truthy value, the value is the cache. -/
theorem loadCatalog_cached (asset : Except String JSON) (st : State) (v : JSON)
    (h : (loadCatalog asset st).1 = .ok v) (hv : v.truthy = true) :
    (loadCatalog asset st).2.CATALOG = v := by
  unfold loadCatalog at h ⊢
  split
  · rename_i hc
    simp only [hc, if_true] at h
    cases h
    rfl
  · rename_i hc
    simp only [hc] at h
    cases asset with
    | error e => simp at h
    | ok w =>
      simp at h
      subst h
      rfl

/-- A call on a truthy cache returns the cache and leaves the state as it is. -/
theorem loadCatalog_of_cache (asset : Except String JSON) (st : State)
    (h : st.CATALOG.truthy = true) : loadCatalog asset st = (.ok st.CATALOG, st) := by
  simp [loadCatalog, h]

theorem loadCatalogs_of_cache (assets : List (Except String JSON)) (st : State)
    (h : st.CATALOG.truthy = true) :
    loadCatalogs assets st = (assets.map (fun _ => .ok st.CATALOG), st) := by
  induction assets with
  | nil => rfl
  | cons a as ih => simp [loadCatalogs, loadCatalog_of_cache a st h, ih]

/-- Claim C13, amended. After a call of `loadCatalog` that returned a truthy value (an object, an
array, a non-empty string, a non-zero number or `true`), every later call returns the same
value and leaves the read count (and the whole state) as it is, whatever the asset then holds
and however many calls follow. -/
theorem C13_cached_after_truthy_load (asset : Except String JSON) (st : State) (v : JSON)
    (h : (loadCatalog asset st).1 = .ok v) (hv : v.truthy = true) :
    (∀ later : Except String JSON,
      loadCatalog later (loadCatalog asset st).2 = (.ok v, (loadCatalog asset st).2)) ∧
    (∀ laters : List (Except String JSON),
      loadCatalogs laters (loadCatalog asset st).2 =
        (laters.map (fun _ => .ok v), (loadCatalog asset st).2)) := by
  have hc := loadCatalog_cached asset st v h hv
  have ht : (loadCatalog asset st).2.CATALOG.truthy = true := by rw [hc]; exact hv
  constructor
  · intro later
    rw [loadCatalog_of_cache later _ ht, hc]
  · intro laters
    rw [loadCatalogs_of_cache laters _ ht, hc]

/-- Claim C13, witness: the theorem at a concrete input, the sample catalog loaded in a fresh
process. -/
theorem C13_witness :
    (∀ later : Except String JSON,
      loadCatalog later (loadCatalog (.ok sampleCatalog) State.init).2 =
        (.ok sampleCatalog, (loadCatalog (.ok sampleCatalog) State.init).2)) ∧
    (∀ laters : List (Except String JSON),
      loadCatalogs laters (loadCatalog (.ok sampleCatalog) State.init).2 =
        (laters.map (fun _ => .ok sampleCatalog),
          (loadCatalog (.ok sampleCatalog) State.init).2)) :=
  C13_cached_after_truthy_load (.ok sampleCatalog) State.init sampleCatalog rfl rfl

/-- A fresh process reads the asset once when it parses to a truthy value. -/
theorem loadCatalog_reads_once (v : JSON) (hv : v.truthy = true)
    (laters : List (Except String JSON)) :
    (loadCatalogs laters (loadCatalog (.ok v) State.init).2).2.reads = 1 := by
  have h : (loadCatalog (.ok v) State.init).1 = .ok v := rfl
  have ht : (loadCatalog (.ok v) State.init).2.CATALOG.truthy = true := by
    rw [loadCatalog_cached _ _ v h hv]; exact hv
  rw [loadCatalogs_of_cache laters _ ht]
  rfl

/-! ### C14: the signature check comes before the catalog -/

/-- Claim C14. With a secret configured, every POST request with truthy id and guess and an
absent (or otherwise falsy) sig is answered with the same 401, whatever the catalog asset (even
one that cannot be loaded), the cache and the read count are, and the state is left as it is:
the catalog is neither loaded nor consulted. -/
theorem C14_unsigned_learns_nothing (rt : Runtime) (env : Env) (st : State) (event : Event)
    (secret : String) (body : JSON) (id guess sig : JSVal)
    (hsecret : env.SOFKA_SECRET = some secret) (hs : secret ≠ "")
    (hpost : event.httpMethod = some "POST")
    (hbody : parseBody event.body = .ok body)
    (hfields : destructure body = .ok (id, guess, sig))
    (hid : id.truthy = true) (hguess : guess.truthy = true) (hsig : sig.truthy = false) :
    handler rt env st event = (⟨401, .error "Firma inválida"⟩, st) ∧
    ∀ (asset : Except String JSON) (st2 : State),
      (handler rt { env with asset := asset } st2 event).1 = (handler rt env st event).1 := by
  have hv : ∀ s, s ≠ "" → verifySig rt id sig s = .ok false := by
    intro s hne
    simp [verifySig, hne, hid, hsig]
  have key : ∀ (e : Env) (s : State), e.SOFKA_SECRET = some secret →
      handler rt e s event = (⟨401, .error "Firma inválida"⟩, s) := by
    intro e s he
    simp [handler, hpost, tryBlock, hbody, hfields, hid, hguess, he, hv secret hs]
  refine ⟨key env st hsecret, ?_⟩
  intro asset st2
  rw [key env st hsecret, key { env with asset := asset } st2 hsecret]

/-- Claim C14, witness: the theorem at a concrete input, a request without sig for an id that
the catalog has. -/
theorem C14_witness :
    handler sampleRuntime secretEnv State.init (post (request "vanilla" "vainilla")) =
      (⟨401, .error "Firma inválida"⟩, State.init) ∧
    ∀ (asset : Except String JSON) (st2 : State),
      (handler sampleRuntime { secretEnv with asset := asset } st2
        (post (request "vanilla" "vainilla"))).1 =
      (handler sampleRuntime secretEnv State.init (post (request "vanilla" "vainilla"))).1 :=
  C14_unsigned_learns_nothing sampleRuntime secretEnv State.init
    (post (request "vanilla" "vainilla")) "s3cret" (request "vanilla" "vainilla")
    (.json (.str "vanilla")) (.json (.str "vainilla")) .undefined rfl (by decide) rfl rfl rfl rfl
    rfl rfl

/-! ### C16: no code is issued expired -/

theorem huge_expiry :
    addNumber 1700000000000 (mulNumber (mulNumber (mulNumber (mulNumber
      (toDouble (10 ^ 301)) 24) 60) 60) 1000) = none := by decide!

/-- Claim C16, counterexample. A record whose validDays is written `1e301`, a non-negative
integer, is matched and the product `days * 24 * 60 * 60 * 1000` is no longer a finite number:
`expiresAt` is `Infinity`, which the response carries as `null`, not as a number greater than
the clock time. -/
theorem C16_counterexample :
    consultedRecord sampleRuntime hugeEnv State.init (post (request "vanilla" "vainilla")) =
      some (.json hugeRecord) ∧
    field (.json hugeRecord) "validDays" = .json (.num (10 ^ 301)) ∧
    (handler sampleRuntime hugeEnv State.init (post (request "vanilla" "vainilla"))).1 =
      ⟨200, .matched (.json (.num 15)) "SOFKA-vanilla-4FZYO8" none⟩ := by
  refine ⟨rfl, rfl, ?_⟩
  rw [handler_of_record sampleRuntime hugeEnv State.init (post (request "vanilla" "vainilla"))
    [("id", .str "vanilla"), ("guess", .str "vainilla")] "vainilla"
    (.obj [("vanilla", hugeRecord)]) (.json hugeRecord) rfl rfl rfl rfl (by decide) rfl rfl rfl
    rfl]
  have hm : isMatch (.json (.str "vainilla")) (.json hugeRecord) = .ok true := rfl
  have ht : (JSVal.json (.num (10 ^ 301))).truthy = true := by decide!
  have hd : orElse (field (.json hugeRecord) "validDays") (.json (.num 7)) =
      .json (.num (10 ^ 301)) := by
    have hf : field (.json hugeRecord) "validDays" = .json (.num (10 ^ 301)) := rfl
    rw [orElse, hf, if_pos ht]
  have hi := issue_num sampleRuntime hugeEnv (.json (.str "vanilla")) (.json hugeRecord)
    "vanilla" (10 ^ 301) rfl hd
  have hp : getProperty [("id", JSON.str "vanilla"), ("guess", JSON.str "vainilla")] "id" =
      .json (.str "vanilla") := rfl
  rw [hm, hp, hi]
  show (⟨200, .matched _ _ (addNumber 1700000000000 _)⟩ : Response) = _
  rw [huge_expiry]
  rfl

/-- Claim C16, amended. For every successful match at a clock time that is a time value, on a
record whose validDays is absent or is a non-negative integer: `expiresAt`, when it is a
number, is at least one day (86400000 ms) greater than the clock time, hence strictly greater
(a validDays of 0 counts as absent and gives 7 days); and it is a number whenever validDays is
absent or is at most `10 ^ 295`. Beyond, the product can overflow, and `expiresAt` is then
`null`. -/
theorem C16_never_expired (rt : Runtime) (env : Env) (st : State) (event : Event)
    (record d : JSVal) (c : String) (e : Option Int)
    (hok : (handler rt env st event).1.body = .matched d c e)
    (hrec : consultedRecord rt env st event = some record)
    (htime : IsTimeValue env.now)
    (hdays : field record "validDays" = .undefined ∨
      ∃ n : Int, 0 ≤ n ∧ field record "validDays" = .json (.num n)) :
    (∀ x, e = some x → env.now + 86400000 ≤ x ∧ env.now < x) ∧
    ((field record "validDays" = .undefined ∨
        ∃ n : Int, 0 ≤ n ∧ n ≤ 10 ^ 295 ∧ field record "validDays" = .json (.num n)) →
      ∃ x, e = some x) := by
  obtain ⟨id, record1, hrec1, hissue⟩ := matched_inv rt env st event d c e hok
  rw [hrec] at hrec1
  cases hrec1
  obtain ⟨-, hexp⟩ := issue_inv rt env id record d c e hissue
  have key : ∃ n : Int, 1 ≤ n ∧
      orElse (field record "validDays") (.json (.num 7)) = .json (.num n) ∧
      ((field record "validDays" = .undefined ∨
        ∃ n : Int, 0 ≤ n ∧ n ≤ 10 ^ 295 ∧ field record "validDays" = .json (.num n)) →
        n ≤ 10 ^ 295) := by
    rcases hdays with h | ⟨n, hn, h⟩
    · refine ⟨7, by decide, by simp [orElse, h, JSVal.truthy], fun _ => by norm_num⟩
    · by_cases h0 : n = 0
      · refine ⟨7, by decide, by simp [orElse, h, JSVal.truthy, JSON.truthy, h0],
          fun _ => by norm_num⟩
      · refine ⟨n, by omega, by simp [orElse, h, JSVal.truthy, JSON.truthy, h0], ?_⟩
        rintro (h1 | ⟨m, -, hm, h1⟩)
        · rw [h] at h1
          cases h1
        · rw [h] at h1
          cases h1
          exact hm
  obtain ⟨n, hn1, hn, hsmall⟩ := key
  rw [hn, expiry_num] at hexp
  have hexp2 := Except.ok.inj hexp
  constructor
  · intro x hx
    rw [hx] at hexp2
    have := expiry_ge env.now n x htime hn1 hexp2
    exact ⟨this, by omega⟩
  · intro h
    obtain ⟨x, hx⟩ := expiry_finite env.now n htime hn1 (hsmall h)
    exact ⟨x, by rw [← hexp2, hx]⟩

/-- Claim C16, witness: the theorem at a concrete input, the record with `validDays: 0`. -/
theorem C16_witness :
    (∀ x, some (1700604800000 : Int) = some x →
      zeroEnv.now + 86400000 ≤ x ∧ zeroEnv.now < x) ∧
    ((field (.json zeroRecord) "validDays" = .undefined ∨
        ∃ n : Int, 0 ≤ n ∧ n ≤ 10 ^ 295 ∧ field (.json zeroRecord) "validDays" = .json (.num n)) →
      ∃ x, some (1700604800000 : Int) = some x) :=
  C16_never_expired sampleRuntime zeroEnv State.init (post (request "vanilla" "vainilla"))
    (.json zeroRecord) (.json (.num 10)) "SOFKA-vanilla-4FZYO8" (some 1700604800000) rfl rfl
    ⟨by decide, by decide⟩ (Or.inr ⟨0, le_refl 0, rfl⟩)

/-! ### C15: the canonical shape of a normalized string -/

/-- Claim C15. For every string `s` the code points of `normalize(s)` are in canonical shape:
the first and the last one are no white space, every white space among them is a U+0020, no
two white spaces are adjacent, none is in U+0300..U+036F, and lowercasing leaves them as they
are. White space is what `\s` and `trim` of the language take for it. -/
theorem C15_normalize_canonical_shape (s : String) :
    (∀ c ∈ (codePoints (normalize s)).head?, isWhiteSpace c = false) ∧
    (∀ c ∈ (codePoints (normalize s)).getLast?, isWhiteSpace c = false) ∧
    (∀ c ∈ codePoints (normalize s), isWhiteSpace c = true → c = 0x20) ∧
    List.Chain' (fun a b => ¬ (isWhiteSpace a = true ∧ isWhiteSpace b = true))
      (codePoints (normalize s)) ∧
    (∀ c ∈ codePoints (normalize s), ¬ (0x300 ≤ c ∧ c ≤ 0x36F)) ∧
    toLowerCase (codePoints (normalize s)) = codePoints (normalize s) := by
  rw [codePoints_normalize]
  obtain ⟨h1, h2, h3, h4, h5⟩ := canonical_normalizeCP (codePoints s)
  refine ⟨h4, h5, h2, h3, ?_, ?_⟩
  · intro c hc h
    have := (h1 c hc).2.1
    simp only [isMark, Bool.and_eq_false_imp, decide_eq_true_eq, decide_eq_false_iff_not] at this
    exact this h.1 h.2
  · exact toLowerFrom_of_lower _ false (fun c hc => (h1 c hc).2.2)

/-! ### C17: a guess that normalizes to the empty string -/

theorem blank_decomp_ok : decompTable.entries.all (fun e =>
    isBlank e.1 || e.2.2.any (fun d => !isBlank d)) = true := by decide!

theorem marks_decomp_ok : ∀ n < 112, (decompose (0x300 + n)).all isMark = true := by decide!

/-- The decomposition of a code point that `normalize` removes has only such code points. -/
theorem decompose_blank (c : Nat) (h : isBlank c = true) : ∀ d ∈ decompose c, isBlank d = true := by
  simp only [isBlank, Bool.or_eq_true] at h
  rcases h with h | h
  · obtain ⟨-, -, -, -, -, -, d, hd, hdw⟩ := whiteSpace_facts c h
    intro e he
    rw [hd, List.mem_singleton] at he
    simp [isBlank, he, hdw]
  · have h0 := h
    simp only [isMark, Bool.and_eq_true, decide_eq_true_eq] at h
    have := marks_decomp_ok (c - 0x300) (by omega)
    rw [show 0x300 + (c - 0x300) = c by omega] at this
    intro e he
    simp [isBlank, List.all_eq_true.mp this e he]

/-- The decomposition of any other code point has a code point that `normalize` keeps. -/
theorem decompose_not_blank (c : Nat) (h : isBlank c = false) :
    ∃ d ∈ decompose c, isBlank d = false := by
  cases hh : isHangulSyllable c with
  | true =>
    have hc := hh
    simp only [isHangulSyllable, Bool.and_eq_true, decide_eq_true_eq] at hc
    have hne : decompose c ≠ [] := by
      simp only [decompose, hh, if_true]
      split <;> simp
    obtain ⟨d, hd⟩ := List.exists_mem_of_ne_nil _ hne
    obtain ⟨n, hn, rfl⟩ := hangul_parts c hh d hd
    refine ⟨_, hd, ?_⟩
    simp only [isBlank, isWhiteSpace, isMark, Bool.or_eq_false_iff, Bool.and_eq_false_imp,
      decide_eq_true_eq, decide_eq_false_iff_not]
    omega
  | false =>
    rw [decompose_of_not_hangul c hh]
    cases hf : decompTable.find c with
    | none => exact ⟨c, by simp, h⟩
    | some out =>
      obtain ⟨lo, hi, hm, h1, h2⟩ := Tbl.find_mem _ _ _ hf
      have e1 := List.all_eq_true.mp decompTable_ok _ hm
      have e2 := List.all_eq_true.mp blank_decomp_ok _ hm
      simp only [decompEntryOk, Bool.and_eq_true, beq_iff_eq] at e1
      have hc : c = lo := by have := e1.1.1; omega
      subst hc
      simp only [h, Bool.false_or, List.any_eq_true, Bool.not_eq_true'] at e2
      simpa using e2

theorem trim_of_whiteSpace (l : List Nat) (h : ∀ c ∈ l, isWhiteSpace c = true) : trim l = [] := by
  have : l.dropWhile isWhiteSpace = [] := by
    rw [List.dropWhile_eq_nil_iff]
    exact h
  simp [trim, this]

theorem mem_collapseFrom_of_kept (x : Nat) (b : Bool) (l : List Nat) (hx : x ∈ l)
    (hw : isWhiteSpace x = false) : x ∈ collapseFrom b l := by
  induction l generalizing b with
  | nil => simp at hx
  | cons c cs ih =>
    simp only [List.mem_cons] at hx
    cases hc : isWhiteSpace c with
    | true =>
      have hne : x ≠ c := fun e => by rw [e, hc] at hw; cases hw
      have hx2 : x ∈ cs := by
        rcases hx with hx | hx
        · exact absurd hx hne
        · exact hx
      cases b <;> simp [collapseFrom, hc, ih _ hx2]
    | false =>
      rcases hx with hx | hx
      · simp [collapseFrom, hc, hx]
      · simp [collapseFrom, hc, ih _ hx]

theorem mem_dropWhile_of_kept (x : Nat) (l : List Nat) (hx : x ∈ l)
    (hw : isWhiteSpace x = false) : x ∈ l.dropWhile isWhiteSpace := by
  induction l with
  | nil => simp at hx
  | cons c cs ih =>
    simp only [List.mem_cons] at hx
    cases hc : isWhiteSpace c with
    | true =>
      have hne : x ≠ c := fun e => by rw [e, hc] at hw; cases hw
      rcases hx with hx | hx
      · exact absurd hx hne
      · simpa [List.dropWhile, hc] using ih hx
    | false => simp [List.dropWhile, hc, hx]

theorem mem_trim_of_kept (x : Nat) (l : List Nat) (hx : x ∈ l) (hw : isWhiteSpace x = false) :
    x ∈ trim l := by
  unfold trim
  rw [List.mem_reverse]
  apply mem_dropWhile_of_kept _ _ _ hw
  rw [List.mem_reverse]
  exact mem_dropWhile_of_kept _ _ hx hw

/-- On code points: the result of `normalize` is empty exactly for the texts of white space and
marks of U+0300..U+036F only. -/
theorem normalizeCP_eq_nil_iff (l : List Nat) :
    normalizeCP l = [] ↔ ∀ c ∈ l, isBlank c = true := by
  have hrel := normalizeCP_rel l
  constructor
  · intro h c hc
    by_contra hb
    rw [Bool.not_eq_true] at hb
    obtain ⟨d, hd, hdb⟩ := decompose_not_blank c hb
    simp only [isBlank, Bool.or_eq_false_iff] at hdb
    have h1 : d ∈ stripMarks (nfd l) := (mem_stripMarks _ _).mpr ⟨(mem_nfd _ _).mpr ⟨c, hc, hd⟩, hdb.2⟩
    have h2 : d ∈ trim (collapseWhiteSpace (stripMarks (nfd l))) :=
      mem_trim_of_kept _ _ (mem_collapseFrom_of_kept _ _ _ h1 hdb.1) hdb.1
    have hlen := hrel.length_eq
    rw [h, List.length_nil, List.length_eq_zero] at hlen
    rw [hlen] at h2
    simp at h2
  · intro h
    have h1 : ∀ d ∈ stripMarks (nfd l), isWhiteSpace d = true := by
      intro d hd
      obtain ⟨hd1, hd2⟩ := (mem_stripMarks _ _).mp hd
      obtain ⟨c, hc, hcd⟩ := (mem_nfd _ _).mp hd1
      have := decompose_blank c (h c hc) d hcd
      simpa [isBlank, hd2] using this
    have h2 := trim_of_whiteSpace _ (collapseFrom_whiteSpace false _ h1)
    rw [show collapseFrom false (stripMarks (nfd l)) = collapseWhiteSpace (stripMarks (nfd l)) from rfl]
      at h2
    have hlen := hrel.length_eq
    rw [h2, List.length_nil] at hlen
    exact List.length_eq_zero.mp hlen.symm

/-- The result of `normalize` is the empty string exactly for the strings of white space and
marks of U+0300..U+036F only. -/
theorem normalize_eq_empty_iff (s : String) :
    normalize s = "" ↔ ∀ c ∈ codePoints s, isBlank c = true := by
  rw [← normalizeCP_eq_nil_iff, ← codePoints_normalize]
  constructor
  · intro h
    rw [h]
    rfl
  · intro h
    simp only [codePoints, List.map_eq_nil_iff] at h
    exact String.ext h

/-- A request whose id and guess are both truthy is not answered with 400. -/
theorem present_parameters_not_400 (rt : Runtime) (env : Env) (st : State) (event : Event)
    (body : JSON) (id guess sig : JSVal)
    (hbody : parseBody event.body = .ok body)
    (hfields : destructure body = .ok (id, guess, sig))
    (hid : id.truthy = true) (hguess : guess.truthy = true) :
    (handler rt env st event).1.statusCode ≠ 400 := by
  by_cases h1 : event.httpMethod = some "OPTIONS"
  · simp [handler, h1]
  by_cases h2 : event.httpMethod = some "POST"
  swap
  · simp [handler, h1, h2]
  cases hv : verifySig rt id sig (env.SOFKA_SECRET.getD "") with
  | error m => simp [handler, h1, h2, tryBlock, hbody, hfields, hid, hguess, hv]
  | ok b =>
  cases b with
  | false => simp [handler, h1, h2, tryBlock, hbody, hfields, hid, hguess, hv]
  | true =>
  rcases hl : loadCatalog env.asset st with ⟨c, st1⟩
  cases c with
  | error m => simp [handler, h1, h2, tryBlock, hbody, hfields, hid, hguess, hv, hl]
  | ok catalog =>
    cases ha : answer rt env catalog id guess with
    | error m => simp [handler, h1, h2, tryBlock, hbody, hfields, hid, hguess, hv, hl, ha]
    | ok r =>
      have hr : (handler rt env st event).1 = r := by
        simp [handler, h1, h2, tryBlock, hbody, hfields, hid, hguess, hv, hl, ha]
      rw [hr]
      rcases answer_status rt env catalog id guess r ha with h | h <;> omega

/-- A guess that normalizes to the empty string does not match a record whose aroma is a string
and whose aroma and synonyms all normalize to non-empty strings. -/
theorem blank_guess_no_match (guess : String) (record : JSVal) (a : String)
    (hg : normalize guess = "")
    (htyped : IsCatalogRecord record)
    (haroma : field record "aroma" = .json (.str a)) (ha : normalize a ≠ "")
    (hsyn : ∀ x, JSON.str x ∈ synonymsOf record → normalize x ≠ "") :
    isMatch (.json (.str guess)) record = .ok false := by
  obtain ⟨b, hb, hiff⟩ := isMatch_of_record guess record htyped
  cases b with
  | false => exact hb
  | true =>
    exfalso
    rcases hiff.mp rfl with h | ⟨x, hx, h⟩
    · rw [hg] at h
      simp only [targetOf, haroma] at h
      exact ha h.symm
    · rw [hg] at h
      exact hsyn x hx h.symm

/-- Claim C17. A guess that is not empty but normalizes to the empty string (these are the
non-empty strings of white space and marks of U+0300..U+036F only) passes the check for a
missing parameter: such a request is never answered with 400. For a registered record without
aroma field, for one whose aroma is white space and for one with a synonym that is one
combining mark, such a guess is answered with 200, `ok: true` and a code. For every record
whose aroma is a string and whose aroma and synonyms all normalize to non-empty strings, the
answer is 200 with `{ok: false}`. -/
theorem C17_blank_guess (rt : Runtime) :
    (∀ guess : String, (guess ≠ "" ∧ normalize guess = "") ↔
      (codePoints guess ≠ [] ∧ ∀ c ∈ codePoints guess, isWhiteSpace c = true ∨ isMark c = true)) ∧
    (∀ (env : Env) (st : State) (event : Event) (kvs : List (String × JSON)) (guess : String),
      parseBody event.body = .ok (.obj kvs) → (getProperty kvs "id").truthy = true →
      getProperty kvs "guess" = .json (.str guess) → guess ≠ "" → normalize guess = "" →
      (handler rt env st event).1.statusCode ≠ 400) ∧
    ((handler rt blankEnv State.init (post (request "plain" " "))).1 =
        ⟨200, .matched (.json (.num 15)) "SOFKA-plain-4FZYO8" (some 1700604800000)⟩ ∧
     (handler rt blankEnv State.init (post (request "spaces" "\u0301"))).1 =
        ⟨200, .matched (.json (.num 10)) "SOFKA-spaces-4FZYO8" (some 1700604800000)⟩ ∧
     (handler rt blankEnv State.init (post (request "accent" "\n \u0300"))).1 =
        ⟨200, .matched (.json (.num 10)) "SOFKA-accent-4FZYO8" (some 1700604800000)⟩) ∧
    (∀ (env : Env) (st : State) (event : Event) (kvs : List (String × JSON)) (guess : String)
      (catalog : JSON) (record : JSVal) (a : String),
      event.httpMethod = some "POST" → parseBody event.body = .ok (.obj kvs) →
      (getProperty kvs "id").truthy = true →
      getProperty kvs "guess" = .json (.str guess) → guess ≠ "" → normalize guess = "" →
      verifySig rt (getProperty kvs "id") (getProperty kvs "sig") (env.SOFKA_SECRET.getD "") =
        .ok true →
      (loadCatalog env.asset st).1 = .ok catalog →
      lookupRecord rt catalog (getProperty kvs "id") = .ok record → record.truthy = true →
      IsCatalogRecord record → field record "aroma" = .json (.str a) → normalize a ≠ "" →
      (∀ x, JSON.str x ∈ synonymsOf record → normalize x ≠ "") →
      (handler rt env st event).1 = ⟨200, .notMatched⟩) := by
  refine ⟨?_, ?_, ⟨rfl, rfl, rfl⟩, ?_⟩
  · intro guess
    rw [normalize_eq_empty_iff]
    have h1 : guess ≠ "" ↔ codePoints guess ≠ [] := by
      constructor
      · intro h e
        simp only [codePoints, List.map_eq_nil_iff] at e
        exact h (String.ext e)
      · intro h e
        rw [e] at h
        exact h rfl
    simp only [h1, isBlank, Bool.or_eq_true]
  · intro env st event kvs guess hbody hid hguess hne _
    have hgt : (JSVal.json (.str guess)).truthy = true := by
      simpa [JSVal.truthy, JSON.truthy] using hne
    exact present_parameters_not_400 rt env st event (.obj kvs) (getProperty kvs "id")
      (getProperty kvs "guess") (getProperty kvs "sig") hbody rfl hid (by rw [hguess]; exact hgt)
  · intro env st event kvs guess catalog record a hpost hbody hid hguess hne hg hsig hcat hrec
      htruthy htyped haroma ha hsyn
    rw [handler_of_record rt env st event kvs guess catalog record hpost hbody hid hguess hne hsig
      hcat hrec htruthy, blank_guess_no_match guess record a hg htyped haroma ha hsyn]

/-- Claim C17, witness: the theorem at a concrete input, a guess of one space for the record of
the scenario. -/
theorem C17_witness :
    normalize " " = "" ∧
    (handler sampleRuntime sampleEnv State.init (post (request "vanilla" " "))).1.statusCode ≠ 400 ∧
    (handler sampleRuntime sampleEnv State.init (post (request "vanilla" " "))).1 =
      ⟨200, .notMatched⟩ :=
  ⟨rfl,
   (C17_blank_guess sampleRuntime).2.1 sampleEnv State.init (post (request "vanilla" " "))
     [("id", .str "vanilla"), ("guess", .str " ")] " " rfl rfl rfl (by decide) rfl,
   (C17_blank_guess sampleRuntime).2.2.2 sampleEnv State.init (post (request "vanilla" " "))
     [("id", .str "vanilla"), ("guess", .str " ")] " " sampleCatalog (.json vanillaRecord)
     "Vainilla" rfl rfl rfl rfl (by decide) rfl rfl rfl rfl rfl vanillaRecord_typed rfl
     (by decide!) (fun x hx => nomatch hx)⟩


end Validate
